import Mathlib

/-! # GraphicsWindowWin32 : a shallow embedding

Verification development for `src/osgViewer/GraphicsWindowWin32.cpp`, the Win32 / WGL
windowing backend of osgViewer.

Conventions of the embedding

* Native handles (`HWND`, `HDC`, `HGLRC`, `WNDPROC`) and object pointers are natural numbers,
  `0` being the null handle / null pointer.
* Every Win32 / WGL call that acquires, releases or changes a resource is a `NativeCall`.
  Its outcome is not computed: it is read from an oracle (`World.oracle`), indexed by the
  number of native calls issued so far, and the call is appended to `World.trace` together
  with the outcome.  Quantifying over the oracle quantifies over every behaviour of the
  operating system and of the driver.  Pure getters (`GetModuleHandle`, `GetLastError`,
  `GetKeyboardLayout`, ...) and the logging done by `reportError` are not traced; where the
  source reads `GetLastError` after a call, the error code is part of the outcome of that call.
* Messages which the operating system delivers to the window procedure are steps of their
  own (`handleNativeWindowingEvent`, `checkEvents`), not effects hidden in a native call.
* Stateful member functions take the state explicitly and return the new state.
-/

namespace OsgWin32

/-! ## Handles and the window registry -/

/-- Native window handle; `0` is the null handle. -/
abbrev HWND := Nat
/-- Native device-context handle; `0` is the null handle. -/
abbrev HDC := Nat
/-- Native OpenGL rendering-context handle; `0` is the null handle. -/
abbrev HGLRC := Nat
/-- Pointer to a `GraphicsWindowWin32` object; `0` is the null pointer. -/
abbrev WindowPtr := Nat

/-- The type `WindowHandles`, a `std::map<HWND, GraphicsWindowWin32*>`, as an association list. -/
abbrev WindowHandles := List (HWND × WindowPtr)

/-- The call `std::map::find` : the value stored under `key`, if there is one. -/
def WindowHandles.find (m : WindowHandles) (key : HWND) : Option WindowPtr :=
  List.lookup key m

/-- The call `std::map::insert(value_type)` : the pair is added only when the map holds no
element with an equivalent key; an existing element is left as it is. -/
def WindowHandles.insert (m : WindowHandles) (entry : HWND × WindowPtr) : WindowHandles :=
  match WindowHandles.find m entry.1 with
  | some _ => m
  | none => entry :: m

/-- The call `std::map::erase(key)` : removes the element stored under `key`, if any. -/
def WindowHandles.erase (m : WindowHandles) (key : HWND) : WindowHandles :=
  List.filter (fun e => e.1 != key) m

/-- Data members of `Win32WindowingSystem`. -/
structure Win32WindowingSystem where
  /-- Handles to active windows. -/
  _activeWindows : WindowHandles := []
  /-- True after the window classes have been registered. -/
  _windowClassesRegistered : Bool := false
  deriving DecidableEq, Repr

/-- `Win32WindowingSystem::registerWindow` :
`if (hwnd) _activeWindows.insert(WindowHandleEntry(hwnd, window));` -/
def Win32WindowingSystem.registerWindow (ws : Win32WindowingSystem) (hwnd : HWND)
    (window : WindowPtr) : Win32WindowingSystem :=
  if hwnd ≠ 0 then { ws with _activeWindows := ws._activeWindows.insert (hwnd, window) } else ws

/-- `Win32WindowingSystem::unregisterWindow` : `if (hwnd) _activeWindows.erase(hwnd);` -/
def Win32WindowingSystem.unregisterWindow (ws : Win32WindowingSystem) (hwnd : HWND) :
    Win32WindowingSystem :=
  if hwnd ≠ 0 then { ws with _activeWindows := ws._activeWindows.erase hwnd } else ws

/-- `Win32WindowingSystem::getGraphicsWindowFor` :
`entry==_activeWindows.end() ? 0 : entry->second`. -/
def Win32WindowingSystem.getGraphicsWindowFor (ws : Win32WindowingSystem) (hwnd : HWND) :
    WindowPtr :=
  match ws._activeWindows.find hwnd with
  | none => 0
  | some window => window

/-! ## Machine integers -/

/-- Conversion of a signed value to `unsigned int` : reduction modulo `2^32`. -/
def toUInt32 (i : Int) : Nat := (i % 4294967296).toNat

/-- Conversion of an `unsigned int` to `int` : the two's complement reading of the 32 bits. -/
def toInt32 (n : Nat) : Int :=
  if n % 4294967296 < 2147483648 then Int.ofNat (n % 4294967296)
  else Int.ofNat (n % 4294967296) - 4294967296

/-- Conversion to `BYTE` : the low eight bits. -/
def toByte (n : Nat) : Nat := n % 256

/-! ## Native calls, their outcomes, and the world they act on -/

/-- Outcome of one native call: its return value and the values it wrote through its
out-parameters (or, for calls after which the source reads `GetLastError`, the error code). -/
structure NativeResult where
  ret : Int := 0
  out1 : Int := 0
  out2 : Int := 0
  out3 : Int := 0
  out4 : Int := 0
  deriving DecidableEq, Repr

/-- A returned handle: a non-positive value is the null handle. -/
def NativeResult.handle (r : NativeResult) : Nat := r.ret.toNat

/-- A returned `BOOL` : non-zero is success. -/
def NativeResult.ok (r : NativeResult) : Bool := r.ret != 0

/-- The fields of `PIXELFORMATDESCRIPTOR` which the source fills in with something else
than a constant of the SDK. -/
structure PIXELFORMATDESCRIPTOR where
  dwFlags : Nat := 0
  cColorBits : Nat := 0
  cRedBits : Nat := 0
  cGreenBits : Nat := 0
  cBlueBits : Nat := 0
  cAlphaBits : Nat := 0
  cDepthBits : Nat := 0
  cStencilBits : Nat := 0
  deriving DecidableEq, Repr

/-- The value passed as new window procedure to `SetWindowLongPtr(.., GWLP_WNDPROC, ..)` :
the address of the static `WindowProc` of this file, or a saved `WNDPROC`. -/
inductive WndProcValue where
  | osgWindowProc
  | saved (proc : Nat)
  deriving DecidableEq, Repr

/-- The Win32 / WGL calls issued by the embedded part of the source, with the arguments
that identify the resource they act on. -/
inductive NativeCall where
  | wglMakeCurrent (hdc : HDC) (hglrc : HGLRC)
  | wglDeleteContext (hglrc : HGLRC)
  | wglCreateContext (hdc : HDC)
  | wglShareLists (hglrc1 hglrc2 : HGLRC)
  | wglGetProcAddress (name : String)
  | wglChoosePixelFormatARB (hdc : HDC) (piAttribIList : List Int)
  | ChoosePixelFormat (hdc : HDC) (pfd : PIXELFORMATDESCRIPTOR)
  | DescribePixelFormat (hdc : HDC) (pixelFormatIndex : Int)
  | SetPixelFormat (hdc : HDC) (pixelFormatIndex : Int)
  | RegisterClassEx (withCursor : Bool)
  | CreateWindowEx (extendedStyle : Nat) (withCursor : Bool) (windowName : Option String)
      (style : Nat) (x y : Int) (w h : Nat)
  | GetDC (hwnd : HWND)
  | ReleaseDC (hwnd : HWND) (hdc : HDC)
  | DestroyWindow (hwnd : HWND)
  | AdjustWindowRectEx (left top right bottom : Int) (style extendedStyle : Nat)
  | SetWindowPos (hwnd : HWND) (x y : Int) (w h : Nat) (flags : Nat)
  | UpdateWindow (hwnd : HWND)
  | SetWindowLongPtr (hwnd : HWND) (proc : WndProcValue)
  | BeginPaint (hwnd : HWND)
  | EndPaint (hwnd : HWND)
  | SetCapture (hwnd : HWND)
  | ReleaseCapture
  | ClientToScreen (hwnd : HWND)
  | GetClientRect (hwnd : HWND)
  | MapVirtualKeyEx (code : Nat)
  | GetKeyboardState
  | ToAscii (virtKey : Nat) (scanCode : Nat)
  | SetCursor
  | PostQuitMessage
  | DefWindowProc (hwnd : HWND) (uMsg wParam lParam : Nat)
  | CallWindowProc (proc : Nat) (hwnd : HWND) (uMsg wParam lParam : Nat)
  | ChangeDisplaySettingsEx (screenNum : Nat)
      (dmFields dmPelsWidth dmPelsHeight dmDisplayFrequency : Nat) (dwflags : Nat)
  | otherWindowEvent (window : WindowPtr) (hwnd : HWND) (uMsg wParam lParam : Nat)
  deriving DecidableEq, Repr

/-- One entry of the trace: a native call and its outcome. -/
structure NativeEvent where
  call : NativeCall
  result : NativeResult
  deriving DecidableEq, Repr

/-- The fields of `DEVMODE` read by the source. -/
structure DEVMODE where
  dmPositionX : Int := 0
  dmPositionY : Int := 0
  dmPelsWidth : Nat := 0
  dmPelsHeight : Nat := 0
  dmBitsPerPel : Nat := 0
  dmDisplayFrequency : Nat := 0
  deriving DecidableEq, Repr

/-- One display device as `EnumDisplayDevices` reports it, with what
`EnumDisplaySettings(DeviceName, ENUM_CURRENT_SETTINGS, ..)` yields for it
(`none` when that call fails). -/
structure DISPLAY_DEVICE where
  /-- The bit `StateFlags & DISPLAY_DEVICE_MIRRORING_DRIVER`. -/
  mirroringDriver : Bool := false
  /-- The bit `StateFlags & DISPLAY_DEVICE_ATTACHED_TO_DESKTOP`. -/
  attachedToDesktop : Bool := true
  currentSettings : Option DEVMODE := none
  deriving DecidableEq, Repr

/-- Everything outside the window object: the operating system seen through the oracle,
the trace of the native calls issued so far, the rendering context current on the calling
thread, the display devices, and the `Win32WindowingSystem` singleton. -/
structure World where
  /-- Outcome of the native call number `n` (counted from 0). -/
  oracle : Nat → NativeResult
  /-- Native calls issued so far, oldest first. -/
  trace : List NativeEvent := []
  /-- What `wglGetCurrentContext()` returns. -/
  currentContext : HGLRC := 0
  /-- The devices for which `EnumDisplayDevices(NULL, deviceNum, ..)` succeeds, in order. -/
  displayDevices : List DISPLAY_DEVICE := []
  /-- The singleton returned by `Win32WindowingSystem::getInterface()`. -/
  windowingSystem : Win32WindowingSystem := {}

/-- Issue a native call: its outcome is the next answer of the oracle, and the call is
appended to the trace. -/
def World.native (w : World) (c : NativeCall) : NativeResult × World :=
  (w.oracle w.trace.length, { w with trace := w.trace ++ [⟨c, w.oracle w.trace.length⟩] })

/-- The call `::wglMakeCurrent(hdc, hglrc)` : when it succeeds, `hglrc` becomes the rendering
context current on the calling thread (none when `hglrc` is null). -/
def World.wglMakeCurrent (w : World) (hdc : HDC) (hglrc : HGLRC) : Bool × World :=
  let r := w.native (.wglMakeCurrent hdc hglrc)
  if r.1.ok then (true, { r.2 with currentContext := hglrc }) else (false, r.2)

/-- The calls recorded in a trace, without their outcomes. -/
def calls (t : List NativeEvent) : List NativeCall := t.map (fun e => e.call)

/-- The native calls issued on the way from the world `w0` to the world `w1`. -/
def World.callsSince (w1 w0 : World) : List NativeCall := calls (w1.trace.drop w0.trace.length)

/-! ## `Win32WindowingSystem::OpenGLContext` -/

/-- Data members of `Win32WindowingSystem::OpenGLContext`; the default value is the one
built by the default constructor. -/
structure OpenGLContext where
  /-- Previously HDC to restore rendering context on. -/
  _previousHdc : HDC := 0
  /-- Previously current rendering context. -/
  _previousHglrc : HGLRC := 0
  /-- Handle to OpenGL window. -/
  _hwnd : HWND := 0
  /-- Handle to device context. -/
  _hdc : HDC := 0
  /-- Handle to OpenGL rendering context. -/
  _hglrc : HGLRC := 0
  /-- Restore original context on exit. -/
  _restorePreviousOnExit : Bool := false
  deriving DecidableEq, Repr

/-- `OpenGLContext::set`. -/
def OpenGLContext.set (c : OpenGLContext) (hwnd : HWND) (hdc : HDC) (hglrc : HGLRC) :
    OpenGLContext :=
  { c with _hwnd := hwnd, _hdc := hdc, _hglrc := hglrc }

/-- `OpenGLContext::deviceContext`. -/
def OpenGLContext.deviceContext (c : OpenGLContext) : HDC := c._hdc

/-- `Win32WindowingSystem::OpenGLContext::~OpenGLContext`.  The object does not outlive the
call, so only the world is returned.  The restore call is issued exactly when the two
operands to its left in the `&&` chain hold. -/
def OpenGLContext.destructor (c : OpenGLContext) (w : World) : World :=
  let w1 :=
    if c._restorePreviousOnExit = true ∧ c._previousHglrc ≠ c._hglrc then
      (w.wglMakeCurrent c._previousHdc c._previousHglrc).2
    else w
  let w2 :=
    if c._hglrc ≠ 0 then
      ((w1.wglMakeCurrent c._hdc 0).2.native (.wglDeleteContext c._hglrc)).2
    else w1
  let w3 := if c._hdc ≠ 0 then (w2.native (.ReleaseDC c._hwnd c._hdc)).2 else w2
  if c._hwnd ≠ 0 then (w3.native (.DestroyWindow c._hwnd)).2 else w3

/-- `Win32WindowingSystem::OpenGLContext::makeCurrent`. -/
def OpenGLContext.makeCurrent (c : OpenGLContext) (restoreOnHdc : HDC)
    (restorePreviousOnExit : Bool) (w : World) : Bool × OpenGLContext × World :=
  if c._hdc = 0 ∨ c._hglrc = 0 then (false, c, w)
  else
    let c1 : OpenGLContext :=
      { c with _previousHglrc := if restorePreviousOnExit then w.currentContext else 0,
               _previousHdc := restoreOnHdc }
    if c1._hglrc = c1._previousHglrc then (true, c1, w)
    else
      let r := w.wglMakeCurrent c1._hdc c1._hglrc
      if r.1 = false then (false, c1, r.2)
      else (true, { c1 with _restorePreviousOnExit := restorePreviousOnExit }, r.2)

/-! ## Constants of the WGL_ARB_pixel_format specification (defined at the top of the source) -/

def WGL_DRAW_TO_WINDOW_ARB : Int := 0x2001
def WGL_ACCELERATION_ARB : Int := 0x2003
def WGL_SWAP_METHOD_ARB : Int := 0x2007
def WGL_SUPPORT_OPENGL_ARB : Int := 0x2010
def WGL_DOUBLE_BUFFER_ARB : Int := 0x2011
def WGL_STEREO_ARB : Int := 0x2012
def WGL_PIXEL_TYPE_ARB : Int := 0x2013
def WGL_COLOR_BITS_ARB : Int := 0x2014
def WGL_RED_BITS_ARB : Int := 0x2015
def WGL_GREEN_BITS_ARB : Int := 0x2017
def WGL_BLUE_BITS_ARB : Int := 0x2019
def WGL_ALPHA_BITS_ARB : Int := 0x201B
def WGL_DEPTH_BITS_ARB : Int := 0x2022
def WGL_STENCIL_BITS_ARB : Int := 0x2023
def WGL_FULL_ACCELERATION_ARB : Int := 0x2027
def WGL_SWAP_EXCHANGE_ARB : Int := 0x2028
def WGL_TYPE_RGBA_ARB : Int := 0x202B
def WGL_SAMPLE_BUFFERS_ARB : Int := 0x2041
def WGL_SAMPLES_ARB : Int := 0x2042

/-! ## Constants of the Win32 SDK headers used by the source -/

def WS_POPUP : Nat := 0x80000000
def WS_DISABLED : Nat := 0x08000000
def WS_CLIPSIBLINGS : Nat := 0x04000000
def WS_CLIPCHILDREN : Nat := 0x02000000
def WS_CAPTION : Nat := 0x00C00000
def WS_SYSMENU : Nat := 0x00080000
def WS_SIZEBOX : Nat := 0x00040000
def WS_MINIMIZEBOX : Nat := 0x00020000
def WS_MAXIMIZEBOX : Nat := 0x00010000
def WS_EX_APPWINDOW : Nat := 0x00040000
def WS_EX_OVERLAPPEDWINDOW : Nat := 0x00000300
def WS_EX_ACCEPTFILES : Nat := 0x00000010
def WS_EX_LTRREADING : Nat := 0x00000000
def SWP_SHOWWINDOW : Nat := 0x0040
def PFD_DOUBLEBUFFER : Nat := 0x00000001
def PFD_DRAW_TO_WINDOW : Nat := 0x00000004
def PFD_SUPPORT_OPENGL : Nat := 0x00000020
def ERROR_CLASS_ALREADY_EXISTS : Int := 1410

/-! ## Traits -/

/-- `osg::GraphicsContext::ScreenIdentifier` (`int displayNum`, `int screenNum`). -/
structure ScreenIdentifier where
  displayNum : Int := 0
  screenNum : Int := 0
  deriving DecidableEq, Repr

/-- What the pointer `Traits::sharedContext` designates, as far as the source looks at it:
nothing, a graphics context which is not a `GraphicsWindowWin32` (the `dynamic_cast`
yields null), or a `GraphicsWindowWin32` whose `getWGLContext()` is `wglContext`. -/
inductive SharedContext where
  | null
  | notWin32
  | win32 (wglContext : HGLRC)
  deriving DecidableEq, Repr

/-- Modelled from the spec: `osg::GraphicsContext::Traits`, declared in a header which is not
under src/.  The fields are those the source reads or writes: color / depth / stencil bit
depths, double-buffer flag, multisample counts, window geometry, decoration flag, optional
shared-context reference and optional pre-existing native window handle
(`inheritedWindowData`, `0` when there is no `WindowData` or it holds no handle).  The bit
depths are `unsigned int`, the geometry is `int`.  The window always holds a Traits object:
the source dereferences `_traits` unconditionally in `createWindow` and `setPixelFormat`. -/
structure Traits where
  displayNum : Int := 0
  screenNum : Int := 0
  x : Int := 0
  y : Int := 0
  width : Int := 0
  height : Int := 0
  windowName : String := ""
  windowDecoration : Bool := false
  supportsResize : Bool := true
  red : Nat := 8
  green : Nat := 8
  blue : Nat := 8
  alpha : Nat := 0
  depth : Nat := 24
  stencil : Nat := 0
  sampleBuffers : Nat := 0
  samples : Nat := 0
  pbuffer : Bool := false
  quadBufferStereo : Bool := false
  doubleBuffer : Bool := false
  useCursor : Bool := true
  sharedContext : SharedContext := SharedContext.null
  inheritedWindowData : HWND := 0
  setInheritedWindowPixelFormat : Bool := false
  deriving DecidableEq, Repr

/-- The `ScreenIdentifier` base sub-object of a `Traits`. -/
def Traits.toScreenIdentifier (t : Traits) : ScreenIdentifier :=
  { displayNum := t.displayNum, screenNum := t.screenNum }

/-! ## Screen queries of `Win32WindowingSystem` -/

/-- `Win32WindowingSystem::enumerateDisplayDevices` on an empty container: the devices which
`EnumDisplayDevices` reports, without the mirroring drivers and without the devices which
are not attached to the desktop. -/
def enumerateDisplayDevices (w : World) : List DISPLAY_DEVICE :=
  w.displayDevices.filter (fun d => !d.mirroringDriver && d.attachedToDesktop)

/-- `Win32WindowingSystem::getScreenInformation` : `none` stands for `false`.  The test
`si.screenNum>=displayDevices.size()` compares as unsigned, so a negative screen number
fails it. -/
def getScreenInformation (w : World) (si : ScreenIdentifier) :
    Option (DISPLAY_DEVICE × DEVMODE) :=
  if si.displayNum > 0 then none
  else if si.screenNum < 0 ∨ (enumerateDisplayDevices w).length ≤ si.screenNum.toNat then none
  else
    match (enumerateDisplayDevices w)[si.screenNum.toNat]? with
    | none => none
    | some displayDevice =>
      match displayDevice.currentSettings with
      | none => none
      | some deviceMode => some (displayDevice, deviceMode)

/-- `Win32WindowingSystem::getScreenColorDepth`. -/
def getScreenColorDepth (w : World) (si : ScreenIdentifier) : Nat :=
  match getScreenInformation w si with
  | some (_, deviceMode) => deviceMode.dmBitsPerPel
  | none => 0

/-- `Win32WindowingSystem::getScreenPosition` : `(originX, originY, width, height)`. -/
def getScreenPosition (w : World) (si : ScreenIdentifier) : Int × Int × Nat × Nat :=
  match getScreenInformation w si with
  | some (_, deviceMode) =>
    (deviceMode.dmPositionX, deviceMode.dmPositionY, deviceMode.dmPelsWidth,
      deviceMode.dmPelsHeight)
  | none => (0, 0, 0, 0)

/-- `Win32WindowingSystem::getScreenResolution` : `(width, height)`. -/
def getScreenResolution (w : World) (si : ScreenIdentifier) : Nat × Nat :=
  match getScreenInformation w si with
  | some (_, deviceMode) => (deviceMode.dmPelsWidth, deviceMode.dmPelsHeight)
  | none => (0, 0)

def DM_PELSWIDTH : Nat := 0x00080000
def DM_PELSHEIGHT : Nat := 0x00100000
def DM_DISPLAYFREQUENCY : Nat := 0x00400000
def CDS_TEST : Nat := 0x00000002
def DISP_CHANGE_SUCCESSFUL : Int := 0

/-- `Win32WindowingSystem::changeScreenSettings`.  The device is named by its index among
the enumerated display devices; `dmFields` says which members of `deviceMode` are to be
applied.  A change which the operating system applies shows in `World.displayDevices` only
through a later step of the environment. -/
def changeScreenSettings (si : ScreenIdentifier) (deviceMode : DEVMODE) (dmFields : Nat)
    (w : World) : Bool × World :=
  let r1 := w.native (.ChangeDisplaySettingsEx si.screenNum.toNat dmFields
    deviceMode.dmPelsWidth deviceMode.dmPelsHeight deviceMode.dmDisplayFrequency CDS_TEST)
  if r1.1.ret = DISP_CHANGE_SUCCESSFUL then
    let r2 := r1.2.native (.ChangeDisplaySettingsEx si.screenNum.toNat dmFields
      deviceMode.dmPelsWidth deviceMode.dmPelsHeight deviceMode.dmDisplayFrequency 0)
    if r2.1.ret = DISP_CHANGE_SUCCESSFUL then (true, r2.2) else (false, r2.2)
  else (false, r1.2)

/-- `Win32WindowingSystem::setScreenResolution`. -/
def setScreenResolution (si : ScreenIdentifier) (width height : Nat) (w : World) :
    Bool × World :=
  match getScreenInformation w si with
  | none => (false, w)
  | some (_, deviceMode) =>
    changeScreenSettings si { deviceMode with dmPelsWidth := width, dmPelsHeight := height }
      (DM_PELSWIDTH ||| DM_PELSHEIGHT) w

/-- `Win32WindowingSystem::setScreenRefreshRate`.  `refreshRate` is the `double` argument
after its conversion to the `DWORD` member `dmDisplayFrequency`. -/
def setScreenRefreshRate (si : ScreenIdentifier) (refreshRate : Nat) (w : World) :
    Bool × World :=
  let resolution := getScreenResolution w si
  match getScreenInformation w si with
  | none => (false, w)
  | some (_, deviceMode) =>
    changeScreenSettings si
      { deviceMode with dmPelsWidth := resolution.1, dmPelsHeight := resolution.2,
                        dmDisplayFrequency := refreshRate }
      (DM_PELSWIDTH ||| DM_PELSHEIGHT ||| DM_DISPLAYFREQUENCY) w

/-- `Win32WindowingSystem::registerWindowClasses`.  The error code read with
`GetLastError` after a failed `RegisterClassEx` is `out1` of that call. -/
def registerWindowClasses (w : World) : World :=
  if w.windowingSystem._windowClassesRegistered = true then w
  else
    let r1 := w.native (.RegisterClassEx true)
    if r1.1.ret = 0 ∧ r1.1.out1 ≠ ERROR_CLASS_ALREADY_EXISTS then r1.2
    else
      let r2 := r1.2.native (.RegisterClassEx false)
      if r2.1.ret = 0 ∧ r2.1.out1 ≠ ERROR_CLASS_ALREADY_EXISTS then r2.2
      else
        { r2.2 with
          windowingSystem := { r2.2.windowingSystem with _windowClassesRegistered := true } }

/-- The `PIXELFORMATDESCRIPTOR` local to `getSampleOpenGLContext`. -/
def samplePixelFormat : PIXELFORMATDESCRIPTOR :=
  { dwFlags := PFD_DRAW_TO_WINDOW ||| PFD_SUPPORT_OPENGL, cColorBits := 24, cDepthBits := 24 }

/-- `Win32WindowingSystem::getSampleOpenGLContext`. -/
def getSampleOpenGLContext (context : OpenGLContext) (windowHDC : HDC)
    (windowOriginX windowOriginY : Int) (w : World) : Bool × OpenGLContext × World :=
  let context0 := context.set 0 0 0
  let w0 := registerWindowClasses w
  let rw := w0.native (.CreateWindowEx WS_EX_OVERLAPPEDWINDOW false none
    (WS_CLIPSIBLINGS ||| WS_CLIPCHILDREN ||| WS_DISABLED) windowOriginX windowOriginY 1 1)
  let hwnd := rw.1.handle
  if hwnd = 0 then (false, context0, rw.2)
  else
    let rd := rw.2.native (.GetDC hwnd)
    let hdc := rd.1.handle
    if hdc = 0 then (false, context0, (rd.2.native (.DestroyWindow hwnd)).2)
    else
      let rc := rd.2.native (.ChoosePixelFormat hdc samplePixelFormat)
      let pixelFormatIndex := rc.1.ret
      if pixelFormatIndex = 0 then
        (false, context0,
          ((rc.2.native (.ReleaseDC hwnd hdc)).2.native (.DestroyWindow hwnd)).2)
      else
        let rs := rc.2.native (.SetPixelFormat hdc pixelFormatIndex)
        if rs.1.ok = false then
          (false, context0,
            ((rs.2.native (.ReleaseDC hwnd hdc)).2.native (.DestroyWindow hwnd)).2)
        else
          let rg := rs.2.native (.wglCreateContext hdc)
          let hglrc := rg.1.handle
          if hglrc = 0 then
            (false, context0,
              ((rg.2.native (.ReleaseDC hwnd hdc)).2.native (.DestroyWindow hwnd)).2)
          else
            let context1 := context0.set hwnd hdc hglrc
            let rm := context1.makeCurrent windowHDC true rg.2
            if rm.1 = false then (false, rm.2.1, rm.2.2) else (true, rm.2.1, rm.2.2)

/-! ## Pixel format specifications -/

/-- The class `WGLAttributes<int>` : the parameters added so far. -/
structure WGLIntegerAttributes where
  m_parameters : List Int := []
  deriving DecidableEq, Repr

/-- `WGLAttributes::add`. -/
def WGLIntegerAttributes.add (a : WGLIntegerAttributes) (t : Int) : WGLIntegerAttributes :=
  { m_parameters := a.m_parameters ++ [t] }

/-- `WGLAttributes::begin`. -/
def WGLIntegerAttributes.begin (_a : WGLIntegerAttributes) : WGLIntegerAttributes :=
  { m_parameters := [] }

/-- `WGLAttributes::set`. -/
def WGLIntegerAttributes.set (a : WGLIntegerAttributes) (id value : Int) :
    WGLIntegerAttributes :=
  (a.add id).add value

/-- `WGLAttributes::enable` : `add(id); add(true);`. -/
def WGLIntegerAttributes.enable (a : WGLIntegerAttributes) (id : Int) : WGLIntegerAttributes :=
  (a.add id).add 1

/-- `WGLAttributes::end`. -/
def WGLIntegerAttributes.end (a : WGLIntegerAttributes) : WGLIntegerAttributes :=
  a.add 0

/-- `PreparePixelFormatSpecifications`.  The `unsigned int` bit depths are converted to the
`int` parameters of `set`; their sum is formed in `unsigned int` arithmetic. -/
def PreparePixelFormatSpecifications (traits : Traits) (attributes : WGLIntegerAttributes)
    (allowSwapExchangeARB : Bool) : WGLIntegerAttributes :=
  let a := attributes.begin
  let a := a.enable WGL_DRAW_TO_WINDOW_ARB
  let a := a.enable WGL_SUPPORT_OPENGL_ARB
  let a := a.set WGL_ACCELERATION_ARB WGL_FULL_ACCELERATION_ARB
  let a := a.set WGL_PIXEL_TYPE_ARB WGL_TYPE_RGBA_ARB
  let a := a.set WGL_COLOR_BITS_ARB (toInt32 (traits.red + traits.green + traits.blue))
  let a := a.set WGL_RED_BITS_ARB (toInt32 traits.red)
  let a := a.set WGL_GREEN_BITS_ARB (toInt32 traits.green)
  let a := a.set WGL_BLUE_BITS_ARB (toInt32 traits.blue)
  let a := a.set WGL_DEPTH_BITS_ARB (toInt32 traits.depth)
  let a :=
    if traits.doubleBuffer = true then
      let a := a.enable WGL_DOUBLE_BUFFER_ARB
      if allowSwapExchangeARB = true then a.set WGL_SWAP_METHOD_ARB WGL_SWAP_EXCHANGE_ARB else a
    else a
  let a := if traits.alpha ≠ 0 then a.set WGL_ALPHA_BITS_ARB (toInt32 traits.alpha) else a
  let a := if traits.stencil ≠ 0 then a.set WGL_STENCIL_BITS_ARB (toInt32 traits.stencil) else a
  let a :=
    if traits.sampleBuffers ≠ 0 then a.set WGL_SAMPLE_BUFFERS_ARB (toInt32 traits.sampleBuffers)
    else a
  let a := if traits.samples ≠ 0 then a.set WGL_SAMPLES_ARB (toInt32 traits.samples) else a
  let a := if traits.quadBufferStereo = true then a.enable WGL_STEREO_ARB else a
  a.end

/-- The `PIXELFORMATDESCRIPTOR` which `ChooseMatchingPixelFormat` builds from the traits for
the GDI chooser; the bit depths are narrowed to `BYTE`. -/
def gdiPixelFormat (_traits : Traits) : PIXELFORMATDESCRIPTOR :=
  { dwFlags := PFD_DRAW_TO_WINDOW ||| PFD_SUPPORT_OPENGL |||
      (if _traits.doubleBuffer = true then PFD_DOUBLEBUFFER else 0),
    cColorBits := toByte ((_traits.red + _traits.green + _traits.blue) % 4294967296),
    cRedBits := toByte _traits.red,
    cGreenBits := toByte _traits.green,
    cBlueBits := toByte _traits.blue,
    cAlphaBits := toByte _traits.alpha,
    cDepthBits := toByte _traits.depth,
    cStencilBits := toByte _traits.stencil }

/-- `ChooseMatchingPixelFormat`.  The extension chooser writes the index through `out1` and
the number of matching formats through `out2`; both locals start at `0`.  The parameter
`screenNum` of the source is used for the error messages only and is left out. -/
def ChooseMatchingPixelFormat (hdc : HDC) (formatSpecifications : WGLIntegerAttributes)
    (_traits : Traits) (w : World) : Int × World :=
  let rp := w.native (.wglGetProcAddress "wglChoosePixelFormatARB")
  if rp.1.ret = 0 then
    let rc := rp.2.native (.ChoosePixelFormat hdc (gdiPixelFormat _traits))
    let pixelFormatIndex := rc.1.ret
    if pixelFormatIndex = 0 then (-1, rc.2)
    else (pixelFormatIndex, (rc.2.native (.DescribePixelFormat hdc pixelFormatIndex)).2)
  else
    let rc := rp.2.native (.wglChoosePixelFormatARB hdc formatSpecifications.m_parameters)
    if rc.1.ok = false then (-1, rc.2)
    else if rc.1.out2 = 0 then (-1, rc.2) else (rc.1.out1, rc.2)

/-! ## The event queue -/

/-- Time stamps of the event queue.  The source only stores and forwards them (as `double`),
it never computes with them; `-1` is the initial `_timeOfLastCheckEvents`. -/
abbrev Time := Int

/-- A mouse coordinate handed to the event queue by `transformMouseXY` : either the raw
pixel value, or the value `min + (max-min)*v/float(extent)` of the fixed input range, kept
symbolic (`extent` is the Traits width or height). -/
inductive MouseCoordinate where
  | raw (v : Int)
  | ranged (v : Int) (extent : Int)
  deriving DecidableEq, Repr

/-- `osgGA::GUIEventAdapter::ScrollingMotion`, the two values used by the source. -/
inductive ScrollingMotion where
  | SCROLL_UP
  | SCROLL_DOWN
  deriving DecidableEq, Repr

/-- The notifications which the source sends to the event queue. -/
inductive GUIEvent where
  | mouseMotion (x y : MouseCoordinate) (time : Time)
  | mouseButtonPress (x y : MouseCoordinate) (button : Nat) (time : Time)
  | mouseButtonRelease (x y : MouseCoordinate) (button : Nat) (time : Time)
  | mouseScroll (sm : ScrollingMotion) (time : Time)
  | windowResize (x y width height : Int) (time : Time)
  | keyPress (key : Int) (time : Time)
  | keyRelease (key : Int) (time : Time)
  | closeWindow (time : Time)
  deriving DecidableEq, Repr

/-- Modelled from the spec: the event-queue sink (`osgGA::EventQueue`, not under src/),
"exposing mouse-motion/button/scroll, key-press/release, resize, close ... notification
methods with timestamps".  It records the notifications in order, together with the
modifier mask of its current event state and its fixed-mouse-input-range setting. -/
structure EventQueue where
  events : List GUIEvent := []
  useFixedMouseInputRange : Bool := false
  modKeyMask : Nat := 0
  deriving DecidableEq, Repr

/-- Append a notification to the event queue. -/
def EventQueue.push (q : EventQueue) (e : GUIEvent) : EventQueue :=
  { q with events := q.events ++ [e] }

/-! ## `GraphicsWindowWin32` -/

/-- Data members of `GraphicsWindowWin32`, with the Traits object and the event queue it
holds, and its own address `this`. -/
structure GraphicsWindowWin32 where
  this : WindowPtr
  _traits : Traits
  eventQueue : EventQueue := {}
  _hwnd : HWND := 0
  _hdc : HDC := 0
  _hglrc : HGLRC := 0
  _windowProcedure : Nat := 0
  _timeOfLastCheckEvents : Time := -1
  _screenOriginX : Int := 0
  _screenOriginY : Int := 0
  _screenWidth : Nat := 0
  _screenHeight : Nat := 0
  _windowOriginXToRealize : Int := 0
  _windowOriginYToRealize : Int := 0
  _windowWidthToRealize : Nat := 0
  _windowHeightToRealize : Nat := 0
  _initialized : Bool := false
  _valid : Bool := false
  _realized : Bool := false
  _ownsWindow : Bool := true
  _closeWindow : Bool := false
  _destroyWindow : Bool := false
  _destroying : Bool := false
  deriving DecidableEq, Repr

/-- A window object together with the world around it. -/
structure State where
  window : GraphicsWindowWin32
  world : World

/-- `GraphicsWindowWin32::releaseContextImplementation`. -/
def releaseContextImplementation (s : State) : Bool × State :=
  let r := s.world.wglMakeCurrent s.window._hdc 0
  (r.1, { s with world := r.2 })

/-- Modelled from the spec: `osg::GraphicsContext::releaseContext` of the base class (not
under src/), a "thin wrapper over the native unbind call": it delegates to
`releaseContextImplementation`. -/
def releaseContext (s : State) : Bool × State := releaseContextImplementation s

/-- `GraphicsWindowWin32::makeCurrentImplementation`. -/
def makeCurrentImplementation (s : State) : Bool × State :=
  if s.window._realized = false then (false, s)
  else
    let r := s.world.wglMakeCurrent s.window._hdc s.window._hglrc
    (r.1, { s with world := r.2 })

/-- Modelled from the spec: `osg::GraphicsContext::makeCurrent` of the base class (not
under src/), a "thin wrapper over the native bind call" which "additionally fails if the
window has not been realized": it delegates to `makeCurrentImplementation`. -/
def makeCurrent (s : State) : Bool × State := makeCurrentImplementation s

/-- `GraphicsWindowWin32::registerWindowProcedure`.  The value of `GetLastError` after the
call is `out1` of the call. -/
def registerWindowProcedure (s : State) : Bool × State :=
  let r := s.world.native (.SetWindowLongPtr s.window._hwnd WndProcValue.osgWindowProc)
  let s1 : State := { window := { s.window with _windowProcedure := r.1.handle }, world := r.2 }
  if s1.window._windowProcedure = 0 ∧ r.1.out1 ≠ 0 then (false, s1) else (true, s1)

/-- `GraphicsWindowWin32::unregisterWindowProcedure`. -/
def unregisterWindowProcedure (s : State) : Bool × State :=
  if s.window._windowProcedure = 0 ∨ s.window._hwnd = 0 then (true, s)
  else
    let r := s.world.native
      (.SetWindowLongPtr s.window._hwnd (WndProcValue.saved s.window._windowProcedure))
    if r.1.handle = 0 ∧ r.1.out1 ≠ 0 then (false, { s with world := r.2 })
    else (true, { window := { s.window with _windowProcedure := 0 }, world := r.2 })

/-- `GraphicsWindowWin32::destroyWindow`. -/
def destroyWindow (deleteNativeWindow : Bool) (s : State) : State :=
  if s.window._destroying = true then s
  else
    let s1 : State := { s with window := { s.window with _destroying := true } }
    let s2 : State :=
      if s1.window._hdc ≠ 0 then
        let sa := (releaseContext s1).2
        let sb : State :=
          if sa.window._hglrc ≠ 0 then
            { window := { sa.window with _hglrc := 0 },
              world := (sa.world.native (.wglDeleteContext sa.window._hglrc)).2 }
          else sa
        { window := { sb.window with _hdc := 0 },
          world := (sb.world.native (.ReleaseDC sb.window._hwnd sb.window._hdc)).2 }
      else s1
    let s3 := (unregisterWindowProcedure s2).2
    let s4 : State :=
      if s3.window._hwnd ≠ 0 then
        let w1 : World :=
          { s3.world with
            windowingSystem := s3.world.windowingSystem.unregisterWindow s3.window._hwnd }
        let w2 : World :=
          if s3.window._ownsWindow = true ∧ deleteNativeWindow = true then
            (w1.native (.DestroyWindow s3.window._hwnd)).2
          else w1
        { window := { s3.window with _hwnd := 0 }, world := w2 }
      else s3
    { s4 with
      window := { s4.window with
        _initialized := false, _realized := false, _valid := false, _destroying := false } }

/-- The variables which `determineWindowPositionAndStyle` receives by reference. -/
structure WindowPositionAndStyle where
  x : Int := 0
  y : Int := 0
  w : Nat := 0
  h : Nat := 0
  style : Nat := 0
  extendedStyle : Nat := 0
  deriving DecidableEq, Repr

/-- `GraphicsWindowWin32::determineWindowPositionAndStyle`.  `p` holds the referenced
variables on entry, the result holds them on exit.  `ScreenIdentifier(screenNum)` has
display number `0`.  `AdjustWindowRectEx` returns the adjusted corners through
`out1 .. out4` (left, top, right, bottom).  `w` and `h` are `unsigned int`, so `x + w - 1`
is formed modulo `2^32` before it is stored in the `LONG` corner; overflow of the signed
sums is undefined behaviour and outside the model. -/
def determineWindowPositionAndStyle (decorated : Bool) (p : WindowPositionAndStyle)
    (s : State) : Bool × WindowPositionAndStyle × State :=
  let sp := getScreenPosition s.world { displayNum := 0, screenNum := s.window._traits.screenNum }
  let s1 : State :=
    { s with window := { s.window with
        _screenOriginX := sp.1, _screenOriginY := sp.2.1,
        _screenWidth := sp.2.2.1, _screenHeight := sp.2.2.2 } }
  if s1.window._screenWidth = 0 ∨ s1.window._screenHeight = 0 then (false, p, s1)
  else
    let x := s1.window._traits.x + s1.window._screenOriginX
    let y := s1.window._traits.y + s1.window._screenOriginY
    let w := toUInt32 s1.window._traits.width
    let h := toUInt32 s1.window._traits.height
    let style := WS_POPUP ||| WS_CLIPSIBLINGS ||| WS_CLIPCHILDREN
    if decorated = true then
      let style1 := style ||| (WS_CAPTION ||| WS_SYSMENU ||| WS_MINIMIZEBOX ||| WS_MAXIMIZEBOX)
      let style2 := if s1.window._traits.supportsResize = true then style1 ||| WS_SIZEBOX else style1
      let extendedStyle :=
        WS_EX_APPWINDOW ||| WS_EX_OVERLAPPEDWINDOW ||| WS_EX_ACCEPTFILES ||| WS_EX_LTRREADING
      let left := x
      let top := y
      let right := toInt32 (toUInt32 (x + Int.ofNat w - 1))
      let bottom := toInt32 (toUInt32 (y + Int.ofNat h - 1))
      let r := s1.world.native (.AdjustWindowRectEx left top right bottom style2 extendedStyle)
      let s2 : State := { s1 with world := r.2 }
      if r.1.ok = false then
        (false, { x := x, y := y, w := w, h := h, style := style2,
                  extendedStyle := extendedStyle }, s2)
      else
        (true, { x := r.1.out1, y := r.1.out2,
                 w := toUInt32 (r.1.out3 - r.1.out1 + 1),
                 h := toUInt32 (r.1.out4 - r.1.out2 + 1),
                 style := style2, extendedStyle := extendedStyle }, s2)
    else
      (true, { x := x, y := y, w := w, h := h, style := style, extendedStyle := 0 }, s1)

/-- The negotiation in the middle of `GraphicsWindowWin32::setPixelFormat` (from the first
`PreparePixelFormatSpecifications` to the last `ChooseMatchingPixelFormat`), run on the
device context `sampleHdc` of the sample context: the pixel format index found (`none` when
the function reports that no matching pixel format was found), the Traits, which the
correction for screens below 32 bits per pixel may have changed, and the world. -/
def negotiatePixelFormat (sampleHdc : HDC) (_traits : Traits) (w : World) :
    Option Int × Traits × World :=
  let formatSpecs : WGLIntegerAttributes := {}
  let formatSpecs1 := PreparePixelFormatSpecifications _traits formatSpecs true
  let q1 := ChooseMatchingPixelFormat sampleHdc formatSpecs1 _traits w
  let r : Int × Traits × WGLIntegerAttributes × World :=
    if q1.1 < 0 then
      let bpp := getScreenColorDepth q1.2 _traits.toScreenIdentifier
      if bpp < 32 then
        let traits2 : Traits := { _traits with red := bpp / 4, green := bpp / 4, blue := bpp / 4 }
        let formatSpecs2 := PreparePixelFormatSpecifications traits2 formatSpecs1 true
        let q2 := ChooseMatchingPixelFormat sampleHdc formatSpecs2 traits2 q1.2
        (q2.1, traits2, formatSpecs2, q2.2)
      else (q1.1, _traits, formatSpecs1, q1.2)
    else (q1.1, _traits, formatSpecs1, q1.2)
  if r.1 < 0 then
    let formatSpecs3 := PreparePixelFormatSpecifications r.2.1 r.2.2.1 false
    let q3 := ChooseMatchingPixelFormat sampleHdc formatSpecs3 r.2.1 r.2.2.2
    if q3.1 < 0 then (none, r.2.1, q3.2) else (some q3.1, r.2.1, q3.2)
  else (some r.1, r.2.1, r.2.2.2)

/-- `GraphicsWindowWin32::setPixelFormat`.  The local `openGLContext` is destroyed at every
return, after the statements of the function. -/
def setPixelFormat (s : State) : Bool × State :=
  let openGLContext : OpenGLContext := {}
  let g := getSampleOpenGLContext openGLContext s.window._hdc s.window._screenOriginX
    s.window._screenOriginY s.world
  if g.1 = false then (false, { s with world := g.2.1.destructor g.2.2 })
  else
    let n := negotiatePixelFormat g.2.1.deviceContext s.window._traits g.2.2
    let s1 : State := { window := { s.window with _traits := n.2.1 }, world := n.2.2 }
    match n.1 with
    | none => (false, { s1 with world := g.2.1.destructor s1.world })
    | some pixelFormatIndex =>
      let rs := s1.world.native (.SetPixelFormat s1.window._hdc pixelFormatIndex)
      if rs.1.ok = false then (false, { s1 with world := g.2.1.destructor rs.2 })
      else
        let rc := rs.2.native (.wglCreateContext s1.window._hdc)
        let s2 : State := { window := { s1.window with _hglrc := rc.1.handle }, world := rc.2 }
        if s2.window._hglrc = 0 then (false, { s2 with world := g.2.1.destructor s2.world })
        else (true, { s2 with world := g.2.1.destructor s2.world })

/-- `GraphicsWindowWin32::createWindow`.  `deleteNativeWindowDefault` is the default
argument of `destroyWindow`, declared in the class header, which is not under src/. -/
def createWindow (deleteNativeWindowDefault : Bool) (s : State) : Bool × State :=
  let d := determineWindowPositionAndStyle s.window._traits.windowDecoration
    { x := s.window._windowOriginXToRealize, y := s.window._windowOriginYToRealize,
      w := s.window._windowWidthToRealize, h := s.window._windowHeightToRealize }
    s
  let s1 : State :=
    { d.2.2 with window := { d.2.2.window with
        _windowOriginXToRealize := d.2.1.x, _windowOriginYToRealize := d.2.1.y,
        _windowWidthToRealize := d.2.1.w, _windowHeightToRealize := d.2.1.h } }
  if d.1 = false then (false, s1)
  else
    let rw := s1.world.native (.CreateWindowEx d.2.1.extendedStyle s1.window._traits.useCursor
      (some s1.window._traits.windowName) d.2.1.style s1.window._windowOriginXToRealize
      s1.window._windowOriginYToRealize s1.window._windowWidthToRealize
      s1.window._windowHeightToRealize)
    let s2 : State := { window := { s1.window with _hwnd := rw.1.handle }, world := rw.2 }
    if s2.window._hwnd = 0 then (false, s2)
    else
      let rd := s2.world.native (.GetDC s2.window._hwnd)
      let s3 : State := { window := { s2.window with _hdc := rd.1.handle }, world := rd.2 }
      if s3.window._hdc = 0 then
        let s4 := destroyWindow deleteNativeWindowDefault s3
        (false, { s4 with window := { s4.window with _hwnd := 0 } })
      else
        let p := setPixelFormat s3
        if p.1 = false then
          let w5 := (p.2.world.native (.ReleaseDC p.2.window._hwnd p.2.window._hdc)).2
          let s5 : State := { window := { p.2.window with _hdc := 0 }, world := w5 }
          (false, destroyWindow deleteNativeWindowDefault s5)
        else
          (true, { p.2 with world := { p.2.world with
              windowingSystem :=
                p.2.world.windowingSystem.registerWindow p.2.window._hwnd p.2.window.this } })

/-- The `if` / `else` of `GraphicsWindowWin32::setWindow` which obtains the rendering
context of the inherited window: through `setPixelFormat` when the Traits ask for the pixel
format of the inherited window to be set, through `wglCreateContext` otherwise.
(`_traits.valid()` holds: the window always holds a Traits object.)  `false` says that
`setWindow` has returned `false` inside the block. -/
def setWindow.context (s : State) : Bool × State :=
  if s.window._traits.setInheritedWindowPixelFormat = true then
    let p := setPixelFormat s
    if p.1 = false then
      (false, { p.2 with window := { p.2.window with _hdc := 0, _hwnd := 0 } })
    else (true, p.2)
  else
    let rc := s.world.native (.wglCreateContext s.window._hdc)
    let s3 : State := { window := { s.window with _hglrc := rc.1.handle }, world := rc.2 }
    if s3.window._hglrc = 0 then
      (false, { window := { s3.window with _hdc := 0, _hwnd := 0 },
                world := (s3.world.native (.ReleaseDC s3.window._hwnd s3.window._hdc)).2 })
    else (true, s3)

/-- The end of `GraphicsWindowWin32::setWindow`, from `registerWindowProcedure()` on. -/
def setWindow.register (s : State) : Bool × State :=
  let rp := registerWindowProcedure s
  if rp.1 = false then
    let w5 := (rp.2.world.native (.wglDeleteContext rp.2.window._hglrc)).2
    let w6 := (w5.native (.ReleaseDC rp.2.window._hwnd rp.2.window._hdc)).2
    (false, { window := { rp.2.window with _hglrc := 0, _hdc := 0, _hwnd := 0 }, world := w6 })
  else
    let w7 : World := { rp.2.world with
      windowingSystem :=
        rp.2.world.windowingSystem.registerWindow rp.2.window._hwnd rp.2.window.this }
    (true, { window := { rp.2.window with _initialized := true, _valid := true }, world := w7 })

/-- `GraphicsWindowWin32::setWindow` : the checks of the handle, `GetDC`, then the block
`setWindow.context` and the end `setWindow.register`. -/
def setWindow (handle : HWND) (s : State) : Bool × State :=
  if s.window._initialized = true then (false, s)
  else if handle = 0 then (false, s)
  else
    let s1 : State := { s with window := { s.window with _hwnd := handle } }
    if s1.window._hwnd = 0 then (false, s1)
    else
      let rd := s1.world.native (.GetDC s1.window._hwnd)
      let s2 : State := { window := { s1.window with _hdc := rd.1.handle }, world := rd.2 }
      if s2.window._hdc = 0 then (false, { s2 with window := { s2.window with _hwnd := 0 } })
      else
        let c := setWindow.context s2
        if c.1 = false then (false, c.2) else setWindow.register c.2

/-- `GraphicsWindowWin32::init`.  `windowHandle` is the handle held by the inherited window
data of the Traits, `0` when there is none. -/
def init (deleteNativeWindowDefault : Bool) (s : State) : State :=
  if s.window._initialized = true then s
  else
    let windowHandle := s.window._traits.inheritedWindowData
    let s1 : State :=
      { s with window := { s.window with
          _ownsWindow := decide (windowHandle = 0), _closeWindow := false,
          _destroyWindow := false, _destroying := false } }
    let r :=
      if s1.window._ownsWindow = true then createWindow deleteNativeWindowDefault s1
      else setWindow windowHandle s1
    { r.2 with window := { r.2.window with _initialized := r.1, _valid := r.1 } }

/-- The constructor `GraphicsWindowWin32::GraphicsWindowWin32(traits)` for the object at
address `this` : the member initialisers, then `init()`.  (The `osg::State` set up when the
window is valid belongs to the base class and is not part of the embedding.) -/
def GraphicsWindowWin32.construct (deleteNativeWindowDefault : Bool) (this : WindowPtr)
    (traits : Traits) (w : World) : State :=
  init deleteNativeWindowDefault { window := { this := this, _traits := traits }, world := w }

/-- The block `if (!_initialized) { ... }` of `GraphicsWindowWin32::realizeImplementation` :
`init()`, then the sharing of the display lists with the shared context when that is a
`GraphicsWindowWin32`.  `getWGLContext()` is `_hglrc`.  `false` says that
`realizeImplementation` has returned `false` inside the block. -/
def realizeImplementation.initAndShare (deleteNativeWindowDefault : Bool) (s : State) :
    Bool × State :=
  if s.window._initialized = false then
    let s1 := init deleteNativeWindowDefault s
    if s1.window._initialized = false then (false, s1)
    else
      match s1.window._traits.sharedContext with
      | SharedContext.win32 sharedWGLContext =>
        let m := makeCurrent s1
        if m.1 = false then (false, m.2)
        else
          let r := m.2.world.native (.wglShareLists sharedWGLContext m.2.window._hglrc)
          if r.1.ok = false then (false, { m.2 with world := r.2 })
          else (true, { m.2 with world := r.2 })
      | SharedContext.notWin32 => (true, s1)
      | SharedContext.null => (true, s1)
  else (true, s)

/-- The block `if (_ownsWindow) { ... }` of `GraphicsWindowWin32::realizeImplementation`,
which shows the window.  `false` says that `realizeImplementation` has returned `false`
inside the block. -/
def realizeImplementation.showWindow (s : State) : Bool × State :=
  if s.window._ownsWindow = true then
    let r1 := s.world.native (.SetWindowPos s.window._hwnd
      s.window._windowOriginXToRealize s.window._windowOriginYToRealize
      s.window._windowWidthToRealize s.window._windowHeightToRealize SWP_SHOWWINDOW)
    if r1.1.ok = false then (false, { s with world := r1.2 })
    else
      let r2 := r1.2.native (.UpdateWindow s.window._hwnd)
      if r2.1.ok = false then (false, { s with world := r2.2 })
      else (true, { s with world := r2.2 })
  else (true, s)

/-- `GraphicsWindowWin32::realizeImplementation` : the two blocks
`realizeImplementation.initAndShare` and `realizeImplementation.showWindow` in sequence,
then `_realized = true`. -/
def realizeImplementation (deleteNativeWindowDefault : Bool) (s : State) : Bool × State :=
  if s.window._realized = true then (true, s)
  else
    let a := realizeImplementation.initAndShare deleteNativeWindowDefault s
    if a.1 = false then (false, a.2)
    else
      let b := realizeImplementation.showWindow a.2
      if b.1 = false then (false, b.2)
      else (true, { b.2 with window := { b.2.window with _realized := true } })

/-- `GraphicsWindowWin32::closeImplementation`. -/
def closeImplementation (deleteNativeWindowDefault : Bool) (s : State) : State :=
  let s1 := destroyWindow deleteNativeWindowDefault s
  { s1 with window := { s1.window with
      _initialized := false, _valid := false, _realized := false } }

/-! ## The negotiation as the specification words it -/

/-- The Traits after the bit-depth correction: red, green and blue are a quarter of the
screen depth `bpp`, every other field is kept. -/
def correctedTraits (t : Traits) (bpp : Nat) : Traits :=
  { t with red := bpp / 4, green := bpp / 4, blue := bpp / 4 }

/-- The negotiation in the words of the specification, over a chooser `choose hint traits`
which answers a pixel format index or a negative number: (1) swap-exchange hint with the
original traits; (2) swap-exchange hint with the corrected traits, only if (1) failed and
the screen depth `bpp` is below 32; (3) no swap-exchange hint with the then-current traits,
only if every earlier query failed.  The first non-negative answer ends the negotiation. -/
def negotiationSpec (choose : Bool → Traits → World → Int × World) (bpp : Nat) (t : Traits)
    (w : World) : Option Int × Traits × World :=
  let a1 := choose true t w
  if 0 ≤ a1.1 then (some a1.1, t, a1.2)
  else if bpp < 32 then
    let a2 := choose true (correctedTraits t bpp) a1.2
    if 0 ≤ a2.1 then (some a2.1, correctedTraits t bpp, a2.2)
    else
      let a3 := choose false (correctedTraits t bpp) a2.2
      if 0 ≤ a3.1 then (some a3.1, correctedTraits t bpp, a3.2)
      else (none, correctedTraits t bpp, a3.2)
  else
    let a3 := choose false t a1.2
    if 0 ≤ a3.1 then (some a3.1, t, a3.2) else (none, t, a3.2)

/-- The chooser of `setPixelFormat` : the attribute list is prepared from the traits, with
or without the swap-exchange hint, and handed to `ChooseMatchingPixelFormat`. -/
def chooser (sampleHdc : HDC) (hint : Bool) (t : Traits) (w : World) : Int × World :=
  ChooseMatchingPixelFormat sampleHdc (PreparePixelFormatSpecifications t {} hint) t w

/-- The sample context which `setPixelFormat` obtains in the state `s`, before the
negotiation starts. -/
def sampleContextOf (s : State) : Bool × OpenGLContext × World :=
  getSampleOpenGLContext {} s.window._hdc s.window._screenOriginX s.window._screenOriginY
    s.world

/-- Whether a native call is the set-pixel-format call or the create-context call. -/
def NativeCall.isSetPixelFormatOrCreateContext : NativeCall → Bool
  | NativeCall.SetPixelFormat _ _ => true
  | NativeCall.wglCreateContext _ => true
  | _ => false

/-- The answers of the queries which the negotiation, in the words of the specification,
makes, in the order in which it makes them. -/
def negotiationAnswers (choose : Bool → Traits → World → Int × World) (bpp : Nat) (t : Traits)
    (w : World) : List Int :=
  let a1 := choose true t w
  if 0 ≤ a1.1 then [a1.1]
  else if bpp < 32 then
    let a2 := choose true (correctedTraits t bpp) a1.2
    if 0 ≤ a2.1 then [a1.1, a2.1]
    else [a1.1, a2.1, (choose false (correctedTraits t bpp) a2.2).1]
  else [a1.1, (choose false t a1.2).1]

/-- The negotiation which the specification prescribes for `setPixelFormat` in the state `s`,
once the sample context is obtained: on the device context of the sample context, with the
Traits of the window and the depth of its screen. -/
def negotiationOf (s : State) : Option Int × Traits × World :=
  negotiationSpec (chooser (sampleContextOf s).2.1.deviceContext)
    (getScreenColorDepth s.world s.window._traits.toScreenIdentifier) s.window._traits
    (sampleContextOf s).2.2

/-- The answers of the queries made by `negotiationOf s`, in order. -/
def answersOf (s : State) : List Int :=
  negotiationAnswers (chooser (sampleContextOf s).2.1.deviceContext)
    (getScreenColorDepth s.world s.window._traits.toScreenIdentifier) s.window._traits
    (sampleContextOf s).2.2

/-! ## Concrete inputs used by the witnesses and the counterexamples -/

/-- An operating system under which every native call succeeds: the call number `n` returns
the fresh handle (or the non-zero value) `100 + n`, the extension chooser finds one
matching format, of index `7`, and `AdjustWindowRectEx` yields the corners
`(7, 1) - (806, 600)`. -/
def successOracle : Nat → NativeResult :=
  fun n => { ret := 100 + Int.ofNat n, out1 := 7, out2 := 1, out3 := 806, out4 := 600 }

/-- One display device attached to the desktop, 1024 by 768 at `bpp` bits per pixel. -/
def oneScreen (bpp : Nat) : List DISPLAY_DEVICE :=
  [{ currentSettings :=
      some { dmPelsWidth := 1024, dmPelsHeight := 768, dmBitsPerPel := bpp } }]

/-- A window at address `1` which holds the native window `40` and its device context `50`,
on a 16-bit screen, under `successOracle`. -/
def stateBeforeSetPixelFormat : State :=
  { window := { this := 1, _traits := {}, _hwnd := 40, _hdc := 50 },
    world := { oracle := successOracle, displayDevices := oneScreen 16 } }

/-- The window at address `1`, 800 by 600, with no shared context and no inherited window,
as its constructor leaves it on a 32-bit screen when every native call succeeds. -/
def constructedWindow (deleteNativeWindowDefault : Bool) : State :=
  GraphicsWindowWin32.construct deleteNativeWindowDefault 1 { width := 800, height := 600 }
    { oracle := successOracle, displayDevices := oneScreen 32 }


/-- The window at address `1`, constructed over the externally supplied native window `77`
(the inherited window data of its Traits), on a 32-bit screen when every native call
succeeds. -/
def adoptedWindow (deleteNativeWindowDefault : Bool) : State :=
  GraphicsWindowWin32.construct deleteNativeWindowDefault 1
    { width := 800, height := 600, inheritedWindowData := 77 }
    { oracle := successOracle, displayDevices := oneScreen 32 }

/-- The window at address `1`, 800 by 600, whose Traits configure as shared context a
`GraphicsWindowWin32` holding the rendering context `9`, as its constructor leaves it on a
32-bit screen when every native call succeeds. -/
def sharingWindow (deleteNativeWindowDefault : Bool) : State :=
  GraphicsWindowWin32.construct deleteNativeWindowDefault 1
    { width := 800, height := 600, sharedContext := SharedContext.win32 9 }
    { oracle := successOracle, displayDevices := oneScreen 32 }

/-- The window `constructedWindow` after `realizeImplementation`. -/
def realizedWindow (deleteNativeWindowDefault : Bool) : State :=
  (realizeImplementation deleteNativeWindowDefault
    (constructedWindow deleteNativeWindowDefault)).2

/-- The call is `wglShareLists`. -/
def NativeCall.isShareLists : NativeCall → Bool
  | NativeCall.wglShareLists _ _ => true
  | _ => false

/-- A complete handle: the native window `40`, its device context `50` and the rendering
context `60`. -/
def completeHandle : OpenGLContext := { _hwnd := 40, _hdc := 50, _hglrc := 60 }

/-- A handle without native window: only the device context `50` and the rendering context
`60` are set. -/
def handleWithoutWindow : OpenGLContext := { _hwnd := 0, _hdc := 50, _hglrc := 60 }

/-- A world in which the rendering context `current` is current on the thread and every
native call succeeds. -/
def worldWithCurrent (current : HGLRC) : World :=
  { oracle := successOracle, currentContext := current }

/-- An operating system for a key message handled in a fresh world: `MapVirtualKeyEx`, the
first call, answers the virtual key `virtualKey`; every later call succeeds with the value
`1`, so that the keyboard state is readable with Caps-Lock toggled on and Num-Lock off, and
`ToAscii` would convert to one character, of code `1`. -/
def keyboardOracle (virtualKey : Int) : Nat → NativeResult :=
  fun n =>
    if n = 0 then { ret := virtualKey, out1 := 0, out2 := 0, out3 := 0, out4 := 0 }
    else { ret := 1, out1 := 1, out2 := 0, out3 := 0, out4 := 0 }

/-- A fresh world under `keyboardOracle virtualKey`. -/
def keyboardWorld (virtualKey : Int) : World := { oracle := keyboardOracle virtualKey }

/-- The window `realizedWindow` when the operating system reports, from now on, the client
origin `(0, 0)` and an empty client rectangle: the window has been minimized. -/
def minimizedWindow : State :=
  { window := (realizedWindow true).window,
    world := { (realizedWindow true).world with oracle := fun _ => { ret := 1 } } }

/-- A world in which the rendering context `current` is current on the thread and every
native call fails. -/
def failingWorld (current : HGLRC) : World :=
  { oracle := fun _ => {}, currentContext := current }

/-- The window `realizedWindow` when the operating system reports, from now on, the client
origin `(0, 0)` and a client rectangle of width `640` and height `0`. -/
def flattenedWindow : State :=
  { window := (realizedWindow true).window,
    world := { (realizedWindow true).world with
      oracle := fun _ => { ret := 1, out3 := 640 } } }

/-- A fresh window at address `1` which is to adopt the native window `77` and to set its
pixel format, in a world where `GetDC`, the first native call, answers the device context
`100` and every later native call fails. -/
def adoptingWindow : State :=
  { window := { this := 1,
                _traits := { inheritedWindowData := 77, setInheritedWindowPixelFormat := true } },
    world := { oracle := fun n => if n = 0 then { ret := 100 } else {} } }

/-- A fresh window at address `1` which requests the decorated client area `(10, 20)`,
800 by 600, on one 1024 by 768 screen at the origin, in a world where
`AdjustWindowRectEx` moves the left, right and bottom sides outward by `8` and the top side
by `31`. -/
def decoratedRequest : State :=
  { window := { this := 1,
                _traits := { x := 10, y := 20, width := 800, height := 600,
                             windowDecoration := true } },
    world := { oracle := fun _ => { ret := 1, out1 := 2, out2 := -11, out3 := 817, out4 := 627 },
               displayDevices := oneScreen 32 } }

/-- The window `stateBeforeSetPixelFormat` on its 16-bit screen, asking for 2 bits of red,
green and blue, in a world where the first query of the extension chooser (the tenth native
call) finds no matching format and every other native call succeeds. -/
def modestRequest : State :=
  { window := { this := 1, _traits := { red := 2, green := 2, blue := 2 }, _hwnd := 40,
                _hdc := 50 },
    world := { oracle := fun n => if n = 9 then { ret := 1, out2 := 0 } else successOracle n,
               displayDevices := oneScreen 16 } }

def VK_BACK : Int := 0x08
def VK_TAB : Int := 0x09
def VK_CLEAR : Int := 0x0C
def VK_RETURN : Int := 0x0D
def VK_CONTROL : Int := 0x11
def VK_MENU : Int := 0x12
def VK_PAUSE : Int := 0x13
def VK_CAPITAL : Int := 0x14
def VK_ESCAPE : Int := 0x1B
def VK_SPACE : Int := 0x20
def VK_PRIOR : Int := 0x21
def VK_NEXT : Int := 0x22
def VK_END : Int := 0x23
def VK_HOME : Int := 0x24
def VK_LEFT : Int := 0x25
def VK_UP : Int := 0x26
def VK_RIGHT : Int := 0x27
def VK_DOWN : Int := 0x28
def VK_SNAPSHOT : Int := 0x2C
def VK_INSERT : Int := 0x2D
def VK_DELETE : Int := 0x2E
def VK_LWIN : Int := 0x5B
def VK_RWIN : Int := 0x5C
def VK_APPS : Int := 0x5D
def VK_NUMPAD0 : Int := 0x60
def VK_NUMPAD1 : Int := 0x61
def VK_NUMPAD2 : Int := 0x62
def VK_NUMPAD3 : Int := 0x63
def VK_NUMPAD4 : Int := 0x64
def VK_NUMPAD5 : Int := 0x65
def VK_NUMPAD6 : Int := 0x66
def VK_NUMPAD7 : Int := 0x67
def VK_NUMPAD8 : Int := 0x68
def VK_NUMPAD9 : Int := 0x69
def VK_MULTIPLY : Int := 0x6A
def VK_ADD : Int := 0x6B
def VK_SUBTRACT : Int := 0x6D
def VK_DECIMAL : Int := 0x6E
def VK_DIVIDE : Int := 0x6F
def VK_F1 : Int := 0x70
def VK_F2 : Int := 0x71
def VK_F3 : Int := 0x72
def VK_F4 : Int := 0x73
def VK_F5 : Int := 0x74
def VK_F6 : Int := 0x75
def VK_F7 : Int := 0x76
def VK_F8 : Int := 0x77
def VK_F9 : Int := 0x78
def VK_F10 : Int := 0x79
def VK_F11 : Int := 0x7A
def VK_F12 : Int := 0x7B
def VK_NUMLOCK : Int := 0x90
def VK_SCROLL : Int := 0x91
def VK_LSHIFT : Int := 0xA0
def VK_RSHIFT : Int := 0xA1
def VK_LCONTROL : Int := 0xA2
def VK_RCONTROL : Int := 0xA3
def VK_LMENU : Int := 0xA4
def VK_RMENU : Int := 0xA5

/-! Modelled from the spec: the key symbols and the modifier bits of
`osgGA::GUIEventAdapter`, whose header is not under src/.  The specification names them
(left and right Shift, Control and Alt, the Caps-Lock and Num-Lock toggles, Return and the
numeric-pad enter) without their values; the key symbols are given the values of the X11 key
symbols which that header follows, the modifier bits one bit each.  What is proved of
`adaptKey` uses only that the modifier bits are distinct single bits and that the named key
symbols are distinct values with a non-zero second byte. -/

def KEY_BackSpace : Int := 0xFF08
def KEY_Tab : Int := 0xFF09
def KEY_Clear : Int := 0xFF0B
def KEY_Return : Int := 0xFF0D
def KEY_Pause : Int := 0xFF13
def KEY_Scroll_Lock : Int := 0xFF14
def KEY_Escape : Int := 0xFF1B
def KEY_Delete : Int := 0xFFFF
def KEY_Home : Int := 0xFF50
def KEY_Left : Int := 0xFF51
def KEY_Up : Int := 0xFF52
def KEY_Right : Int := 0xFF53
def KEY_Down : Int := 0xFF54
def KEY_Page_Up : Int := 0xFF55
def KEY_Page_Down : Int := 0xFF56
def KEY_End : Int := 0xFF57
def KEY_Print : Int := 0xFF61
def KEY_Insert : Int := 0xFF63
def KEY_Menu : Int := 0xFF67
def KEY_Num_Lock : Int := 0xFF7F
def KEY_KP_Enter : Int := 0xFF8D
def KEY_KP_Home : Int := 0xFF95
def KEY_KP_Left : Int := 0xFF96
def KEY_KP_Up : Int := 0xFF97
def KEY_KP_Right : Int := 0xFF98
def KEY_KP_Down : Int := 0xFF99
def KEY_KP_Page_Up : Int := 0xFF9A
def KEY_KP_Page_Down : Int := 0xFF9B
def KEY_KP_End : Int := 0xFF9C
def KEY_KP_Begin : Int := 0xFF9D
def KEY_KP_Insert : Int := 0xFF9E
def KEY_KP_Delete : Int := 0xFF9F
def KEY_KP_Multiply : Int := 0xFFAA
def KEY_KP_Add : Int := 0xFFAB
def KEY_KP_Subtract : Int := 0xFFAD
def KEY_KP_Divide : Int := 0xFFAF
def KEY_F1 : Int := 0xFFBE
def KEY_F2 : Int := 0xFFBF
def KEY_F3 : Int := 0xFFC0
def KEY_F4 : Int := 0xFFC1
def KEY_F5 : Int := 0xFFC2
def KEY_F6 : Int := 0xFFC3
def KEY_F7 : Int := 0xFFC4
def KEY_F8 : Int := 0xFFC5
def KEY_F9 : Int := 0xFFC6
def KEY_F10 : Int := 0xFFC7
def KEY_F11 : Int := 0xFFC8
def KEY_F12 : Int := 0xFFC9
def KEY_Shift_L : Int := 0xFFE1
def KEY_Shift_R : Int := 0xFFE2
def KEY_Control_L : Int := 0xFFE3
def KEY_Control_R : Int := 0xFFE4
def KEY_Caps_Lock : Int := 0xFFE5
def KEY_Alt_L : Int := 0xFFE9
def KEY_Alt_R : Int := 0xFFEA
def KEY_Super_L : Int := 0xFFEB
def KEY_Super_R : Int := 0xFFEC

def MODKEY_LEFT_SHIFT : Nat := 0x0001
def MODKEY_RIGHT_SHIFT : Nat := 0x0002
def MODKEY_LEFT_CTRL : Nat := 0x0004
def MODKEY_RIGHT_CTRL : Nat := 0x0008
def MODKEY_LEFT_ALT : Nat := 0x0010
def MODKEY_RIGHT_ALT : Nat := 0x0020
def MODKEY_NUM_LOCK : Nat := 0x1000
def MODKEY_CAPS_LOCK : Nat := 0x2000

/-- The type `KeyMap`, a `std::map<int, int>`, as an association list. -/
abbrev KeyMap := List (Int × Int)

/-- The statement `_keymap[key] = value` : the value stored under `key` is replaced. -/
def KeyMap.assign (m : KeyMap) (key value : Int) : KeyMap :=
  (key, value) :: m.filter (fun e => e.1 != key)

/-- The assignments of the constructor `Win32KeyboardMap::Win32KeyboardMap`, in the order of
the source; character literals are given by their codes. -/
def Win32KeyboardMap.assignments : List (Int × Int) :=
  [ (VK_ESCAPE, KEY_Escape), (VK_F1, KEY_F1), (VK_F2, KEY_F2), (VK_F3, KEY_F3),
    (VK_F4, KEY_F4), (VK_F5, KEY_F5), (VK_F6, KEY_F6), (VK_F7, KEY_F7), (VK_F8, KEY_F8),
    (VK_F9, KEY_F9), (VK_F10, KEY_F10), (VK_F11, KEY_F11), (VK_F12, KEY_F12),
    (0xc0, 96),
    (48, 48), (49, 49), (50, 50), (51, 51), (52, 52), (53, 53), (54, 54), (55, 55),
    (56, 56), (57, 57),
    (0xbd, 45), (0xbb, 61), (VK_BACK, KEY_BackSpace), (VK_TAB, KEY_Tab),
    (65, 65), (66, 66), (67, 67), (68, 68), (69, 69), (70, 70), (71, 71), (72, 72),
    (73, 73), (74, 74), (75, 75), (76, 76), (77, 77), (78, 78), (79, 79), (80, 80),
    (81, 81), (82, 82), (83, 83), (84, 84), (85, 85), (86, 86), (87, 87), (88, 88),
    (89, 89), (90, 90),
    (0xdb, 91), (0xdd, 93), (0xdc, 92), (VK_CAPITAL, KEY_Caps_Lock), (0xba, 59), (0xde, 39),
    (VK_RETURN, KEY_Return), (VK_LSHIFT, KEY_Shift_L), (0xbc, 44), (0xbe, 46), (0xbf, 47),
    (VK_RSHIFT, KEY_Shift_R), (VK_LCONTROL, KEY_Control_L), (VK_LWIN, KEY_Super_L),
    (VK_SPACE, 32), (VK_LMENU, KEY_Alt_L), (VK_RMENU, KEY_Alt_R), (VK_RWIN, KEY_Super_R),
    (VK_APPS, KEY_Menu), (VK_RCONTROL, KEY_Control_R), (VK_SNAPSHOT, KEY_Print),
    (VK_SCROLL, KEY_Scroll_Lock), (VK_PAUSE, KEY_Pause), (VK_HOME, KEY_Home),
    (VK_PRIOR, KEY_Page_Up), (VK_END, KEY_End), (VK_NEXT, KEY_Page_Down),
    (VK_DELETE, KEY_Delete), (VK_INSERT, KEY_Insert), (VK_LEFT, KEY_Left), (VK_UP, KEY_Up),
    (VK_RIGHT, KEY_Right), (VK_DOWN, KEY_Down), (VK_NUMLOCK, KEY_Num_Lock),
    (VK_DIVIDE, KEY_KP_Divide), (VK_MULTIPLY, KEY_KP_Multiply),
    (VK_SUBTRACT, KEY_KP_Subtract), (VK_ADD, KEY_KP_Add), (VK_NUMPAD7, KEY_KP_Home),
    (VK_NUMPAD8, KEY_KP_Up), (VK_NUMPAD9, KEY_KP_Page_Up), (VK_NUMPAD4, KEY_KP_Left),
    (VK_NUMPAD5, KEY_KP_Begin), (VK_NUMPAD6, KEY_KP_Right), (VK_NUMPAD1, KEY_KP_End),
    (VK_NUMPAD2, KEY_KP_Down), (VK_NUMPAD3, KEY_KP_Page_Down), (VK_NUMPAD0, KEY_KP_Insert),
    (VK_DECIMAL, KEY_KP_Delete), (VK_CLEAR, KEY_Clear) ]

/-- The map `_keymap` built by the constructor of `Win32KeyboardMap`, the static
`s_win32KeyboardMap`. -/
def s_win32KeyboardMap : KeyMap :=
  Win32KeyboardMap.assignments.foldl (fun m e => KeyMap.assign m e.1 e.2) []

/-- `Win32KeyboardMap::remapKey`. -/
def Win32KeyboardMap.remapKey (m : KeyMap) (key : Int) : Int :=
  match List.lookup key m with
  | none => key
  | some value => value

/-- `remapWin32Key`. -/
def remapWin32Key (key : Int) : Int := Win32KeyboardMap.remapKey s_win32KeyboardMap key

/-! ## Window messages -/

def WM_DESTROY : Nat := 0x0002
def WM_MOVE : Nat := 0x0003
def WM_SIZE : Nat := 0x0005
def WM_PAINT : Nat := 0x000F
def WM_CLOSE : Nat := 0x0010
def WM_QUIT : Nat := 0x0012
def WM_SETCURSOR : Nat := 0x0020
def WM_KEYDOWN : Nat := 0x0100
def WM_KEYUP : Nat := 0x0101
def WM_SYSKEYDOWN : Nat := 0x0104
def WM_SYSKEYUP : Nat := 0x0105
def WM_MOUSEMOVE : Nat := 0x0200
def WM_LBUTTONDOWN : Nat := 0x0201
def WM_LBUTTONUP : Nat := 0x0202
def WM_RBUTTONDOWN : Nat := 0x0204
def WM_RBUTTONUP : Nat := 0x0205
def WM_MBUTTONDOWN : Nat := 0x0207
def WM_MBUTTONUP : Nat := 0x0208
def WM_MOUSEWHEEL : Nat := 0x020A

/-- Conversion of a 16-bit pattern to `short` (two's complement). -/
def toInt16 (n : Nat) : Int :=
  if n % 65536 < 32768 then Int.ofNat (n % 65536) else Int.ofNat (n % 65536) - 65536

/-- Conversion of an 8-bit pattern to `char`, which is signed on this platform. -/
def toSignedChar (n : Nat) : Int :=
  if n % 256 < 128 then Int.ofNat (n % 256) else Int.ofNat (n % 256) - 256

/-- `GET_X_LPARAM` of the Windows headers : the low word, as a `short`. -/
def GET_X_LPARAM (lParam : Nat) : Int := toInt16 (lParam % 65536)

/-- `GET_Y_LPARAM` of the Windows headers : the high word, as a `short`. -/
def GET_Y_LPARAM (lParam : Nat) : Int := toInt16 ((lParam / 65536) % 65536)

/-- `GET_WHEEL_DELTA_WPARAM` of the Windows headers : the high word, as a `short`. -/
def GET_WHEEL_DELTA_WPARAM (wParam : Nat) : Int := toInt16 ((wParam / 65536) % 65536)

/-- `GraphicsWindowWin32::adaptKey` : the key symbol, the modifier mask, and the world.
`wParam` and `lParam` are given by their bit patterns.  `GetKeyboardState` returns
`keyState[VK_CAPITAL]` through `out1` and `keyState[VK_NUMLOCK]` through `out2`; `ToAscii`
returns the word it wrote through `out1`, whose low byte is `asciiKey[0]`. -/
def adaptKey (wParam lParam : Nat) (w : World) : Int × Nat × World :=
  let rightSide : Bool := (lParam &&& 0x01000000) != 0
  let rm := w.native (.MapVirtualKeyEx ((lParam >>> 16) &&& 0xff))
  let virtualKey : Int := rm.1.ret
  if virtualKey = 0 then (0, 0, rm.2)
  else
    let rk := rm.2.native NativeCall.GetKeyboardState
    if rk.1.ok = false then (0, 0, rk.2)
    else
      let km : Int × Nat :=
        if virtualKey = VK_LSHIFT then (virtualKey, MODKEY_LEFT_SHIFT)
        else if virtualKey = VK_RSHIFT then (virtualKey, MODKEY_RIGHT_SHIFT)
        else if virtualKey = VK_CONTROL ∨ virtualKey = VK_LCONTROL then
          (if rightSide = true then VK_RCONTROL else VK_LCONTROL,
           if rightSide = true then MODKEY_RIGHT_CTRL else MODKEY_LEFT_CTRL)
        else if virtualKey = VK_MENU ∨ virtualKey = VK_LMENU then
          (if rightSide = true then VK_RMENU else VK_LMENU,
           if rightSide = true then MODKEY_RIGHT_ALT else MODKEY_LEFT_ALT)
        else (toInt32 wParam, 0)
      let mask1 : Nat := if rk.1.out1 % 2 = 1 then km.2 ||| MODKEY_CAPS_LOCK else km.2
      let mask2 : Nat := if rk.1.out2 % 2 = 1 then mask1 ||| MODKEY_NUM_LOCK else mask1
      let keySymbol := remapWin32Key km.1
      if keySymbol = KEY_Return ∧ rightSide = true then (KEY_KP_Enter, mask2, rk.2)
      else if (toUInt32 keySymbol) &&& 0xff00 = 0 then
        let ra := rk.2.native (.ToAscii wParam ((lParam >>> 16) &&& 0xff))
        if ra.1.ret > 0 then (toSignedChar ra.1.out1.toNat, mask2, ra.2)
        else (keySymbol, mask2, ra.2)
      else (keySymbol, mask2, rk.2)

/-- `GraphicsWindowWin32::transformMouseXY`. -/
def transformMouseXY (x y : Int) (s : State) : MouseCoordinate × MouseCoordinate :=
  if s.window.eventQueue.useFixedMouseInputRange = true then
    (MouseCoordinate.ranged x s.window._traits.width,
     MouseCoordinate.ranged y s.window._traits.height)
  else (MouseCoordinate.raw x, MouseCoordinate.raw y)

/-- Send a notification to the event queue of the window. -/
def State.notify (s : State) (e : GUIEvent) : State :=
  { s with window := { s.window with eventQueue := s.window.eventQueue.push e } }

/-- Modelled from the spec: `osg::GraphicsContext::resized` of the base class (not under
src/), which records the new geometry as the "last known Traits values" of x, y, width and
height. -/
def resized (x y width height : Int) (s : State) : State :=
  { s with window := { s.window with
      _traits := { s.window._traits with x := x, y := y, width := width, height := height } } }

/-! The `switch` of `GraphicsWindowWin32::handleNativeWindowingEvent`, case by case.  Each
case yields `some r` when it returns `r` and `none` when it leaves the `switch` with
`break`.  `eventTime` is the `_timeOfLastCheckEvents` found on entry. -/

/-- The case `WM_PAINT`. -/
def handleNativeWindowingEvent.onPaint (hwnd : HWND) (s : State) : Option Int × State :=
  if s.window._ownsWindow = true then
    (none, { s with
      world := ((s.world.native (.BeginPaint hwnd)).2.native (.EndPaint hwnd)).2 })
  else (none, s)

/-- The case `WM_MOUSEMOVE`. -/
def handleNativeWindowingEvent.onMouseMove (lParam : Nat) (eventTime : Time) (s : State) :
    Option Int × State :=
  let m := transformMouseXY (GET_X_LPARAM lParam) (GET_Y_LPARAM lParam) s
  (none, s.notify (GUIEvent.mouseMotion m.1 m.2 eventTime))

/-- The cases `WM_LBUTTONDOWN`, `WM_MBUTTONDOWN`, `WM_RBUTTONDOWN`. -/
def handleNativeWindowingEvent.onButtonDown (hwnd : HWND) (uMsg lParam : Nat)
    (eventTime : Time) (s : State) : Option Int × State :=
  let s1 : State := { s with world := (s.world.native (.SetCapture hwnd)).2 }
  let button : Nat :=
    if uMsg = WM_LBUTTONDOWN then 1 else if uMsg = WM_MBUTTONDOWN then 2 else 3
  let m := transformMouseXY (GET_X_LPARAM lParam) (GET_Y_LPARAM lParam) s1
  (none, s1.notify (GUIEvent.mouseButtonPress m.1 m.2 button eventTime))

/-- The cases `WM_LBUTTONUP`, `WM_MBUTTONUP`, `WM_RBUTTONUP`. -/
def handleNativeWindowingEvent.onButtonUp (uMsg lParam : Nat) (eventTime : Time)
    (s : State) : Option Int × State :=
  let s1 : State := { s with world := (s.world.native NativeCall.ReleaseCapture).2 }
  let button : Nat :=
    if uMsg = WM_LBUTTONUP then 1 else if uMsg = WM_MBUTTONUP then 2 else 3
  let m := transformMouseXY (GET_X_LPARAM lParam) (GET_Y_LPARAM lParam) s1
  (none, s1.notify (GUIEvent.mouseButtonRelease m.1 m.2 button eventTime))

/-- The case `WM_MOUSEWHEEL`. -/
def handleNativeWindowingEvent.onMouseWheel (wParam : Nat) (eventTime : Time) (s : State) :
    Option Int × State :=
  (none, s.notify (GUIEvent.mouseScroll
    (if GET_WHEEL_DELTA_WPARAM wParam < 0 then ScrollingMotion.SCROLL_DOWN
     else ScrollingMotion.SCROLL_UP) eventTime))

/-- The cases `WM_MOVE` and `WM_SIZE`.  `ClientToScreen` returns the origin through `out1`,
`out2`; `GetClientRect` returns the rectangle through `out1 .. out4`
(left, top, right, bottom).  The two subtractions are taken in the integers: screen
coordinates are far from the bounds of `int`. -/
def handleNativeWindowingEvent.onMoveOrSize (hwnd : HWND) (eventTime : Time) (s : State) :
    Option Int × State :=
  let ro := s.world.native (.ClientToScreen hwnd)
  let windowX := ro.1.out1 - s.window._screenOriginX
  let windowY := ro.1.out2 - s.window._screenOriginY
  let resizeTime := eventTime
  let rc := ro.2.native (.GetClientRect hwnd)
  let s1 : State := { s with world := rc.2 }
  let windowWidth : Int := if rc.1.out4 = 0 ∧ rc.1.out3 = 0 then 1 else rc.1.out3
  let windowHeight : Int := if rc.1.out4 = 0 ∧ rc.1.out3 = 0 then 1 else rc.1.out4
  if windowX ≠ s1.window._traits.x ∨ windowY ≠ s1.window._traits.y
      ∨ windowWidth ≠ s1.window._traits.width ∨ windowHeight ≠ s1.window._traits.height then
    (none, (resized windowX windowY windowWidth windowHeight s1).notify
      (GUIEvent.windowResize windowX windowY windowWidth windowHeight resizeTime))
  else (none, s1)

/-- The cases `WM_KEYDOWN` and `WM_SYSKEYDOWN`. -/
def handleNativeWindowingEvent.onKeyDown (wParam lParam : Nat) (eventTime : Time)
    (s : State) : Option Int × State :=
  let k := adaptKey wParam lParam s.world
  let s1 : State :=
    { window := { s.window with eventQueue := { s.window.eventQueue with modKeyMask := k.2.1 } },
      world := k.2.2 }
  (none, s1.notify (GUIEvent.keyPress k.1 eventTime))

/-- The cases `WM_KEYUP` and `WM_SYSKEYUP`. -/
def handleNativeWindowingEvent.onKeyUp (wParam lParam : Nat) (eventTime : Time)
    (s : State) : Option Int × State :=
  let k := adaptKey wParam lParam s.world
  let s1 : State :=
    { window := { s.window with eventQueue := { s.window.eventQueue with modKeyMask := k.2.1 } },
      world := k.2.2 }
  (none, s1.notify (GUIEvent.keyRelease k.1 eventTime))

/-- The case `WM_SETCURSOR`. -/
def handleNativeWindowingEvent.onSetCursor (hwnd : HWND) (uMsg wParam lParam : Nat)
    (s : State) : Option Int × State :=
  if s.window._traits.useCursor = true then
    let r := s.world.native (.DefWindowProc hwnd uMsg wParam lParam)
    (some r.1.ret, { s with world := r.2 })
  else (some 1, { s with world := (s.world.native NativeCall.SetCursor).2 })

/-- The case `WM_CLOSE`. -/
def handleNativeWindowingEvent.onClose (eventTime : Time) (s : State) : Option Int × State :=
  (none, s.notify (GUIEvent.closeWindow eventTime))

/-- The case `WM_DESTROY`. -/
def handleNativeWindowingEvent.onDestroy (s : State) : Option Int × State :=
  let s1 : State := { s with window := { s.window with _destroyWindow := true } }
  if s1.window._ownsWindow = true then
    (none, { s1 with world := (s1.world.native NativeCall.PostQuitMessage).2 })
  else (none, s1)

/-- The case `WM_QUIT`. -/
def handleNativeWindowingEvent.onQuit (wParam : Nat) (s : State) : Option Int × State :=
  (some (Int.ofNat wParam), { s with window := { s.window with _closeWindow := true } })

/-- The case `default`. -/
def handleNativeWindowingEvent.onDefault (hwnd : HWND) (uMsg wParam lParam : Nat)
    (s : State) : Option Int × State :=
  if s.window._ownsWindow = true then
    let r := s.world.native (.DefWindowProc hwnd uMsg wParam lParam)
    (some r.1.ret, { s with world := r.2 })
  else (none, s)

/-- The `switch` of `GraphicsWindowWin32::handleNativeWindowingEvent`. -/
def handleNativeWindowingEvent.switch (hwnd : HWND) (uMsg wParam lParam : Nat)
    (eventTime : Time) (s : State) : Option Int × State :=
  if uMsg = WM_PAINT then handleNativeWindowingEvent.onPaint hwnd s
  else if uMsg = WM_MOUSEMOVE then handleNativeWindowingEvent.onMouseMove lParam eventTime s
  else if uMsg = WM_LBUTTONDOWN ∨ uMsg = WM_MBUTTONDOWN ∨ uMsg = WM_RBUTTONDOWN then
    handleNativeWindowingEvent.onButtonDown hwnd uMsg lParam eventTime s
  else if uMsg = WM_LBUTTONUP ∨ uMsg = WM_MBUTTONUP ∨ uMsg = WM_RBUTTONUP then
    handleNativeWindowingEvent.onButtonUp uMsg lParam eventTime s
  else if uMsg = WM_MOUSEWHEEL then handleNativeWindowingEvent.onMouseWheel wParam eventTime s
  else if uMsg = WM_MOVE ∨ uMsg = WM_SIZE then
    handleNativeWindowingEvent.onMoveOrSize hwnd eventTime s
  else if uMsg = WM_KEYDOWN ∨ uMsg = WM_SYSKEYDOWN then
    handleNativeWindowingEvent.onKeyDown wParam lParam eventTime s
  else if uMsg = WM_KEYUP ∨ uMsg = WM_SYSKEYUP then
    handleNativeWindowingEvent.onKeyUp wParam lParam eventTime s
  else if uMsg = WM_SETCURSOR then handleNativeWindowingEvent.onSetCursor hwnd uMsg wParam lParam s
  else if uMsg = WM_CLOSE then handleNativeWindowingEvent.onClose eventTime s
  else if uMsg = WM_DESTROY then handleNativeWindowingEvent.onDestroy s
  else if uMsg = WM_QUIT then handleNativeWindowingEvent.onQuit wParam s
  else handleNativeWindowingEvent.onDefault hwnd uMsg wParam lParam s

/-- The message types which have a `case` in the `switch` of
`GraphicsWindowWin32::handleNativeWindowingEvent`, in the order of the source. -/
def handleNativeWindowingEvent.caseLabels : List Nat :=
  [WM_PAINT, WM_MOUSEMOVE, WM_LBUTTONDOWN, WM_MBUTTONDOWN, WM_RBUTTONDOWN, WM_LBUTTONUP,
   WM_MBUTTONUP, WM_RBUTTONUP, WM_MOUSEWHEEL, WM_MOVE, WM_SIZE, WM_KEYDOWN, WM_SYSKEYDOWN,
   WM_KEYUP, WM_SYSKEYUP, WM_SETCURSOR, WM_CLOSE, WM_DESTROY, WM_QUIT]

/-- `GraphicsWindowWin32::handleNativeWindowingEvent`.  `now` is the value of
`getEventQueue()->getTime()`. -/
def handleNativeWindowingEvent (hwnd : HWND) (uMsg wParam lParam : Nat) (now : Time)
    (s : State) : Int × State :=
  let eventTime := s.window._timeOfLastCheckEvents
  let s0 : State := { s with window := { s.window with _timeOfLastCheckEvents := now } }
  let sw := handleNativeWindowingEvent.switch hwnd uMsg wParam lParam eventTime s0
  match sw.1 with
  | some r => (r, sw.2)
  | none =>
    if sw.2.window._ownsWindow = true then (0, sw.2)
    else if sw.2.window._windowProcedure = 0 then
      let r := sw.2.world.native (.DefWindowProc hwnd uMsg wParam lParam)
      (r.1.ret, { sw.2 with world := r.2 })
    else
      let r := sw.2.world.native
        (.CallWindowProc sw.2.window._windowProcedure hwnd uMsg wParam lParam)
      (r.1.ret, { sw.2 with world := r.2 })

/-- The static `WindowProc` of the source, seen from the window of the state: the message
goes to the window registered for `hwnd` ; when that is another window object, only the
fact that its handler ran is recorded. -/
def WindowProc (hwnd : HWND) (uMsg wParam lParam : Nat) (now : Time) (s : State) :
    Int × State :=
  let window := s.world.windowingSystem.getGraphicsWindowFor hwnd
  if window = 0 then
    let r := s.world.native (.DefWindowProc hwnd uMsg wParam lParam)
    (r.1.ret, { s with world := r.2 })
  else if window = s.window.this then handleNativeWindowingEvent hwnd uMsg wParam lParam now s
  else
    let r := s.world.native (.otherWindowEvent window hwnd uMsg wParam lParam)
    (r.1.ret, { s with world := r.2 })

/-- A queued message, with the time the event queue reports when it is handled. -/
structure MSG where
  hwnd : HWND
  message : Nat
  wParam : Nat
  lParam : Nat
  now : Time
  deriving DecidableEq, Repr

/-- Modelled from the spec: `osg::GraphicsContext::close` of the base class (not under
src/), which ends in `closeImplementation`. -/
def close (deleteNativeWindowDefault : Bool) (s : State) : State :=
  closeImplementation deleteNativeWindowDefault s

/-- `GraphicsWindowWin32::checkEvents`.  `msgs` are the messages which the `PeekMessage`
loop retrieves; `DispatchMessage` hands each of them to `WindowProc`. -/
def checkEvents (deleteNativeWindowDefault : Bool) (msgs : List MSG) (s : State) : State :=
  if s.window._realized = false then s
  else
    let s1 := msgs.foldl
      (fun st m => (WindowProc m.hwnd m.message m.wParam m.lParam m.now st).2) s
    let s2 : State :=
      if s1.window._closeWindow = true then
        close deleteNativeWindowDefault
          { s1 with window := { s1.window with _closeWindow := false } }
      else s1
    if s2.window._destroyWindow = true then
      destroyWindow false { s2 with window := { s2.window with _destroyWindow := false } }
    else s2

/-! ## Reachable states -/

/-- The states a window can be in: it is constructed (which runs `init`) in a world whose
registry holds no null handle, and then any of its operations runs, any message is handled,
and the environment acts: other windows register and unregister themselves, the display
devices, the current rendering context and the future answers of the operating system
change. -/
inductive Reachable (deleteNativeWindowDefault : Bool) : State → Prop where
  | construct (this : WindowPtr) (traits : Traits) (w : World)
      (hreg : ∀ e ∈ w.windowingSystem._activeWindows, e.1 ≠ 0) :
      Reachable deleteNativeWindowDefault
        (GraphicsWindowWin32.construct deleteNativeWindowDefault this traits w)
  | init (s : State) : Reachable deleteNativeWindowDefault s →
      Reachable deleteNativeWindowDefault (init deleteNativeWindowDefault s)
  | realize (s : State) : Reachable deleteNativeWindowDefault s →
      Reachable deleteNativeWindowDefault (realizeImplementation deleteNativeWindowDefault s).2
  | close (s : State) : Reachable deleteNativeWindowDefault s →
      Reachable deleteNativeWindowDefault (closeImplementation deleteNativeWindowDefault s)
  | destroyWindow (deleteNativeWindow : Bool) (s : State) :
      Reachable deleteNativeWindowDefault s →
      Reachable deleteNativeWindowDefault (destroyWindow deleteNativeWindow s)
  | checkEvents (msgs : List MSG) (s : State) : Reachable deleteNativeWindowDefault s →
      Reachable deleteNativeWindowDefault (checkEvents deleteNativeWindowDefault msgs s)
  | message (hwnd : HWND) (uMsg wParam lParam : Nat) (now : Time) (s : State) :
      Reachable deleteNativeWindowDefault s →
      Reachable deleteNativeWindowDefault
        (handleNativeWindowingEvent hwnd uMsg wParam lParam now s).2
  | makeCurrent (s : State) : Reachable deleteNativeWindowDefault s →
      Reachable deleteNativeWindowDefault (makeCurrentImplementation s).2
  | releaseContext (s : State) : Reachable deleteNativeWindowDefault s →
      Reachable deleteNativeWindowDefault (releaseContextImplementation s).2
  | otherRegisters (hwnd : HWND) (window : WindowPtr) (s : State) :
      Reachable deleteNativeWindowDefault s →
      Reachable deleteNativeWindowDefault
        { s with world := { s.world with
            windowingSystem := s.world.windowingSystem.registerWindow hwnd window } }
  | otherUnregisters (hwnd : HWND) (s : State) : Reachable deleteNativeWindowDefault s →
      Reachable deleteNativeWindowDefault
        { s with world := { s.world with
            windowingSystem := s.world.windowingSystem.unregisterWindow hwnd } }
  | environment (oracle : Nat → NativeResult) (currentContext : HGLRC)
      (displayDevices : List DISPLAY_DEVICE) (useFixedMouseInputRange : Bool) (s : State) :
      Reachable deleteNativeWindowDefault s →
      Reachable deleteNativeWindowDefault
        { window := { s.window with eventQueue :=
            { s.window.eventQueue with useFixedMouseInputRange := useFixedMouseInputRange } },
          world := { s.world with oracle := oracle, currentContext := currentContext,
                                  displayDevices := displayDevices } }

/-! ## The graphics-context factory -/

/-- The class `GraphicsContextWin32`, the offscreen (pbuffer) graphics context: its Traits
and its member `_valid`.  Every other member function of the class only reports that it is
not implemented. -/
structure GraphicsContextWin32 where
  _traits : Traits
  _valid : Bool
  deriving DecidableEq, Repr

/-- The constructor `GraphicsContextWin32::GraphicsContextWin32(traits)` : the member
initialiser `_valid(false)`, then `_traits = traits`. -/
def GraphicsContextWin32.construct (traits : Traits) : GraphicsContextWin32 :=
  { _traits := traits, _valid := false }

/-- `GraphicsContextWin32::valid`. -/
def GraphicsContextWin32.valid (c : GraphicsContextWin32) : Bool := c._valid

/-- Modelled from the spec: `GraphicsWindowWin32::valid`, defined in the class header which
is not under src/.  The factory returns "a windowed context exactly when the new window's
init succeeded": the function answers the member `_valid`, to which `init` gives the value
of `_initialized`. -/
def GraphicsWindowWin32.valid (win : GraphicsWindowWin32) : Bool := win._valid

/-- The destructor `GraphicsWindowWin32::~GraphicsWindowWin32` : `close()`, then
`destroyWindow()`.  What is left of the object is the world. -/
def GraphicsWindowWin32.destructor (deleteNativeWindowDefault : Bool) (s : State) : World :=
  (destroyWindow deleteNativeWindowDefault (close deleteNativeWindowDefault s)).world

/-- What `createGraphicsContext` returns: the null pointer, an offscreen context or a
window. -/
inductive GraphicsContext where
  | null
  | pbuffer (context : GraphicsContextWin32)
  | window (window : GraphicsWindowWin32)
  deriving DecidableEq, Repr

/-- `Win32WindowingSystem::createGraphicsContext`.  `this` is the address at which `new`
places the window.  A context which is not valid is released by its `ref_ptr` when the
function returns the null pointer, which runs its destructor (the one of
`GraphicsContextWin32` is empty). -/
def createGraphicsContext (deleteNativeWindowDefault : Bool) (this : WindowPtr)
    (traits : Traits) (w : World) : GraphicsContext × World :=
  if traits.pbuffer = true then
    let pbuffer := GraphicsContextWin32.construct traits
    if pbuffer.valid = true then (GraphicsContext.pbuffer pbuffer, w)
    else (GraphicsContext.null, w)
  else
    let w1 := registerWindowClasses w
    let window := GraphicsWindowWin32.construct deleteNativeWindowDefault this traits w1
    if window.window.valid = true then (GraphicsContext.window window.window, window.world)
    else (GraphicsContext.null, GraphicsWindowWin32.destructor deleteNativeWindowDefault window)
/-! ## Predicates used in the statements -/

/-- The world `w2` comes after the world `w1` : the answers of the operating system and the
display devices are the same, and the trace has only grown. -/
def World.Extends (w1 w2 : World) : Prop :=
  w2.oracle = w1.oracle ∧ w2.displayDevices = w1.displayDevices ∧ w1.trace <+: w2.trace

/-- The native calls, with their outcomes, issued on the way from the world `w0` to the
world `w1`. -/
def World.eventsSince (w1 w0 : World) : List NativeEvent := w1.trace.drop w0.trace.length

/-- A native call has succeeded: it returned a non-null handle (or a non-zero value), and,
for the extension chooser, a non-negative pixel format index through `out1` and at least
one matching format through `out2`. -/
def NativeResult.succeeded (r : NativeResult) : Prop := 0 < r.ret ∧ 0 ≤ r.out1 ∧ 0 < r.out2

/-- Every native call succeeds, now and in the future. -/
def World.allSucceed (w : World) : Prop := ∀ n : Nat, (w.oracle n).succeeded

/-- The screen `screenNum` of display `0` exists, its current settings can be read, and its
width and height are not zero. -/
def World.screenAvailable (w : World) (screenNum : Int) : Prop :=
  ∃ d : DISPLAY_DEVICE, ∃ m : DEVMODE,
    getScreenInformation w { displayNum := 0, screenNum := screenNum } = some (d, m)
      ∧ m.dmPelsWidth ≠ 0 ∧ m.dmPelsHeight ≠ 0

/-- The registry holds no entry for the null handle. -/
def Win32WindowingSystem.noNullHandle (ws : Win32WindowingSystem) : Prop :=
  ∀ e ∈ ws._activeWindows, e.1 ≠ 0

/-- What every reachable state satisfies: the reentrancy flag is clear between operations, a
rendering context is held only together with a device context and only by an initialized
window, the ownership flag says whether the Traits carry no inherited window, and the
registry holds no entry for the null handle. -/
def WindowInvariant (s : State) : Prop :=
  s.window._destroying = false
    ∧ (s.window._hdc = 0 → s.window._hglrc = 0)
    ∧ (s.window._initialized = false → s.window._hglrc = 0)
    ∧ s.window._ownsWindow = decide (s.window._traits.inheritedWindowData = 0)
    ∧ s.world.windowingSystem.noNullHandle

/-- What a case of the `switch` can change. -/
def HandlerFrame (s : State) (r : Option Int × State) : Prop :=
  ∃ (q : EventQueue) (x y width height : Int) (dw cw : Bool) (w2 : World),
      r.2 = State.mk { s.window with
                eventQueue := q,
                _traits := { s.window._traits with
                  x := x, y := y, width := width, height := height },
                _destroyWindow := dw, _closeWindow := cw } w2
        ∧ s.world.Extends w2 ∧ w2.windowingSystem = s.world.windowingSystem

/-- None of the native calls recorded in the trace from position `k` on is the share-lists
call. -/
def World.noShareListsFrom (w : World) (k : Nat) : Prop :=
  ∀ e ∈ w.trace.drop k, e.call.isShareLists = false
/-! ## Theorems : the window registry -/

theorem WindowHandles.find_cons (a : HWND) (b : WindowPtr) (m : WindowHandles) (k : HWND) :
    WindowHandles.find ((a, b) :: m) k = if k = a then some b else WindowHandles.find m k := by
  unfold WindowHandles.find
  by_cases h : k = a
  · subst h; simp [List.lookup]
  · have hk : (k == a) = false := by simpa using h
    simp [List.lookup, hk, h]

theorem WindowHandles.erase_cons (a : HWND) (b : WindowPtr) (m : WindowHandles) (k : HWND) :
    WindowHandles.erase ((a, b) :: m) k
      = if a = k then WindowHandles.erase m k else (a, b) :: WindowHandles.erase m k := by
  unfold WindowHandles.erase
  by_cases h : a = k
  · simp [List.filter_cons, h]
  · simp [List.filter_cons, h]

theorem WindowHandles.find_erase_self (m : WindowHandles) (k : HWND) :
    (m.erase k).find k = none := by
  induction m with
  | nil => rfl
  | cons e m ih =>
    obtain ⟨a, b⟩ := e
    rw [WindowHandles.erase_cons]
    by_cases h : a = k
    · simp [h, ih]
    · have h2 : ¬ k = a := fun h3 => h h3.symm
      simp [h, WindowHandles.find_cons, h2, ih]

theorem WindowHandles.find_erase_ne (m : WindowHandles) (k k2 : HWND) (hne : k2 ≠ k) :
    (m.erase k).find k2 = m.find k2 := by
  induction m with
  | nil => rfl
  | cons e m ih =>
    obtain ⟨a, b⟩ := e
    rw [WindowHandles.erase_cons]
    by_cases h : a = k
    · have h2 : ¬ k2 = a := by rw [h]; exact hne
      simp [h, WindowHandles.find_cons, ih, hne]
    · simp [h, WindowHandles.find_cons, ih]

theorem WindowHandles.insert_of_find_none (m : WindowHandles) (k : HWND) (v : WindowPtr)
    (h : m.find k = none) : m.insert (k, v) = (k, v) :: m := by
  simp [WindowHandles.insert, h]

theorem WindowHandles.insert_of_find_some (m : WindowHandles) (k : HWND) (v v0 : WindowPtr)
    (h : m.find k = some v0) : m.insert (k, v) = m := by
  simp [WindowHandles.insert, h]

theorem WindowHandles.find_insert_ne (m : WindowHandles) (k k2 : HWND) (v : WindowPtr)
    (hne : k2 ≠ k) : (m.insert (k, v)).find k2 = m.find k2 := by
  cases hf : m.find k with
  | some v0 => rw [WindowHandles.insert_of_find_some m k v v0 hf]
  | none =>
    rw [WindowHandles.insert_of_find_none m k v hf, WindowHandles.find_cons]
    simp [hne]

theorem WindowHandles.find_insert_self (m : WindowHandles) (k : HWND) (v : WindowPtr) :
    (m.insert (k, v)).find k = some ((m.find k).getD v) := by
  cases hf : m.find k with
  | some v0 => rw [WindowHandles.insert_of_find_some m k v v0 hf, hf]; rfl
  | none =>
    rw [WindowHandles.insert_of_find_none m k v hf, WindowHandles.find_cons]
    simp

theorem getGraphicsWindowFor_unregisterWindow_self (ws : Win32WindowingSystem) (h : HWND)
    (hh : h ≠ 0) : (ws.unregisterWindow h).getGraphicsWindowFor h = 0 := by
  simp [Win32WindowingSystem.unregisterWindow, Win32WindowingSystem.getGraphicsWindowFor, hh,
    WindowHandles.find_erase_self]

theorem getGraphicsWindowFor_unregisterWindow_ne (ws : Win32WindowingSystem) (h h2 : HWND)
    (hne : h2 ≠ h) :
    (ws.unregisterWindow h).getGraphicsWindowFor h2 = ws.getGraphicsWindowFor h2 := by
  unfold Win32WindowingSystem.unregisterWindow Win32WindowingSystem.getGraphicsWindowFor
  by_cases hh : h = 0
  · simp [hh]
  · simp [hh, WindowHandles.find_erase_ne _ _ _ hne]

theorem getGraphicsWindowFor_registerWindow_ne (ws : Win32WindowingSystem) (h h2 : HWND)
    (w : WindowPtr) (hne : h2 ≠ h) :
    (ws.registerWindow h w).getGraphicsWindowFor h2 = ws.getGraphicsWindowFor h2 := by
  unfold Win32WindowingSystem.registerWindow Win32WindowingSystem.getGraphicsWindowFor
  by_cases hh : h = 0
  · simp [hh]
  · simp [hh, WindowHandles.find_insert_ne _ _ _ _ hne]

theorem getGraphicsWindowFor_registerWindow_self (ws : Win32WindowingSystem) (h : HWND)
    (w : WindowPtr) (hh : h ≠ 0) (hnone : ws._activeWindows.find h = none) :
    (ws.registerWindow h w).getGraphicsWindowFor h = w := by
  simp [Win32WindowingSystem.registerWindow, Win32WindowingSystem.getGraphicsWindowFor, hh,
    WindowHandles.find_insert_self, hnone]

theorem registerWindow_of_find_some (ws : Win32WindowingSystem) (h : HWND) (w w0 : WindowPtr)
    (hsome : ws._activeWindows.find h = some w0) : ws.registerWindow h w = ws := by
  unfold Win32WindowingSystem.registerWindow
  by_cases hh : h = 0
  · simp [hh]
  · simp [hh, WindowHandles.insert_of_find_some _ _ _ _ hsome]

/-- C1, as the claim states it, fails: registering the handle `1` for the window `10` and
then for the window `20`, without unregistering in between, leaves the lookup of `1` at the
first window `10`, not at `20`. -/
theorem registerWindow_twice_not_last_write_wins :
    ((({} : Win32WindowingSystem).registerWindow 1 10).registerWindow 1 20).getGraphicsWindowFor 1
        = 10
      ∧ ((({} : Win32WindowingSystem).registerWindow 1 10).registerWindow 1 20).getGraphicsWindowFor
          1 ≠ 20 := by
  decide

/-- C1 (amended): registering a handle twice keeps the first mapping.  For every registry,
non-null handle `h` and windows `w1`, `w2`, the second of two consecutive `registerWindow`
calls for `h` changes nothing, and when the registry had no entry for `h` before the first
call, `getGraphicsWindowFor(h)` returns `w1` afterwards (first-write-wins). -/
theorem registerWindow_twice_first_write_wins (ws : Win32WindowingSystem) (h : HWND)
    (w1 w2 : WindowPtr) (hh : h ≠ 0) :
    (ws.registerWindow h w1).registerWindow h w2 = ws.registerWindow h w1
      ∧ (ws._activeWindows.find h = none →
          ((ws.registerWindow h w1).registerWindow h w2).getGraphicsWindowFor h = w1) := by
  have hfind : (ws.registerWindow h w1)._activeWindows.find h
      = some ((ws._activeWindows.find h).getD w1) := by
    simp [Win32WindowingSystem.registerWindow, hh, WindowHandles.find_insert_self]
  have heq := registerWindow_of_find_some (ws.registerWindow h w1) h w2 _ hfind
  refine ⟨heq, fun hnone => ?_⟩
  rw [heq]
  exact getGraphicsWindowFor_registerWindow_self ws h w1 hh hnone

/-- Witness of `registerWindow_twice_first_write_wins` : the empty registry, handle `1`,
windows `10` and `20`. -/
theorem registerWindow_twice_first_write_wins_witness :
    (1 : HWND) ≠ 0
      ∧ ((({} : Win32WindowingSystem).registerWindow 1 10).registerWindow 1 20
            = ({} : Win32WindowingSystem).registerWindow 1 10
          ∧ (({} : Win32WindowingSystem)._activeWindows.find 1 = none →
              ((({} : Win32WindowingSystem).registerWindow 1 10).registerWindow 1
                20).getGraphicsWindowFor 1 = 10)) :=
  ⟨by decide, registerWindow_twice_first_write_wins {} 1 10 20 (by decide)⟩

/-- C2: registry lookup semantics.  For every registry state `ws`, non-null handle `h` and
window `w` : (a) after `unregisterWindow(h)` the lookup of `h` returns null; (b) after
`registerWindow(h, w)` on a registry with no entry for `h` the lookup of `h` returns `w`;
(c) neither call changes the lookup of any other handle. -/
theorem registry_lookup_semantics (ws : Win32WindowingSystem) (h : HWND) (w : WindowPtr)
    (hh : h ≠ 0) :
    (ws.unregisterWindow h).getGraphicsWindowFor h = 0
      ∧ (ws._activeWindows.find h = none → (ws.registerWindow h w).getGraphicsWindowFor h = w)
      ∧ (∀ h2 : HWND, h2 ≠ h →
          (ws.unregisterWindow h).getGraphicsWindowFor h2 = ws.getGraphicsWindowFor h2
            ∧ (ws.registerWindow h w).getGraphicsWindowFor h2 = ws.getGraphicsWindowFor h2) :=
  ⟨getGraphicsWindowFor_unregisterWindow_self ws h hh,
   getGraphicsWindowFor_registerWindow_self ws h w hh,
   fun h2 hne => ⟨getGraphicsWindowFor_unregisterWindow_ne ws h h2 hne,
     getGraphicsWindowFor_registerWindow_ne ws h h2 w hne⟩⟩

/-- Witness of `registry_lookup_semantics` : a registry holding the handle `2`, queried for
the handle `1` and the window `10`. -/
theorem registry_lookup_semantics_witness :
    (1 : HWND) ≠ 0
      ∧ ((({ _activeWindows := [(2, 20)] } : Win32WindowingSystem).unregisterWindow
            1).getGraphicsWindowFor 1 = 0
        ∧ (({ _activeWindows := [(2, 20)] } : Win32WindowingSystem)._activeWindows.find 1 = none →
            (({ _activeWindows := [(2, 20)] } : Win32WindowingSystem).registerWindow 1
              10).getGraphicsWindowFor 1 = 10)
        ∧ (∀ h2 : HWND, h2 ≠ 1 →
            (({ _activeWindows := [(2, 20)] } : Win32WindowingSystem).unregisterWindow
                1).getGraphicsWindowFor h2
              = ({ _activeWindows := [(2, 20)] } : Win32WindowingSystem).getGraphicsWindowFor h2
            ∧ (({ _activeWindows := [(2, 20)] } : Win32WindowingSystem).registerWindow 1
                10).getGraphicsWindowFor h2
              = ({ _activeWindows := [(2, 20)] } : Win32WindowingSystem).getGraphicsWindowFor
                  h2)) :=
  ⟨by decide, registry_lookup_semantics { _activeWindows := [(2, 20)] } 1 10 (by decide)⟩

/-! ## Theorems : `OpenGLContext` -/

theorem World.native_fst (w : World) (c : NativeCall) :
    (w.native c).1 = w.oracle w.trace.length := rfl

theorem World.native_trace (w : World) (c : NativeCall) :
    (w.native c).2.trace = w.trace ++ [⟨c, w.oracle w.trace.length⟩] := rfl

theorem World.native_oracle (w : World) (c : NativeCall) :
    (w.native c).2.oracle = w.oracle := rfl

theorem World.native_windowingSystem (w : World) (c : NativeCall) :
    (w.native c).2.windowingSystem = w.windowingSystem := rfl

theorem World.native_displayDevices (w : World) (c : NativeCall) :
    (w.native c).2.displayDevices = w.displayDevices := rfl

theorem World.native_currentContext (w : World) (c : NativeCall) :
    (w.native c).2.currentContext = w.currentContext := rfl

theorem World.wglMakeCurrent_fst (w : World) (hdc : HDC) (hglrc : HGLRC) :
    (w.wglMakeCurrent hdc hglrc).1 = (w.oracle w.trace.length).ok := by
  by_cases h : (w.oracle w.trace.length).ok = true <;>
    simp [World.wglMakeCurrent, World.native, h]

theorem World.wglMakeCurrent_trace (w : World) (hdc : HDC) (hglrc : HGLRC) :
    (w.wglMakeCurrent hdc hglrc).2.trace
      = w.trace ++ [⟨.wglMakeCurrent hdc hglrc, w.oracle w.trace.length⟩] := by
  by_cases h : (w.oracle w.trace.length).ok = true <;>
    simp [World.wglMakeCurrent, World.native, h]

theorem World.wglMakeCurrent_oracle (w : World) (hdc : HDC) (hglrc : HGLRC) :
    (w.wglMakeCurrent hdc hglrc).2.oracle = w.oracle := by
  by_cases h : (w.oracle w.trace.length).ok = true <;>
    simp [World.wglMakeCurrent, World.native, h]

theorem World.wglMakeCurrent_windowingSystem (w : World) (hdc : HDC) (hglrc : HGLRC) :
    (w.wglMakeCurrent hdc hglrc).2.windowingSystem = w.windowingSystem := by
  by_cases h : (w.oracle w.trace.length).ok = true <;>
    simp [World.wglMakeCurrent, World.native, h]

theorem World.wglMakeCurrent_displayDevices (w : World) (hdc : HDC) (hglrc : HGLRC) :
    (w.wglMakeCurrent hdc hglrc).2.displayDevices = w.displayDevices := by
  by_cases h : (w.oracle w.trace.length).ok = true <;>
    simp [World.wglMakeCurrent, World.native, h]

/-- C10: teardown order of `OpenGLContext`.  For every handle state and every oracle, the
native calls issued by the destructor are exactly: the bind of the previous context when a
restore was requested and the previous rendering context differs from the own one; then
unbind and delete-context when the rendering context is non-null; then release-DC when the
device context is non-null; then destroy-window when the window handle is non-null.  Each
step depends only on its own handle, never on the outcome of an earlier call, and a handle
with all three resources unset and no restore requested issues no native call. -/
theorem OpenGLContext.destructor_calls (c : OpenGLContext) (w : World) :
    calls (c.destructor w).trace =
        calls w.trace
          ++ (if c._restorePreviousOnExit = true ∧ c._previousHglrc ≠ c._hglrc then
                [NativeCall.wglMakeCurrent c._previousHdc c._previousHglrc] else [])
          ++ (if c._hglrc ≠ 0 then
                [NativeCall.wglMakeCurrent c._hdc 0, NativeCall.wglDeleteContext c._hglrc]
              else [])
          ++ (if c._hdc ≠ 0 then [NativeCall.ReleaseDC c._hwnd c._hdc] else [])
          ++ (if c._hwnd ≠ 0 then [NativeCall.DestroyWindow c._hwnd] else [])
      ∧ ∀ previousHdc : HDC, ∀ previousHglrc : HGLRC,
          (OpenGLContext.destructor
            { _previousHdc := previousHdc, _previousHglrc := previousHglrc, _hwnd := 0,
              _hdc := 0, _hglrc := 0, _restorePreviousOnExit := false } w).trace = w.trace := by
  constructor
  · obtain ⟨pdc, prc, hwnd, hdc, hglrc, restore⟩ := c
    unfold OpenGLContext.destructor
    by_cases h0 : restore = true <;>
    by_cases h1 : prc = hglrc <;>
    by_cases h2 : hglrc = 0 <;>
    by_cases h3 : hdc = 0 <;>
    by_cases h4 : hwnd = 0 <;>
    simp_all [calls, World.native_trace, World.wglMakeCurrent_trace]
  · intro a b
    simp [OpenGLContext.destructor]

/-! ## Theorems : pixel format negotiation -/

theorem PreparePixelFormatSpecifications_begin (t t2 : Traits) (a : WGLIntegerAttributes)
    (hint hint2 : Bool) :
    PreparePixelFormatSpecifications t (PreparePixelFormatSpecifications t2 a hint2) hint
      = PreparePixelFormatSpecifications t {} hint := rfl

theorem getScreenColorDepth_congr (w1 w2 : World) (si : ScreenIdentifier)
    (h : w1.displayDevices = w2.displayDevices) :
    getScreenColorDepth w1 si = getScreenColorDepth w2 si := by
  simp [getScreenColorDepth, getScreenInformation, enumerateDisplayDevices, h]

theorem ChooseMatchingPixelFormat_displayDevices (hdc : HDC) (a : WGLIntegerAttributes)
    (t : Traits) (w : World) :
    (ChooseMatchingPixelFormat hdc a t w).2.displayDevices = w.displayDevices := by
  unfold ChooseMatchingPixelFormat
  simp only []
  split_ifs <;> simp [World.native_displayDevices]

theorem registerWindowClasses_displayDevices (w : World) :
    (registerWindowClasses w).displayDevices = w.displayDevices := by
  unfold registerWindowClasses
  simp only []
  split_ifs <;> simp [World.native_displayDevices]

theorem OpenGLContext.makeCurrent_displayDevices (c : OpenGLContext) (hdc : HDC) (b : Bool)
    (w : World) : (c.makeCurrent hdc b w).2.2.displayDevices = w.displayDevices := by
  unfold OpenGLContext.makeCurrent
  simp only []
  split_ifs <;> simp [World.wglMakeCurrent_displayDevices]

theorem getSampleOpenGLContext_displayDevices (c : OpenGLContext) (hdc : HDC) (x y : Int)
    (w : World) : (getSampleOpenGLContext c hdc x y w).2.2.displayDevices = w.displayDevices := by
  unfold getSampleOpenGLContext
  simp only []
  split_ifs <;>
    simp [World.native_displayDevices, OpenGLContext.makeCurrent_displayDevices,
      registerWindowClasses_displayDevices]

theorem negotiatePixelFormat_eq_spec (sampleHdc : HDC) (t : Traits) (w : World) :
    negotiatePixelFormat sampleHdc t w
      = negotiationSpec (chooser sampleHdc) (getScreenColorDepth w t.toScreenIdentifier) t w := by
  have hbpp : getScreenColorDepth
      (ChooseMatchingPixelFormat sampleHdc (PreparePixelFormatSpecifications t {} true) t w).2
        t.toScreenIdentifier = getScreenColorDepth w t.toScreenIdentifier :=
    getScreenColorDepth_congr _ _ _ (ChooseMatchingPixelFormat_displayDevices _ _ _ _)
  unfold negotiatePixelFormat negotiationSpec
  simp only [chooser, hbpp]
  by_cases h1 : (ChooseMatchingPixelFormat sampleHdc (PreparePixelFormatSpecifications t {} true)
      t w).1 < 0
  · have h1n : ¬ 0 ≤ (ChooseMatchingPixelFormat sampleHdc
        (PreparePixelFormatSpecifications t {} true) t w).1 := not_le.mpr h1
    by_cases h2 : getScreenColorDepth w t.toScreenIdentifier < 32
    · simp only [h1, h1n, h2, if_true, if_false, PreparePixelFormatSpecifications_begin,
        correctedTraits]
      split_ifs <;> first | omega | with_reducible rfl
    · simp only [h1, h1n, h2, if_true, if_false, PreparePixelFormatSpecifications_begin]
      split_ifs <;> first | omega | with_reducible rfl
  · have h1n : 0 ≤ (ChooseMatchingPixelFormat sampleHdc
        (PreparePixelFormatSpecifications t {} true) t w).1 := not_lt.mp h1
    simp only [h1, h1n, if_true, if_false]

theorem OpenGLContext.destructor_trace (c : OpenGLContext) (w : World) :
    ∃ l : List NativeEvent, (c.destructor w).trace = w.trace ++ l
      ∧ ∀ e ∈ l, e.call.isSetPixelFormatOrCreateContext = false := by
  obtain ⟨pdc, prc, hwnd, hdc, hglrc, restore⟩ := c
  refine ⟨((OpenGLContext.destructor ⟨pdc, prc, hwnd, hdc, hglrc, restore⟩ w).trace.drop
    w.trace.length), ?_, ?_⟩
  · unfold OpenGLContext.destructor
    by_cases h0 : restore = true <;>
    by_cases h1 : prc = hglrc <;>
    by_cases h2 : hglrc = 0 <;>
    by_cases h3 : hdc = 0 <;>
    by_cases h4 : hwnd = 0 <;>
    simp_all [World.native_trace, World.wglMakeCurrent_trace]
  · unfold OpenGLContext.destructor
    by_cases h0 : restore = true <;>
    by_cases h1 : prc = hglrc <;>
    by_cases h2 : hglrc = 0 <;>
    by_cases h3 : hdc = 0 <;>
    by_cases h4 : hwnd = 0 <;>
    simp_all [World.native_trace, World.wglMakeCurrent_trace,
      NativeCall.isSetPixelFormatOrCreateContext]

theorem negotiationSpec_none_iff (choose : Bool → Traits → World → Int × World) (bpp : Nat)
    (t : Traits) (w : World) :
    (negotiationSpec choose bpp t w).1 = none
      ↔ ∀ a ∈ negotiationAnswers choose bpp t w, a < 0 := by
  unfold negotiationSpec negotiationAnswers
  simp only []
  split_ifs <;> simp <;> omega

theorem negotiationSpec_some (choose : Bool → Traits → World → Int × World) (bpp : Nat)
    (t : Traits) (w : World) (idx : Int) (h : (negotiationSpec choose bpp t w).1 = some idx) :
    0 ≤ idx ∧ (negotiationAnswers choose bpp t w).getLast? = some idx
      ∧ ∀ a ∈ (negotiationAnswers choose bpp t w).dropLast, a < 0 := by
  unfold negotiationSpec at h
  unfold negotiationAnswers
  simp only [] at h ⊢
  split_ifs at h ⊢ <;> simp at h ⊢ <;> (try subst h) <;> (try omega)

theorem setPixelFormat_after_negotiation (s : State) (hs : (sampleContextOf s).1 = true) :
    (∀ idx : Int, (negotiationOf s).1 = some idx →
        ∃ rest : List NativeEvent,
          (setPixelFormat s).2.world.trace
            = (negotiationOf s).2.2.trace
                ++ ⟨NativeCall.SetPixelFormat s.window._hdc idx,
                    (negotiationOf s).2.2.oracle (negotiationOf s).2.2.trace.length⟩ :: rest)
      ∧ ((negotiationOf s).1 = none →
          (setPixelFormat s).1 = false
            ∧ ∃ rest : List NativeEvent,
                (setPixelFormat s).2.world.trace = (negotiationOf s).2.2.trace ++ rest
                  ∧ ∀ e ∈ rest, e.call.isSetPixelFormatOrCreateContext = false) := by
  have hb : getScreenColorDepth (sampleContextOf s).2.2 s.window._traits.toScreenIdentifier
      = getScreenColorDepth s.world s.window._traits.toScreenIdentifier :=
    getScreenColorDepth_congr _ _ _ (getSampleOpenGLContext_displayDevices _ _ _ _ _)
  have hn : negotiatePixelFormat (sampleContextOf s).2.1.deviceContext s.window._traits
      (sampleContextOf s).2.2 = negotiationOf s := by
    rw [negotiatePixelFormat_eq_spec, hb]; rfl
  unfold setPixelFormat
  simp only []
  unfold sampleContextOf at hs hn
  simp only [hs, Bool.true_eq_false, if_false, hn]
  generalize negotiationOf s = n
  generalize (getSampleOpenGLContext {} s.window._hdc s.window._screenOriginX
          s.window._screenOriginY s.world).2.1 = c
  obtain ⟨r, t2, w2⟩ := n
  constructor
  · intro idx hidx
    simp only at hidx
    subst hidx
    simp only []
    split_ifs
    · obtain ⟨l, hl, _⟩ := OpenGLContext.destructor_trace c
        (w2.native (NativeCall.SetPixelFormat s.window._hdc idx)).2
      exact ⟨l, by simp [hl, World.native_trace]⟩
    · obtain ⟨l, hl, _⟩ := OpenGLContext.destructor_trace c
        ((w2.native (NativeCall.SetPixelFormat s.window._hdc idx)).2.native
          (NativeCall.wglCreateContext s.window._hdc)).2
      exact ⟨⟨NativeCall.wglCreateContext s.window._hdc, w2.oracle (w2.trace.length + 1)⟩ :: l,
        by simp [hl, World.native_trace, World.native_oracle]⟩
    · obtain ⟨l, hl, _⟩ := OpenGLContext.destructor_trace c
        ((w2.native (NativeCall.SetPixelFormat s.window._hdc idx)).2.native
          (NativeCall.wglCreateContext s.window._hdc)).2
      exact ⟨⟨NativeCall.wglCreateContext s.window._hdc, w2.oracle (w2.trace.length + 1)⟩ :: l,
        by simp [hl, World.native_trace, World.native_oracle]⟩
  · intro hnone
    simp only at hnone
    subst hnone
    simp only [true_and]
    exact OpenGLContext.destructor_trace c w2


theorem negotiationSpec_traits (choose : Bool → Traits → World → Int × World) (bpp : Nat)
    (t : Traits) (w : World) :
    (negotiationSpec choose bpp t w).2.1
      = if (choose true t w).1 < 0 ∧ bpp < 32 then correctedTraits t bpp else t := by
  unfold negotiationSpec
  simp only []
  split_ifs <;> first | omega | rfl


theorem setPixelFormat_traits_eq (s : State) :
    (setPixelFormat s).2.window._traits
      = if (sampleContextOf s).1 = true then
          (negotiatePixelFormat (sampleContextOf s).2.1.deviceContext s.window._traits
            (sampleContextOf s).2.2).2.1
        else s.window._traits := by
  unfold setPixelFormat sampleContextOf
  simp only []
  generalize getSampleOpenGLContext {} s.window._hdc s.window._screenOriginX
      s.window._screenOriginY s.world = g
  obtain ⟨b, c, w1⟩ := g
  cases b
  · simp
  · simp only [if_true, Bool.true_eq_false, if_false]
    split
    · rfl
    · split_ifs <;> rfl

/-- C3: post-state of the Traits after `setPixelFormat`.  If the sample context was obtained,
the first chooser query (swap-exchange hint, original traits) found no match and the screen
depth `bpp` is below 32, the Traits afterwards are the original ones with red, green and
blue set to `bpp / 4`, whatever the later queries answer; in every other case the Traits
are unchanged.  No other field is modified. -/
theorem setPixelFormat_traits (s : State) :
    (setPixelFormat s).2.window._traits =
      if (sampleContextOf s).1 = true
          ∧ (chooser (sampleContextOf s).2.1.deviceContext true s.window._traits
              (sampleContextOf s).2.2).1 < 0
          ∧ getScreenColorDepth s.world s.window._traits.toScreenIdentifier < 32 then
        { s.window._traits with
          red := getScreenColorDepth s.world s.window._traits.toScreenIdentifier / 4,
          green := getScreenColorDepth s.world s.window._traits.toScreenIdentifier / 4,
          blue := getScreenColorDepth s.world s.window._traits.toScreenIdentifier / 4 }
      else s.window._traits := by
  have hb : getScreenColorDepth (sampleContextOf s).2.2 s.window._traits.toScreenIdentifier
      = getScreenColorDepth s.world s.window._traits.toScreenIdentifier :=
    getScreenColorDepth_congr _ _ _ (getSampleOpenGLContext_displayDevices _ _ _ _ _)
  rw [setPixelFormat_traits_eq, negotiatePixelFormat_eq_spec, negotiationSpec_traits, hb]
  by_cases hg : (sampleContextOf s).1 = true
  · simp only [hg, true_and, if_true]
    rfl
  · simp [hg]


/-- C4: outcome of the pixel-format negotiation in `setPixelFormat`, once the sample context
was obtained.  The negotiation of the source is the one of the specification
(`negotiationSpec` : query (1) with the swap-exchange hint and the original traits, query
(2) with the hint and the corrected traits only if (1) failed and the screen depth is below
32, query (3) without the hint only if every earlier query failed).  It fails exactly when
every query made answered a negative index; when it succeeds, its index is the
non-negative answer of the last query made, every earlier answer being negative, and the
first native call issued after the negotiation is the set-pixel-format call on the
device context of the window with that index.  When it fails, `setPixelFormat` returns
false and none of the native calls issued after the negotiation is the set-pixel-format
call or the create-context call. -/
theorem setPixelFormat_negotiation (s : State) (hs : (sampleContextOf s).1 = true) :
    negotiatePixelFormat (sampleContextOf s).2.1.deviceContext s.window._traits
        (sampleContextOf s).2.2 = negotiationOf s
      ∧ ((negotiationOf s).1 = none ↔ ∀ a ∈ answersOf s, a < 0)
      ∧ (∀ idx : Int, (negotiationOf s).1 = some idx →
          (0 ≤ idx ∧ (answersOf s).getLast? = some idx ∧ ∀ a ∈ (answersOf s).dropLast, a < 0)
            ∧ ∃ rest : List NativeEvent,
                (setPixelFormat s).2.world.trace
                  = (negotiationOf s).2.2.trace
                      ++ ⟨NativeCall.SetPixelFormat s.window._hdc idx,
                          (negotiationOf s).2.2.oracle (negotiationOf s).2.2.trace.length⟩
                        :: rest)
      ∧ ((negotiationOf s).1 = none →
          (setPixelFormat s).1 = false
            ∧ ∃ rest : List NativeEvent,
                (setPixelFormat s).2.world.trace = (negotiationOf s).2.2.trace ++ rest
                  ∧ ∀ e ∈ rest, e.call.isSetPixelFormatOrCreateContext = false) := by
  have hb : getScreenColorDepth (sampleContextOf s).2.2 s.window._traits.toScreenIdentifier
      = getScreenColorDepth s.world s.window._traits.toScreenIdentifier :=
    getScreenColorDepth_congr _ _ _ (getSampleOpenGLContext_displayDevices _ _ _ _ _)
  refine ⟨?_, negotiationSpec_none_iff _ _ _ _, fun idx hidx => ⟨?_, ?_⟩, ?_⟩
  · rw [negotiatePixelFormat_eq_spec, hb]; rfl
  · exact negotiationSpec_some _ _ _ _ idx hidx
  · exact (setPixelFormat_after_negotiation s hs).1 idx hidx
  · exact (setPixelFormat_after_negotiation s hs).2

/-- Witness of `setPixelFormat_negotiation` : the window `stateBeforeSetPixelFormat`, on a
16-bit screen with every native call succeeding; its sample context is obtained. -/
theorem setPixelFormat_negotiation_witness :
    (sampleContextOf stateBeforeSetPixelFormat).1 = true
      ∧ (negotiatePixelFormat (sampleContextOf stateBeforeSetPixelFormat).2.1.deviceContext
              stateBeforeSetPixelFormat.window._traits
              (sampleContextOf stateBeforeSetPixelFormat).2.2
            = negotiationOf stateBeforeSetPixelFormat
        ∧ ((negotiationOf stateBeforeSetPixelFormat).1 = none
            ↔ ∀ a ∈ answersOf stateBeforeSetPixelFormat, a < 0)
        ∧ (∀ idx : Int, (negotiationOf stateBeforeSetPixelFormat).1 = some idx →
            (0 ≤ idx ∧ (answersOf stateBeforeSetPixelFormat).getLast? = some idx
                ∧ ∀ a ∈ (answersOf stateBeforeSetPixelFormat).dropLast, a < 0)
              ∧ ∃ rest : List NativeEvent,
                  (setPixelFormat stateBeforeSetPixelFormat).2.world.trace
                    = (negotiationOf stateBeforeSetPixelFormat).2.2.trace
                        ++ ⟨NativeCall.SetPixelFormat stateBeforeSetPixelFormat.window._hdc idx,
                            (negotiationOf stateBeforeSetPixelFormat).2.2.oracle
                              (negotiationOf stateBeforeSetPixelFormat).2.2.trace.length⟩
                          :: rest)
        ∧ ((negotiationOf stateBeforeSetPixelFormat).1 = none →
            (setPixelFormat stateBeforeSetPixelFormat).1 = false
              ∧ ∃ rest : List NativeEvent,
                  (setPixelFormat stateBeforeSetPixelFormat).2.world.trace
                      = (negotiationOf stateBeforeSetPixelFormat).2.2.trace ++ rest
                    ∧ ∀ e ∈ rest, e.call.isSetPixelFormatOrCreateContext = false)) :=
  ⟨by decide, setPixelFormat_negotiation stateBeforeSetPixelFormat (by decide)⟩

/-! ## Theorems : how the world evolves -/

theorem World.Extends.refl (w : World) : w.Extends w := ⟨rfl, rfl, List.prefix_refl _⟩

theorem World.Extends.trans {w1 w2 w3 : World} (h12 : w1.Extends w2) (h23 : w2.Extends w3) :
    w1.Extends w3 :=
  ⟨h23.1.trans h12.1, h23.2.1.trans h12.2.1, h12.2.2.trans h23.2.2⟩

theorem World.native_ext {w0 w : World} (c : NativeCall) (h : w0.Extends w) :
    w0.Extends (w.native c).2 :=
  h.trans ⟨rfl, rfl, List.prefix_append _ _⟩

theorem World.wglMakeCurrent_ext {w0 w : World} (hdc : HDC) (hglrc : HGLRC)
    (h : w0.Extends w) : w0.Extends (w.wglMakeCurrent hdc hglrc).2 :=
  h.trans ⟨World.wglMakeCurrent_oracle _ _ _, World.wglMakeCurrent_displayDevices _ _ _,
    by rw [World.wglMakeCurrent_trace]; exact List.prefix_append _ _⟩

theorem World.windowingSystem_ext {w0 w : World} (ws : Win32WindowingSystem)
    (h : w0.Extends w) : w0.Extends { w with windowingSystem := ws } :=
  h.trans ⟨rfl, rfl, List.prefix_refl _⟩

theorem World.eventsSince_self (w : World) : w.eventsSince w = [] := by
  simp [World.eventsSince]

theorem World.Extends.trace_eq {w0 w : World} (h : w0.Extends w) :
    w.trace = w0.trace ++ w.eventsSince w0 := by
  obtain ⟨-, -, l, hl⟩ := h
  simp [World.eventsSince, ← hl]

theorem World.eventsSince_trans {w0 w1 w2 : World} (h01 : w0.Extends w1) (h12 : w1.Extends w2) :
    w2.eventsSince w0 = w1.eventsSince w0 ++ w2.eventsSince w1 := by
  have e1 := h01.trace_eq
  have e2 := h12.trace_eq
  have e3 := (h01.trans h12).trace_eq
  rw [e2, e1, List.append_assoc] at e3
  exact (List.append_cancel_left e3).symm

theorem World.eventsSince_native {w0 w : World} (c : NativeCall) (h : w0.Extends w) :
    (w.native c).2.eventsSince w0 = w.eventsSince w0 ++ [⟨c, w.oracle w.trace.length⟩] := by
  rw [World.eventsSince_trans h (World.native_ext c (World.Extends.refl w))]
  simp [World.eventsSince, World.native_trace]

theorem World.eventsSince_wglMakeCurrent {w0 w : World} (hdc : HDC) (hglrc : HGLRC)
    (h : w0.Extends w) :
    (w.wglMakeCurrent hdc hglrc).2.eventsSince w0
      = w.eventsSince w0 ++ [⟨NativeCall.wglMakeCurrent hdc hglrc, w.oracle w.trace.length⟩] := by
  rw [World.eventsSince_trans h (World.wglMakeCurrent_ext hdc hglrc (World.Extends.refl w))]
  simp [World.eventsSince, World.wglMakeCurrent_trace]

theorem World.callsSince_eq (w1 w0 : World) : w1.callsSince w0 = calls (w1.eventsSince w0) := rfl

theorem registerWindowClasses_ext {w0 w : World} (h : w0.Extends w) :
    w0.Extends (registerWindowClasses w) := by
  unfold registerWindowClasses
  simp only []
  split_ifs <;>
    repeat (first | exact h | apply World.native_ext | apply World.windowingSystem_ext)

theorem registerWindowClasses_activeWindows (w : World) :
    (registerWindowClasses w).windowingSystem._activeWindows
      = w.windowingSystem._activeWindows := by
  unfold registerWindowClasses
  simp only []
  split_ifs <;> rfl

theorem OpenGLContext.makeCurrent_ext {w0 w : World} (c : OpenGLContext) (hdc : HDC)
    (b : Bool) (h : w0.Extends w) : w0.Extends (c.makeCurrent hdc b w).2.2 := by
  unfold OpenGLContext.makeCurrent
  simp only []
  split_ifs <;> dsimp only <;>
    repeat (first | exact h | apply World.wglMakeCurrent_ext)

theorem OpenGLContext.makeCurrent_activeWindows (c : OpenGLContext) (hdc : HDC) (b : Bool)
    (w : World) :
    (c.makeCurrent hdc b w).2.2.windowingSystem._activeWindows
      = w.windowingSystem._activeWindows := by
  unfold OpenGLContext.makeCurrent
  simp only []
  split_ifs <;> simp [World.wglMakeCurrent_windowingSystem]

theorem OpenGLContext.destructor_ext {w0 w : World} (c : OpenGLContext) (h : w0.Extends w) :
    w0.Extends (c.destructor w) := by
  unfold OpenGLContext.destructor
  simp only []
  split_ifs <;>
    repeat (first | exact h | apply World.native_ext | apply World.wglMakeCurrent_ext)

theorem OpenGLContext.destructor_activeWindows (c : OpenGLContext) (w : World) :
    (c.destructor w).windowingSystem._activeWindows = w.windowingSystem._activeWindows := by
  unfold OpenGLContext.destructor
  simp only []
  split_ifs <;>
    simp [World.wglMakeCurrent_windowingSystem, World.native_windowingSystem]

theorem getSampleOpenGLContext_ext {w0 w : World} (c : OpenGLContext) (hdc : HDC) (x y : Int)
    (h : w0.Extends w) : w0.Extends (getSampleOpenGLContext c hdc x y w).2.2 := by
  unfold getSampleOpenGLContext
  simp only []
  split_ifs <;> dsimp only <;>
    repeat (first | exact h | apply World.native_ext | apply OpenGLContext.makeCurrent_ext
                  | apply registerWindowClasses_ext)

theorem getSampleOpenGLContext_activeWindows (c : OpenGLContext) (hdc : HDC) (x y : Int)
    (w : World) :
    (getSampleOpenGLContext c hdc x y w).2.2.windowingSystem._activeWindows
      = w.windowingSystem._activeWindows := by
  unfold getSampleOpenGLContext
  simp only []
  split_ifs <;>
    simp [World.native_windowingSystem, OpenGLContext.makeCurrent_activeWindows,
      registerWindowClasses_activeWindows]

theorem ChooseMatchingPixelFormat_ext {w0 w : World} (hdc : HDC) (a : WGLIntegerAttributes)
    (t : Traits) (h : w0.Extends w) : w0.Extends (ChooseMatchingPixelFormat hdc a t w).2 := by
  unfold ChooseMatchingPixelFormat
  simp only []
  split_ifs <;> dsimp only <;> repeat (first | exact h | apply World.native_ext)

theorem ChooseMatchingPixelFormat_activeWindows (hdc : HDC) (a : WGLIntegerAttributes)
    (t : Traits) (w : World) :
    (ChooseMatchingPixelFormat hdc a t w).2.windowingSystem._activeWindows
      = w.windowingSystem._activeWindows := by
  unfold ChooseMatchingPixelFormat
  simp only []
  split_ifs <;> simp [World.native_windowingSystem]

theorem negotiationSpec_ext {w0 w : World} (choose : Bool → Traits → World → Int × World)
    (hc : ∀ b t w1, w0.Extends w1 → w0.Extends (choose b t w1).2)
    (bpp : Nat) (t : Traits) (h : w0.Extends w) :
    w0.Extends (negotiationSpec choose bpp t w).2.2 := by
  unfold negotiationSpec
  simp only []
  split_ifs <;> dsimp only <;> repeat (first | exact h | apply hc)

theorem negotiationSpec_activeWindows (choose : Bool → Traits → World → Int × World)
    (hc : ∀ b t w1, (choose b t w1).2.windowingSystem._activeWindows
      = w1.windowingSystem._activeWindows)
    (bpp : Nat) (t : Traits) (w : World) :
    (negotiationSpec choose bpp t w).2.2.windowingSystem._activeWindows
      = w.windowingSystem._activeWindows := by
  unfold negotiationSpec
  simp only []
  split_ifs <;> simp [hc]

theorem negotiatePixelFormat_ext {w0 w : World} (hdc : HDC) (t : Traits) (h : w0.Extends w) :
    w0.Extends (negotiatePixelFormat hdc t w).2.2 := by
  rw [negotiatePixelFormat_eq_spec]
  exact negotiationSpec_ext _ (fun b t w1 h1 => ChooseMatchingPixelFormat_ext _ _ _ h1) _ _ h

theorem negotiatePixelFormat_activeWindows (hdc : HDC) (t : Traits) (w : World) :
    (negotiatePixelFormat hdc t w).2.2.windowingSystem._activeWindows
      = w.windowingSystem._activeWindows := by
  rw [negotiatePixelFormat_eq_spec]
  exact negotiationSpec_activeWindows _
    (fun b t w1 => ChooseMatchingPixelFormat_activeWindows _ _ _ _) _ _ _

/-! ## Theorems : destroyWindow -/

theorem unregisterWindowProcedure_world (s : State) :
    (unregisterWindowProcedure s).2.world
      = if s.window._windowProcedure = 0 ∨ s.window._hwnd = 0 then s.world
        else (s.world.native (NativeCall.SetWindowLongPtr s.window._hwnd
          (WndProcValue.saved s.window._windowProcedure))).2 := by
  unfold unregisterWindowProcedure
  simp only []
  split_ifs <;> rfl

theorem unregisterWindowProcedure_window (s : State) :
    (unregisterWindowProcedure s).2.window
      = { s.window with
          _windowProcedure := (unregisterWindowProcedure s).2.window._windowProcedure } := by
  unfold unregisterWindowProcedure
  simp only []
  split_ifs <;> rfl

theorem unregisterWindowProcedure_hwnd (s : State) :
    (unregisterWindowProcedure s).2.window._hwnd = s.window._hwnd := by
  rw [unregisterWindowProcedure_window]

theorem unregisterWindowProcedure_ownsWindow (s : State) :
    (unregisterWindowProcedure s).2.window._ownsWindow = s.window._ownsWindow := by
  rw [unregisterWindowProcedure_window]

theorem destroyWindow_of_destroying (b : Bool) (s : State) (h : s.window._destroying = true) :
    destroyWindow b s = s := by
  simp [destroyWindow, h]

theorem destroyWindow_fields (b : Bool) (s : State) (h : s.window._destroying = false) :
    ∃ wp : Nat,
      (destroyWindow b s).window
          = { s.window with
              _hwnd := 0, _hdc := 0,
              _hglrc := if s.window._hdc = 0 then s.window._hglrc else 0,
              _windowProcedure := wp,
              _initialized := false, _realized := false, _valid := false, _destroying := false }
        ∧ (destroyWindow b s).world.windowingSystem
            = s.world.windowingSystem.unregisterWindow s.window._hwnd := by
  refine ⟨(destroyWindow b s).window._windowProcedure, ?_⟩
  obtain ⟨win, world⟩ := s
  simp only at h
  unfold destroyWindow unregisterWindowProcedure releaseContext releaseContextImplementation
  simp only [h, Bool.false_eq_true, if_false]
  split_ifs <;>
    simp_all [Win32WindowingSystem.unregisterWindow, World.wglMakeCurrent_windowingSystem,
      World.native_windowingSystem]

theorem destroyWindow_extends_self (b : Bool) (s : State) :
    s.world.Extends (destroyWindow b s).world := by
  obtain ⟨win, world⟩ := s
  by_cases h0 : win._destroying = true
  · simp [destroyWindow, h0, World.Extends.refl]
  · by_cases h1 : win._hdc = 0 <;> by_cases h2 : win._hglrc = 0 <;>
    by_cases h3 : win._windowProcedure = 0 <;> by_cases h4 : win._hwnd = 0 <;>
    by_cases h5 : win._ownsWindow = true <;> by_cases h6 : b = true <;>
    simp [World.Extends, destroyWindow, releaseContext, releaseContextImplementation,
      unregisterWindowProcedure_world, unregisterWindowProcedure_hwnd,
      unregisterWindowProcedure_ownsWindow,
      h0, h1, h2, h3, h4, h5, h6, World.wglMakeCurrent_trace, World.native_trace,
      World.wglMakeCurrent_oracle,
      World.native_oracle, World.wglMakeCurrent_displayDevices, World.native_displayDevices]

theorem destroyWindow_ext {w0 : World} (b : Bool) (s : State) (h : w0.Extends s.world) :
    w0.Extends (destroyWindow b s).world :=
  h.trans (destroyWindow_extends_self b s)

theorem destroyWindow_calls (b : Bool) (s : State) (h : s.window._destroying = false) :
    (destroyWindow b s).world.callsSince s.world
      = (if s.window._hdc ≠ 0 then
          [NativeCall.wglMakeCurrent s.window._hdc 0]
            ++ (if s.window._hglrc ≠ 0 then [NativeCall.wglDeleteContext s.window._hglrc] else [])
            ++ [NativeCall.ReleaseDC s.window._hwnd s.window._hdc]
         else [])
        ++ (if s.window._windowProcedure ≠ 0 ∧ s.window._hwnd ≠ 0 then
              [NativeCall.SetWindowLongPtr s.window._hwnd
                (WndProcValue.saved s.window._windowProcedure)]
            else [])
        ++ (if s.window._hwnd ≠ 0 ∧ s.window._ownsWindow = true ∧ b = true then
              [NativeCall.DestroyWindow s.window._hwnd]
            else []) := by
  obtain ⟨win, world⟩ := s
  simp only at h
  by_cases h1 : win._hdc = 0 <;> by_cases h2 : win._hglrc = 0 <;>
    by_cases h3 : win._windowProcedure = 0 <;> by_cases h4 : win._hwnd = 0 <;>
    by_cases h5 : win._ownsWindow = true <;> by_cases h6 : b = true <;>
    simp [destroyWindow, releaseContext, releaseContextImplementation, World.callsSince, calls,
      h, h1, h2, h3, h4, h5, h6, World.wglMakeCurrent_trace, World.native_trace,
      unregisterWindowProcedure_world, unregisterWindowProcedure_hwnd,
      unregisterWindowProcedure_ownsWindow]

/-! ## Theorems : closeImplementation -/

/-- C5, as the claim states it, fails: the window built by the constructor holds the native
window `100`, registered for it; after `closeImplementation` the registry has no entry for
`100` any more, whatever the default argument of `destroyWindow` is, and when that default
is `true` the native destroy-window call was issued on `100`. -/
theorem closeImplementation_unregisters_and_destroys :
    (constructedWindow true).window._initialized = true
      ∧ (constructedWindow true).window._hwnd = 100
      ∧ (constructedWindow true).world.windowingSystem.getGraphicsWindowFor 100 = 1
      ∧ (closeImplementation true (constructedWindow true)).world.windowingSystem.getGraphicsWindowFor
          100 = 0
      ∧ (closeImplementation false
          (constructedWindow false)).world.windowingSystem.getGraphicsWindowFor 100 = 0
      ∧ NativeCall.DestroyWindow 100
          ∈ (closeImplementation true (constructedWindow true)).world.callsSince
              (constructedWindow true).world := by
  decide

theorem closeImplementation_eq (d : Bool) (s : State) :
    closeImplementation d s
      = { (destroyWindow d s) with
          window := { (destroyWindow d s).window with
            _initialized := false, _valid := false, _realized := false } } := rfl

/-- C5 (amended): `closeImplementation` runs `destroyWindow` with its default argument
`d`.  For every initialized window (non-null window, device-context and rendering-context
handles, reentrancy flag clear) the native calls it issues are exactly: release of the
context binding, delete-context, release-DC, then the restore of the saved window procedure
if one was saved, then destroy-window if and only if the window owns its native window and
`d` is true.  Afterwards the registry has no entry for the handle the window held, the three
handles are null and the flags initialized, valid and realized are false. -/
theorem closeImplementation_effects (d : Bool) (s : State)
    (hdes : s.window._destroying = false) (hwnd : s.window._hwnd ≠ 0)
    (hdc : s.window._hdc ≠ 0) (hglrc : s.window._hglrc ≠ 0) :
    (closeImplementation d s).world.callsSince s.world
        = [NativeCall.wglMakeCurrent s.window._hdc 0,
           NativeCall.wglDeleteContext s.window._hglrc,
           NativeCall.ReleaseDC s.window._hwnd s.window._hdc]
          ++ (if s.window._windowProcedure ≠ 0 then
                [NativeCall.SetWindowLongPtr s.window._hwnd
                  (WndProcValue.saved s.window._windowProcedure)]
              else [])
          ++ (if s.window._ownsWindow = true ∧ d = true then
                [NativeCall.DestroyWindow s.window._hwnd]
              else [])
      ∧ (closeImplementation d s).world.windowingSystem.getGraphicsWindowFor s.window._hwnd = 0
      ∧ (closeImplementation d s).window._hwnd = 0
      ∧ (closeImplementation d s).window._hdc = 0
      ∧ (closeImplementation d s).window._hglrc = 0
      ∧ (closeImplementation d s).window._initialized = false
      ∧ (closeImplementation d s).window._valid = false
      ∧ (closeImplementation d s).window._realized = false := by
  obtain ⟨wp, hf⟩ := destroyWindow_fields d s hdes
  have hc := destroyWindow_calls d s hdes
  rw [closeImplementation_eq]
  refine ⟨?_, ?_, ?_, ?_, ?_, rfl, rfl, rfl⟩
  · simp only [hc]
    simp [hwnd, hdc, hglrc]
  · simp only [hf.2]
    exact getGraphicsWindowFor_unregisterWindow_self _ _ hwnd
  · simp only [hf.1]
  · simp only [hf.1]
  · simp only [hf.1]
    simp [hdc]

/-- Witness of `closeImplementation_effects` : the window `constructedWindow`, which holds
the native window `100`, the device context `101` and the rendering context `113`. -/
theorem closeImplementation_effects_witness :
    (constructedWindow true).window._destroying = false
      ∧ (constructedWindow true).window._hwnd ≠ 0
      ∧ (constructedWindow true).window._hdc ≠ 0
      ∧ (constructedWindow true).window._hglrc ≠ 0
      ∧ ((closeImplementation true (constructedWindow true)).world.callsSince
              (constructedWindow true).world
            = [NativeCall.wglMakeCurrent (constructedWindow true).window._hdc 0,
               NativeCall.wglDeleteContext (constructedWindow true).window._hglrc,
               NativeCall.ReleaseDC (constructedWindow true).window._hwnd
                 (constructedWindow true).window._hdc]
              ++ (if (constructedWindow true).window._windowProcedure ≠ 0 then
                    [NativeCall.SetWindowLongPtr (constructedWindow true).window._hwnd
                      (WndProcValue.saved (constructedWindow true).window._windowProcedure)]
                  else [])
              ++ (if (constructedWindow true).window._ownsWindow = true ∧ true = true then
                    [NativeCall.DestroyWindow (constructedWindow true).window._hwnd]
                  else [])
        ∧ (closeImplementation true
            (constructedWindow true)).world.windowingSystem.getGraphicsWindowFor
              (constructedWindow true).window._hwnd = 0
        ∧ (closeImplementation true (constructedWindow true)).window._hwnd = 0
        ∧ (closeImplementation true (constructedWindow true)).window._hdc = 0
        ∧ (closeImplementation true (constructedWindow true)).window._hglrc = 0
        ∧ (closeImplementation true (constructedWindow true)).window._initialized = false
        ∧ (closeImplementation true (constructedWindow true)).window._valid = false
        ∧ (closeImplementation true (constructedWindow true)).window._realized = false) :=
  ⟨by decide, by decide, by decide, by decide,
    closeImplementation_effects true (constructedWindow true) (by decide) (by decide)
      (by decide) (by decide)⟩

/-! ## Theorems : setPixelFormat -/

theorem World.mem_eventsSince_of_ext {w0 w1 w2 : World} (h01 : w0.Extends w1)
    (h12 : w1.Extends w2) (e : NativeEvent) (he : e ∈ w1.eventsSince w0) :
    e ∈ w2.eventsSince w0 := by
  rw [World.eventsSince_trans h01 h12]
  exact List.mem_append_left _ he

theorem World.mem_eventsSince_of_ext_right {w0 w1 w2 : World} (h01 : w0.Extends w1)
    (h12 : w1.Extends w2) (e : NativeEvent) (he : e ∈ w2.eventsSince w1) :
    e ∈ w2.eventsSince w0 := by
  rw [World.eventsSince_trans h01 h12]
  exact List.mem_append_right _ he

theorem World.mem_eventsSince_native {w0 w : World} (c : NativeCall) (h : w0.Extends w) :
    (⟨c, (w.native c).1⟩ : NativeEvent) ∈ (w.native c).2.eventsSince w0 := by
  rw [World.eventsSince_native c h]
  simp [World.native_fst]

theorem World.native_activeWindows (w : World) (c : NativeCall) :
    (w.native c).2.windowingSystem._activeWindows = w.windowingSystem._activeWindows := rfl

theorem negotiatePixelFormat_traits (hdc : HDC) (t : Traits) (w : World) :
    (negotiatePixelFormat hdc t w).2.1 = t
      ∨ ∃ bpp : Nat, (negotiatePixelFormat hdc t w).2.1 = correctedTraits t bpp := by
  rw [negotiatePixelFormat_eq_spec, negotiationSpec_traits]
  split_ifs
  · exact Or.inr ⟨_, rfl⟩
  · exact Or.inl rfl

theorem setPixelFormat_spec (s : State) :
    ∃ (ok : Bool) (t : Traits) (g : HGLRC) (w2 : World),
      setPixelFormat s
          = (ok, { window := { s.window with _traits := t, _hglrc := g }, world := w2 })
        ∧ (t = s.window._traits ∨ ∃ bpp : Nat, t = correctedTraits s.window._traits bpp)
        ∧ s.world.Extends w2
        ∧ w2.windowingSystem._activeWindows = s.world.windowingSystem._activeWindows
        ∧ (ok = false → g = 0 ∨ g = s.window._hglrc)
        ∧ (ok = true → g ≠ 0 ∧ ∃ e ∈ w2.eventsSince s.world,
            e.call = NativeCall.wglCreateContext s.window._hdc ∧ e.result.handle = g) := by
  obtain ⟨win, world⟩ := s
  have hg_ext := getSampleOpenGLContext_ext {} win._hdc win._screenOriginX win._screenOriginY
    (World.Extends.refl world)
  have hg_aw := getSampleOpenGLContext_activeWindows {} win._hdc win._screenOriginX
    win._screenOriginY world
  unfold setPixelFormat
  dsimp only
  generalize getSampleOpenGLContext {} win._hdc win._screenOriginX win._screenOriginY world = g
    at hg_ext hg_aw ⊢
  obtain ⟨gb, gc, gw⟩ := g
  dsimp only at hg_ext hg_aw ⊢
  cases gb
  · refine ⟨false, win._traits, win._hglrc, gc.destructor gw, ?_, Or.inl rfl,
      OpenGLContext.destructor_ext gc hg_ext, ?_, fun _ => Or.inr rfl, fun h => ?_⟩
    · simp
    · rw [OpenGLContext.destructor_activeWindows, hg_aw]
    · simp at h
  · have hn_ext := negotiatePixelFormat_ext gc.deviceContext win._traits hg_ext
    have hn_aw := negotiatePixelFormat_activeWindows gc.deviceContext win._traits gw
    have hn_t := negotiatePixelFormat_traits gc.deviceContext win._traits gw
    generalize negotiatePixelFormat gc.deviceContext win._traits gw = n at hn_ext hn_aw hn_t ⊢
    obtain ⟨r, t, w2⟩ := n
    dsimp only at hn_ext hn_aw hn_t ⊢
    simp only [Bool.true_eq_false, if_false]
    cases r with
    | none =>
      refine ⟨false, t, win._hglrc, gc.destructor w2, rfl, hn_t,
        OpenGLContext.destructor_ext gc hn_ext, ?_, fun _ => Or.inr rfl, fun h => ?_⟩
      · rw [OpenGLContext.destructor_activeWindows, hn_aw, hg_aw]
      · simp at h
    | some idx =>
      dsimp only
      by_cases hs : (w2.native (NativeCall.SetPixelFormat win._hdc idx)).1.ok = false
      · simp only [hs, if_true]
        refine ⟨false, t, win._hglrc, _, rfl, hn_t,
          OpenGLContext.destructor_ext gc (World.native_ext _ hn_ext), ?_,
          fun _ => Or.inr rfl, fun h => ?_⟩
        · rw [OpenGLContext.destructor_activeWindows, World.native_activeWindows, hn_aw, hg_aw]
        · simp at h
      · simp only [hs, if_false]
        have hext2 : world.Extends (w2.native (NativeCall.SetPixelFormat win._hdc idx)).2 :=
          World.native_ext _ hn_ext
        by_cases hc : ((w2.native (NativeCall.SetPixelFormat win._hdc idx)).2.native
            (NativeCall.wglCreateContext win._hdc)).1.handle = 0
        · simp only [hc, if_true]
          refine ⟨false, t, 0, _, rfl, hn_t,
            OpenGLContext.destructor_ext gc (World.native_ext _ hext2), ?_,
            fun _ => Or.inl rfl, fun h => ?_⟩
          · rw [OpenGLContext.destructor_activeWindows, World.native_activeWindows,
              World.native_activeWindows, hn_aw, hg_aw]
          · simp at h
        · simp only [hc, if_false]
          refine ⟨true, t, _, _, rfl, hn_t,
            OpenGLContext.destructor_ext gc (World.native_ext _ hext2), ?_,
            fun h => ?_, fun _ => ⟨hc,
              ⟨NativeCall.wglCreateContext win._hdc,
                ((w2.native (NativeCall.SetPixelFormat win._hdc idx)).2.native
                  (NativeCall.wglCreateContext win._hdc)).1⟩, ?_, rfl, rfl⟩⟩
          · rw [OpenGLContext.destructor_activeWindows, World.native_activeWindows,
              World.native_activeWindows, hn_aw, hg_aw]
          · simp at h
          · exact World.mem_eventsSince_of_ext (World.native_ext _ hext2)
              (OpenGLContext.destructor_ext gc (World.Extends.refl _)) _
              (World.mem_eventsSince_native _ hext2)

/-! ## Theorems : when every native call succeeds -/

theorem World.allSucceed_of_ext {w0 w : World} (h0 : w0.allSucceed) (h : w0.Extends w) :
    w.allSucceed := by
  intro n
  rw [h.1]
  exact h0 n

theorem World.allSucceed.ok {w : World} (h : w.allSucceed) (c : NativeCall) :
    (w.native c).1.ok = true := by
  have := (h w.trace.length).1
  simp [World.native_fst, NativeResult.ok]
  omega

theorem World.allSucceed.ret_ne {w : World} (h : w.allSucceed) (c : NativeCall) :
    (w.native c).1.ret ≠ 0 := by
  have := (h w.trace.length).1
  simp [World.native_fst]
  omega

theorem World.allSucceed.handle_ne {w : World} (h : w.allSucceed) (c : NativeCall) :
    (w.native c).1.handle ≠ 0 := by
  have := (h w.trace.length).1
  simp [World.native_fst, NativeResult.handle]
  omega

theorem World.allSucceed.out1_nonneg {w : World} (h : w.allSucceed) (c : NativeCall) :
    0 ≤ (w.native c).1.out1 := (h w.trace.length).2.1

theorem World.allSucceed.out2_ne {w : World} (h : w.allSucceed) (c : NativeCall) :
    (w.native c).1.out2 ≠ 0 := by
  have := (h w.trace.length).2.2
  simp [World.native_fst]
  omega

theorem World.allSucceed.wglMakeCurrent {w : World} (h : w.allSucceed) (hdc : HDC)
    (hglrc : HGLRC) : (w.wglMakeCurrent hdc hglrc).1 = true := by
  have := (h w.trace.length).1
  simp [World.wglMakeCurrent_fst, NativeResult.ok]
  omega

theorem OpenGLContext.makeCurrent_success (c : OpenGLContext) (hdc : HDC) (b : Bool)
    (w : World) (h : w.allSucceed) (h1 : c._hdc ≠ 0) (h2 : c._hglrc ≠ 0) :
    (c.makeCurrent hdc b w).1 = true := by
  unfold OpenGLContext.makeCurrent
  simp only [h1, h2, or_self, if_false]
  have e := h.wglMakeCurrent c._hdc c._hglrc
  split_ifs <;> simp_all

theorem getSampleOpenGLContext_success (c : OpenGLContext) (hdc : HDC) (x y : Int) (w : World)
    (h : w.allSucceed) : (getSampleOpenGLContext c hdc x y w).1 = true := by
  have h0 := World.allSucceed_of_ext h (registerWindowClasses_ext (World.Extends.refl w))
  unfold getSampleOpenGLContext
  dsimp only
  generalize registerWindowClasses w = w0 at h0 ⊢
  have h1 := World.allSucceed_of_ext h0 (World.native_ext (NativeCall.CreateWindowEx
    WS_EX_OVERLAPPEDWINDOW false none (WS_CLIPSIBLINGS ||| WS_CLIPCHILDREN ||| WS_DISABLED)
    x y 1 1) (World.Extends.refl w0))
  have e1 := h0.handle_ne (NativeCall.CreateWindowEx
    WS_EX_OVERLAPPEDWINDOW false none (WS_CLIPSIBLINGS ||| WS_CLIPCHILDREN ||| WS_DISABLED)
    x y 1 1)
  generalize w0.native (NativeCall.CreateWindowEx
    WS_EX_OVERLAPPEDWINDOW false none (WS_CLIPSIBLINGS ||| WS_CLIPCHILDREN ||| WS_DISABLED)
    x y 1 1) = r1 at h1 e1 ⊢
  simp only [e1, if_false]
  have h2 := World.allSucceed_of_ext h1 (World.native_ext (NativeCall.GetDC r1.1.handle)
    (World.Extends.refl _))
  have e2 := h1.handle_ne (NativeCall.GetDC r1.1.handle)
  generalize r1.2.native (NativeCall.GetDC r1.1.handle) = r2 at h2 e2 ⊢
  simp only [e2, if_false]
  have h3 := World.allSucceed_of_ext h2 (World.native_ext
    (NativeCall.ChoosePixelFormat r2.1.handle samplePixelFormat) (World.Extends.refl _))
  have e3 := h2.ret_ne (NativeCall.ChoosePixelFormat r2.1.handle samplePixelFormat)
  generalize r2.2.native (NativeCall.ChoosePixelFormat r2.1.handle samplePixelFormat) = r3
    at h3 e3 ⊢
  simp only [e3, if_false]
  have h4 := World.allSucceed_of_ext h3 (World.native_ext
    (NativeCall.SetPixelFormat r2.1.handle r3.1.ret) (World.Extends.refl _))
  have e4 := h3.ok (NativeCall.SetPixelFormat r2.1.handle r3.1.ret)
  generalize r3.2.native (NativeCall.SetPixelFormat r2.1.handle r3.1.ret) = r4 at h4 e4 ⊢
  simp only [e4, Bool.true_eq_false, if_false]
  have h5 := World.allSucceed_of_ext h4 (World.native_ext
    (NativeCall.wglCreateContext r2.1.handle) (World.Extends.refl _))
  have e5 := h4.handle_ne (NativeCall.wglCreateContext r2.1.handle)
  generalize r4.2.native (NativeCall.wglCreateContext r2.1.handle) = r5 at h5 e5 ⊢
  simp only [e5, if_false]
  have e6 := OpenGLContext.makeCurrent_success
    ((c.set 0 0 0).set r1.1.handle r2.1.handle r5.1.handle) hdc true r5.2 h5 e2 e5
  simp [e6]

theorem ChooseMatchingPixelFormat_success (hdc : HDC) (a : WGLIntegerAttributes) (t : Traits)
    (w : World) (h : w.allSucceed) : 0 ≤ (ChooseMatchingPixelFormat hdc a t w).1 := by
  unfold ChooseMatchingPixelFormat
  dsimp only
  have e1 := h.ret_ne (NativeCall.wglGetProcAddress "wglChoosePixelFormatARB")
  have h1 := World.allSucceed_of_ext h (World.native_ext
    (NativeCall.wglGetProcAddress "wglChoosePixelFormatARB") (World.Extends.refl _))
  generalize w.native (NativeCall.wglGetProcAddress "wglChoosePixelFormatARB") = r1
    at h1 e1 ⊢
  simp only [e1, if_false]
  have e2 := h1.ok (NativeCall.wglChoosePixelFormatARB hdc a.m_parameters)
  have e3 := h1.out2_ne (NativeCall.wglChoosePixelFormatARB hdc a.m_parameters)
  have e4 := h1.out1_nonneg (NativeCall.wglChoosePixelFormatARB hdc a.m_parameters)
  simp [e2, e3, e4]

theorem negotiatePixelFormat_success (hdc : HDC) (t : Traits) (w : World) (h : w.allSucceed) :
    ∃ idx : Int, (negotiatePixelFormat hdc t w).1 = some idx := by
  rw [negotiatePixelFormat_eq_spec]
  unfold negotiationSpec
  have e1 : 0 ≤ (chooser hdc true t w).1 := ChooseMatchingPixelFormat_success _ _ _ _ h
  simp [e1]

theorem setPixelFormat_success (s : State) (h : s.world.allSucceed) :
    (setPixelFormat s).1 = true := by
  obtain ⟨win, world⟩ := s
  have hg := getSampleOpenGLContext_success {} win._hdc win._screenOriginX win._screenOriginY
    world h
  have hg_ext := getSampleOpenGLContext_ext {} win._hdc win._screenOriginX win._screenOriginY
    (World.Extends.refl world)
  unfold setPixelFormat
  dsimp only
  generalize getSampleOpenGLContext {} win._hdc win._screenOriginX win._screenOriginY world = g
    at hg hg_ext ⊢
  obtain ⟨gb, gc, gw⟩ := g
  dsimp only at hg hg_ext ⊢
  subst hg
  have hn := negotiatePixelFormat_success gc.deviceContext win._traits gw
    (World.allSucceed_of_ext h hg_ext)
  have hn_ext := negotiatePixelFormat_ext gc.deviceContext win._traits hg_ext
  generalize negotiatePixelFormat gc.deviceContext win._traits gw = n at hn hn_ext ⊢
  obtain ⟨r, t, w2⟩ := n
  obtain ⟨idx, hidx⟩ := hn
  dsimp only at hidx hn_ext ⊢
  subst hidx
  have h2 := World.allSucceed_of_ext h hn_ext
  have e1 := h2.ok (NativeCall.SetPixelFormat win._hdc idx)
  have h3 := World.allSucceed_of_ext h2 (World.native_ext
    (NativeCall.SetPixelFormat win._hdc idx) (World.Extends.refl _))
  have e2 := h3.handle_ne (NativeCall.wglCreateContext win._hdc)
  simp [e1, e2]

theorem determineWindowPositionAndStyle_spec (decorated : Bool) (p : WindowPositionAndStyle)
    (s : State) :
    ∃ (ok : Bool) (p2 : WindowPositionAndStyle) (ox oy : Int) (sw sh : Nat) (w2 : World),
      determineWindowPositionAndStyle decorated p s
          = (ok, p2, { window := { s.window with
                _screenOriginX := ox, _screenOriginY := oy, _screenWidth := sw,
                _screenHeight := sh }, world := w2 })
        ∧ s.world.Extends w2
        ∧ w2.windowingSystem = s.world.windowingSystem
        ∧ (s.world.allSucceed → s.world.screenAvailable s.window._traits.screenNum →
            ok = true) := by
  obtain ⟨win, world⟩ := s
  unfold determineWindowPositionAndStyle
  dsimp only
  have hsp : world.screenAvailable win._traits.screenNum →
      (getScreenPosition world { displayNum := 0, screenNum := win._traits.screenNum }).2.2.1 ≠ 0
      ∧ (getScreenPosition world
          { displayNum := 0, screenNum := win._traits.screenNum }).2.2.2 ≠ 0 := by
    rintro ⟨d, m, hm, h1, h2⟩
    simp [getScreenPosition, hm, h1, h2]
  generalize getScreenPosition world { displayNum := 0, screenNum := win._traits.screenNum }
    = sp at hsp ⊢
  obtain ⟨ox, oy, sw, sh⟩ := sp
  dsimp only at hsp ⊢
  by_cases h1 : sw = 0 ∨ sh = 0
  · simp only [h1, if_true]
    refine ⟨_, _, _, _, _, _, _, rfl, World.Extends.refl _, rfl, fun _ hs => ?_⟩
    have := hsp hs
    rcases h1 with h1 | h1 <;> simp_all
  · simp only [h1, if_false]
    by_cases h2 : decorated = true
    · simp only [h2, if_true]
      split_ifs with h3 h4 h5
      all_goals
        refine ⟨_, _, _, _, _, _, _, rfl, World.native_ext _ (World.Extends.refl _), rfl,
          fun ha _ => ?_⟩
      · have := ha.ok (NativeCall.AdjustWindowRectEx (win._traits.x + ox) (win._traits.y + oy)
          (toInt32 (toUInt32 (win._traits.x + ox + Int.ofNat (toUInt32 win._traits.width) - 1)))
          (toInt32 (toUInt32 (win._traits.y + oy + Int.ofNat (toUInt32 win._traits.height) - 1)))
          (WS_POPUP ||| WS_CLIPSIBLINGS ||| WS_CLIPCHILDREN |||
            (WS_CAPTION ||| WS_SYSMENU ||| WS_MINIMIZEBOX ||| WS_MAXIMIZEBOX) ||| WS_SIZEBOX)
          (WS_EX_APPWINDOW ||| WS_EX_OVERLAPPEDWINDOW ||| WS_EX_ACCEPTFILES |||
            WS_EX_LTRREADING))
        simp_all
      · rfl
      · have := ha.ok (NativeCall.AdjustWindowRectEx (win._traits.x + ox) (win._traits.y + oy)
          (toInt32 (toUInt32 (win._traits.x + ox + Int.ofNat (toUInt32 win._traits.width) - 1)))
          (toInt32 (toUInt32 (win._traits.y + oy + Int.ofNat (toUInt32 win._traits.height) - 1)))
          (WS_POPUP ||| WS_CLIPSIBLINGS ||| WS_CLIPCHILDREN |||
            (WS_CAPTION ||| WS_SYSMENU ||| WS_MINIMIZEBOX ||| WS_MAXIMIZEBOX))
          (WS_EX_APPWINDOW ||| WS_EX_OVERLAPPEDWINDOW ||| WS_EX_ACCEPTFILES |||
            WS_EX_LTRREADING))
        simp_all
      · rfl
    · simp only [h2, if_false]
      exact ⟨_, _, _, _, _, _, _, rfl, World.Extends.refl _, rfl, fun _ _ => rfl⟩

/-! ## Theorems : createWindow, setWindow, init -/

theorem noNullHandle_unregisterWindow (ws : Win32WindowingSystem) (h : HWND)
    (hn : ws.noNullHandle) : (ws.unregisterWindow h).noNullHandle := by
  unfold Win32WindowingSystem.unregisterWindow
  split_ifs
  · intro e he
    simp only [WindowHandles.erase, List.mem_filter] at he
    exact hn e he.1
  · exact hn

theorem noNullHandle_registerWindow (ws : Win32WindowingSystem) (h : HWND) (p : WindowPtr)
    (hn : ws.noNullHandle) : (ws.registerWindow h p).noNullHandle := by
  unfold Win32WindowingSystem.registerWindow
  split_ifs with hh
  · intro e he
    simp only [WindowHandles.insert] at he
    split at he
    · exact hn e he
    · rcases List.mem_cons.mp he with rfl | he
      · exact hh
      · exact hn e he
  · exact hn

theorem noNullHandle_of_activeWindows_eq (ws1 ws2 : Win32WindowingSystem)
    (h : ws2._activeWindows = ws1._activeWindows) (hn : ws1.noNullHandle) :
    ws2.noNullHandle := by
  intro e he
  rw [h] at he
  exact hn e he

theorem registerWindow_activeWindows_congr (ws1 ws2 : Win32WindowingSystem) (h : HWND)
    (p : WindowPtr) (heq : ws1._activeWindows = ws2._activeWindows) :
    (ws1.registerWindow h p)._activeWindows = (ws2.registerWindow h p)._activeWindows := by
  unfold Win32WindowingSystem.registerWindow
  split_ifs <;> simp [heq]

theorem createWindow_spec (d : Bool) (s : State) (hdes : s.window._destroying = false) :
    ∃ (ok : Bool) (win2 : GraphicsWindowWin32) (w2 : World),
      createWindow d s = (ok, { window := win2, world := w2 })
        ∧ win2.this = s.window.this
        ∧ win2._ownsWindow = s.window._ownsWindow
        ∧ (win2._traits = s.window._traits
            ∨ ∃ bpp : Nat, win2._traits = correctedTraits s.window._traits bpp)
        ∧ win2._destroying = false
        ∧ s.world.Extends w2
        ∧ (s.world.windowingSystem.noNullHandle → w2.windowingSystem.noNullHandle)
        ∧ (ok = false → win2._hglrc = 0 ∨ win2._hglrc = s.window._hglrc)
        ∧ (ok = true → win2._hwnd ≠ 0 ∧ win2._hdc ≠ 0 ∧ win2._hglrc ≠ 0
            ∧ (∃ e ∈ w2.eventsSince s.world,
                e.call = NativeCall.wglCreateContext win2._hdc ∧ e.result.handle = win2._hglrc)
            ∧ (∃ n : Nat, win2._hwnd = (s.world.oracle n).handle)
            ∧ w2.windowingSystem._activeWindows
                = (s.world.windowingSystem.registerWindow win2._hwnd win2.this)._activeWindows)
        ∧ (s.world.allSucceed → s.world.screenAvailable s.window._traits.screenNum →
            ok = true) := by
  obtain ⟨win, world⟩ := s
  dsimp only at hdes ⊢
  unfold createWindow
  dsimp only
  obtain ⟨ok1, p2, ox, oy, sw, sh, w1, hd, hd_ext, hd_ws, hd_ok⟩ :=
    determineWindowPositionAndStyle_spec win._traits.windowDecoration
      { x := win._windowOriginXToRealize, y := win._windowOriginYToRealize,
        w := win._windowWidthToRealize, h := win._windowHeightToRealize }
      { window := win, world := world }
  rw [hd]
  dsimp only at hd_ext hd_ws hd_ok ⊢
  cases ok1
  · -- determineWindowPositionAndStyle failed
    simp only [if_true]
    refine ⟨_, _, _, rfl, rfl, rfl, Or.inl rfl, hdes, hd_ext, ?_, fun _ => Or.inr rfl,
      fun h => ?_, fun ha hs => ?_⟩
    · intro hn; rw [hd_ws]; exact hn
    · simp at h
    · simpa using hd_ok ha hs
  · simp only [Bool.true_eq_false, if_false]
    have ha1 : world.allSucceed → w1.allSucceed := fun ha => World.allSucceed_of_ext ha hd_ext
    generalize hcw : NativeCall.CreateWindowEx p2.extendedStyle win._traits.useCursor
      (some win._traits.windowName) p2.style p2.x p2.y p2.w p2.h = cw
    have hr1_ext : world.Extends (w1.native cw).2 := World.native_ext _ hd_ext
    have hr1_ok : world.allSucceed → (w1.native cw).1.handle ≠ 0 := fun ha => (ha1 ha).handle_ne _
    have hr1_n : ∃ n : Nat, (w1.native cw).1.handle = (world.oracle n).handle :=
      ⟨w1.trace.length, by rw [World.native_fst, hd_ext.1]⟩
    have hr1_ws : (w1.native cw).2.windowingSystem = world.windowingSystem := hd_ws
    generalize w1.native cw = r1 at hr1_ext hr1_ok hr1_n hr1_ws ⊢
    by_cases h1 : r1.1.handle = 0
    · -- CreateWindowEx failed
      simp only [h1, if_true]
      refine ⟨_, _, _, rfl, rfl, rfl, Or.inl rfl, hdes, hr1_ext, ?_, fun _ => Or.inr rfl,
        fun h => ?_, fun ha hs => ?_⟩
      · intro hn; rw [hr1_ws]; exact hn
      · simp at h
      · exact absurd h1 (hr1_ok ha)
    · simp only [h1, if_false]
      have hr2_ext : world.Extends (r1.2.native (NativeCall.GetDC r1.1.handle)).2 :=
        World.native_ext _ hr1_ext
      have hr2_ok : world.allSucceed →
          (r1.2.native (NativeCall.GetDC r1.1.handle)).1.handle ≠ 0 :=
        fun ha => (World.allSucceed_of_ext ha hr1_ext).handle_ne _
      have hr2_ws : (r1.2.native (NativeCall.GetDC r1.1.handle)).2.windowingSystem
          = world.windowingSystem := hr1_ws
      generalize r1.2.native (NativeCall.GetDC r1.1.handle) = r2 at hr2_ext hr2_ok hr2_ws ⊢
      by_cases h2 : r2.1.handle = 0
      · -- GetDC failed
        simp only [h2, if_true]
        generalize hs3 : State.mk { win with
            _screenOriginX := ox, _screenOriginY := oy, _screenWidth := sw,
            _screenHeight := sh, _windowOriginXToRealize := p2.x,
            _windowOriginYToRealize := p2.y, _windowWidthToRealize := p2.w,
            _windowHeightToRealize := p2.h, _hwnd := r1.1.handle, _hdc := 0 } r2.2 = s3
        have hs3d : s3.window._destroying = false := by rw [← hs3]; exact hdes
        obtain ⟨wp, hwin, hws⟩ := destroyWindow_fields d s3 hs3d
        have hx : world.Extends (destroyWindow d s3).world :=
          destroyWindow_ext d s3 (by rw [← hs3]; exact hr2_ext)
        generalize destroyWindow d s3 = ds at hwin hws hx ⊢
        obtain ⟨dw, dwd⟩ := ds
        dsimp only at hwin hws hx ⊢
        subst hwin
        refine ⟨_, _, _, rfl, ?_, ?_, Or.inl ?_, rfl, hx, ?_, fun _ => Or.inr ?_,
          fun h => ?_, fun ha hs => ?_⟩
        · rw [← hs3]
        · rw [← hs3]
        · rw [← hs3]
        · intro hn
          rw [hws]
          apply noNullHandle_unregisterWindow
          rw [← hs3]; dsimp only; rw [hr2_ws]; exact hn
        · rw [← hs3]; simp
        · simp at h
        · exact absurd h2 (hr2_ok ha)
      · simp only [h2, if_false]
        generalize hs3 : State.mk { win with
            _screenOriginX := ox, _screenOriginY := oy, _screenWidth := sw,
            _screenHeight := sh, _windowOriginXToRealize := p2.x,
            _windowOriginYToRealize := p2.y, _windowWidthToRealize := p2.w,
            _windowHeightToRealize := p2.h, _hwnd := r1.1.handle, _hdc := r2.1.handle } r2.2
          = s3
        have hs3w : s3.world = r2.2 := by rw [← hs3]
        have hsucc := setPixelFormat_success s3
        obtain ⟨ok, t, g, w2, heq, ht, hext, haw, hfalse, htrue⟩ := setPixelFormat_spec s3
        rw [heq] at hsucc ⊢
        rw [hs3w] at hsucc hext haw
        dsimp only at hsucc ⊢
        have hw2_ext : world.Extends w2 := hr2_ext.trans hext
        cases ok
        · -- setPixelFormat failed
          simp only [if_true]
          generalize hs5 : State.mk { s3.window with _traits := t, _hglrc := g, _hdc := 0 }
            (w2.native (NativeCall.ReleaseDC s3.window._hwnd s3.window._hdc)).2 = s5
          have hs5d : s5.window._destroying = false := by rw [← hs5, ← hs3]; exact hdes
          obtain ⟨wp, hwin, hws⟩ := destroyWindow_fields d s5 hs5d
          have hx : world.Extends (destroyWindow d s5).world :=
            destroyWindow_ext d s5 (by rw [← hs5]; exact World.native_ext _ hw2_ext)
          generalize destroyWindow d s5 = ds at hwin hws hx ⊢
          obtain ⟨dw, dwd⟩ := ds
          dsimp only at hwin hws hx ⊢
          subst hwin
          refine ⟨_, _, _, rfl, ?_, ?_, ?_, rfl, hx, ?_, fun _ => ?_,
            fun h => ?_, fun ha hs => ?_⟩
          · rw [← hs5, ← hs3]
          · rw [← hs5, ← hs3]
          · rw [← hs5, ← hs3]
            rw [← hs3] at ht
            exact ht
          · intro hn
            rw [hws]
            apply noNullHandle_unregisterWindow
            rw [← hs5]
            exact noNullHandle_of_activeWindows_eq _ _ (by
              rw [World.native_activeWindows, haw, hr2_ws]) hn
          · have := hfalse rfl
            rw [← hs5]
            rw [← hs3] at this
            simpa using this
          · simp at h
          · have := hsucc (World.allSucceed_of_ext ha hr2_ext)
            simp at this
        · -- setPixelFormat succeeded
          simp only [Bool.true_eq_false, if_false]
          obtain ⟨hg, e, he, hec, heh⟩ := htrue rfl
          refine ⟨_, _, _, rfl, ?_, ?_, ?_, ?_, World.windowingSystem_ext _ hw2_ext, ?_,
            fun h => ?_, fun _ => ⟨?_, ?_, hg, ⟨e, ?_, ?_, heh⟩, ?_, ?_⟩, fun _ _ => rfl⟩
          · rw [← hs3]
          · rw [← hs3]
          · rw [← hs3] at ht ⊢
            exact ht
          · rw [← hs3]; exact hdes
          · intro hn
            apply noNullHandle_registerWindow
            exact noNullHandle_of_activeWindows_eq _ _ (by rw [haw, hr2_ws]) hn
          · simp at h
          · rw [← hs3]; exact h1
          · rw [← hs3]; exact h2
          · rw [hs3w] at he
            exact World.mem_eventsSince_of_ext_right hr2_ext hext e he
          · rw [hec]
          · rw [← hs3]; exact hr1_n
          · exact registerWindow_activeWindows_congr _ _ _ _ (by rw [haw, hr2_ws])

theorem registerWindowProcedure_spec (s : State) :
    ∃ (ok : Bool) (wp : Nat) (w2 : World),
      registerWindowProcedure s
          = (ok, { window := { s.window with _windowProcedure := wp }, world := w2 })
        ∧ s.world.Extends w2 ∧ w2.windowingSystem = s.world.windowingSystem := by
  unfold registerWindowProcedure
  dsimp only
  split_ifs <;>
    exact ⟨_, _, _, rfl, World.native_ext _ (World.Extends.refl _), rfl⟩

theorem setWindow.context_spec (s2 : State) :
    ∃ (ok : Bool) (t : Traits) (g : HGLRC) (hw : HWND) (hd : HDC) (w2 : World),
      setWindow.context s2
          = (ok, State.mk { s2.window with
                _traits := t, _hglrc := g, _hwnd := hw, _hdc := hd } w2)
        ∧ (t = s2.window._traits ∨ ∃ bpp : Nat, t = correctedTraits s2.window._traits bpp)
        ∧ s2.world.Extends w2
        ∧ w2.windowingSystem._activeWindows = s2.world.windowingSystem._activeWindows
        ∧ (ok = false → g = 0 ∨ g = s2.window._hglrc)
        ∧ (ok = true → hd = s2.window._hdc ∧ hw = s2.window._hwnd) := by
  unfold setWindow.context
  by_cases hi : s2.window._traits.setInheritedWindowPixelFormat = true
  · simp only [hi, if_true]
    obtain ⟨ok, t, g, w2, heq, ht, hext, haw, hfalse, -⟩ := setPixelFormat_spec s2
    rw [heq]
    dsimp only
    cases ok
    · exact ⟨_, _, _, _, _, _, rfl, ht, hext, haw, hfalse, fun h => by simp at h⟩
    · exact ⟨_, _, _, _, _, _, rfl, ht, hext, haw, hfalse, fun _ => ⟨rfl, rfl⟩⟩
  · simp only [hi, if_false]
    by_cases hz : (s2.world.native
        (NativeCall.wglCreateContext s2.window._hdc)).1.handle = 0
    · simp only [hz, if_true]
      exact ⟨_, _, _, _, _, _, rfl, Or.inl rfl,
        World.native_ext _ (World.native_ext _ (World.Extends.refl _)), rfl,
        fun _ => Or.inl rfl, fun h => by simp at h⟩
    · simp only [hz, if_false]
      exact ⟨true, s2.window._traits, _, s2.window._hwnd, s2.window._hdc, _, rfl,
        Or.inl rfl, World.native_ext _ (World.Extends.refl _), rfl,
        fun h => by simp at h, fun _ => ⟨rfl, rfl⟩⟩

theorem setWindow.register_spec (s : State) :
    ∃ (ok : Bool) (win2 : GraphicsWindowWin32) (w2 : World),
      setWindow.register s = (ok, { window := win2, world := w2 })
        ∧ win2.this = s.window.this
        ∧ win2._ownsWindow = s.window._ownsWindow
        ∧ win2._traits = s.window._traits
        ∧ win2._destroying = s.window._destroying
        ∧ s.world.Extends w2
        ∧ (s.world.windowingSystem.noNullHandle → w2.windowingSystem.noNullHandle)
        ∧ (ok = false → win2._hglrc = 0)
        ∧ (ok = true → win2._hdc = s.window._hdc) := by
  unfold setWindow.register
  obtain ⟨ok, wp, w2, heq, hext, hws⟩ := registerWindowProcedure_spec s
  rw [heq]
  dsimp only
  cases ok
  · simp only [if_true]
    refine ⟨_, _, _, rfl, rfl, rfl, rfl, rfl,
      World.native_ext _ (World.native_ext _ hext), ?_, fun _ => rfl, fun h => by simp at h⟩
    intro hn
    exact noNullHandle_of_activeWindows_eq _ _ (by
      rw [World.native_activeWindows, World.native_activeWindows, hws]) hn
  · simp only [Bool.true_eq_false, if_false]
    refine ⟨_, _, _, rfl, rfl, rfl, rfl, rfl, World.windowingSystem_ext _ hext, ?_,
      fun h => by simp at h, fun _ => rfl⟩
    intro hn
    apply noNullHandle_registerWindow
    rw [hws]; exact hn

theorem correctedTraits_or_trans {t0 t1 t2 : Traits}
    (h1 : t1 = t0 ∨ ∃ bpp : Nat, t1 = correctedTraits t0 bpp)
    (h2 : t2 = t1 ∨ ∃ bpp : Nat, t2 = correctedTraits t1 bpp) :
    t2 = t0 ∨ ∃ bpp : Nat, t2 = correctedTraits t0 bpp := by
  rcases h1 with rfl | ⟨b1, rfl⟩
  · exact h2
  · rcases h2 with rfl | ⟨b2, rfl⟩
    · exact Or.inr ⟨b1, rfl⟩
    · exact Or.inr ⟨b2, rfl⟩

theorem setWindow_spec (handle : HWND) (s : State) :
    ∃ (ok : Bool) (win2 : GraphicsWindowWin32) (w2 : World),
      setWindow handle s = (ok, { window := win2, world := w2 })
        ∧ win2.this = s.window.this
        ∧ win2._ownsWindow = s.window._ownsWindow
        ∧ (win2._traits = s.window._traits
            ∨ ∃ bpp : Nat, win2._traits = correctedTraits s.window._traits bpp)
        ∧ win2._destroying = s.window._destroying
        ∧ s.world.Extends w2
        ∧ (s.world.windowingSystem.noNullHandle → w2.windowingSystem.noNullHandle)
        ∧ (ok = false → win2._hglrc = 0 ∨ win2._hglrc = s.window._hglrc)
        ∧ (ok = true → win2._hdc ≠ 0) := by
  obtain ⟨win, world⟩ := s
  unfold setWindow
  dsimp only
  by_cases h0 : win._initialized = true
  · simp only [h0, if_true]
    exact ⟨_, _, _, rfl, rfl, rfl, Or.inl rfl, rfl, World.Extends.refl _, id,
      fun _ => Or.inr rfl, fun h => by simp at h⟩
  · rw [if_neg h0]
    by_cases h1 : handle = 0
    · simp only [h1, if_true]
      exact ⟨_, _, _, rfl, rfl, rfl, Or.inl rfl, rfl, World.Extends.refl _, id,
        fun _ => Or.inr rfl, fun h => by simp at h⟩
    · rw [if_neg h1, if_neg h1]
      have hr_ext : world.Extends (world.native (NativeCall.GetDC handle)).2 :=
        World.native_ext _ (World.Extends.refl _)
      have hr_ws : (world.native (NativeCall.GetDC handle)).2.windowingSystem
          = world.windowingSystem := rfl
      generalize world.native (NativeCall.GetDC handle) = rd at hr_ext hr_ws ⊢
      by_cases h2 : rd.1.handle = 0
      · simp only [h2, if_true]
        refine ⟨_, _, _, rfl, rfl, rfl, Or.inl rfl, rfl, hr_ext, ?_,
          fun _ => Or.inr rfl, fun h => by simp at h⟩
        intro hn; rw [hr_ws]; exact hn
      · rw [if_neg h2]
        generalize hs2 : State.mk { win with _hwnd := handle, _hdc := rd.1.handle } rd.2 = s2
        obtain ⟨ok, t, g, hw, hd, w2, heq, ht, hext, haw, hfalse, htrue⟩ :=
          setWindow.context_spec s2
        rw [heq]
        dsimp only
        have hext2 : world.Extends w2 := by
          rw [← hs2] at hext; exact hr_ext.trans hext
        have hnn : world.windowingSystem.noNullHandle → w2.windowingSystem.noNullHandle := by
          intro hn
          refine noNullHandle_of_activeWindows_eq _ _ ?_ hn
          rw [haw, ← hs2]; dsimp only; rw [hr_ws]
        cases ok
        · simp only [if_true]
          refine ⟨_, _, _, rfl, ?_, ?_, ?_, ?_, hext2, hnn, fun _ => ?_,
            fun h => by simp at h⟩
          · rw [← hs2]
          · rw [← hs2]
          · rw [← hs2] at ht; exact ht
          · rw [← hs2]
          · have := hfalse rfl
            rw [← hs2] at this
            exact this
        · simp only [Bool.true_eq_false, if_false]
          obtain ⟨hhd, hhw⟩ := htrue rfl
          obtain ⟨ok2, win2, w3, heq2, e1, e2, e3, e4, e5, e6, e7, e8⟩ :=
            setWindow.register_spec (State.mk { s2.window with
                _traits := t, _hglrc := g, _hwnd := hw, _hdc := hd } w2)
          rw [heq2]
          refine ⟨_, _, _, rfl, ?_, ?_, ?_, ?_, hext2.trans e5, fun hn => e6 (hnn hn),
            fun h => Or.inl (e7 h), fun h => ?_⟩
          · rw [e1, ← hs2]
          · rw [e2, ← hs2]
          · rw [e3]; rw [← hs2] at ht; exact ht
          · rw [e4, ← hs2]
          · rw [e8 h]
            dsimp only
            rw [hhd, ← hs2]
            exact h2

/-! ## Theorems : the invariant of the reachable states -/

theorem inheritedWindowData_of_corrected {t0 t1 : Traits}
    (h : t1 = t0 ∨ ∃ bpp : Nat, t1 = correctedTraits t0 bpp) :
    t1.inheritedWindowData = t0.inheritedWindowData := by
  rcases h with rfl | ⟨b, rfl⟩ <;> rfl

theorem init_establishes (d : Bool) (s : State)
    (h1 : s.window._initialized = false → s.window._hglrc = 0)
    (h2 : s.window._hdc = 0 → s.window._hglrc = 0)
    (h3 : s.world.windowingSystem.noNullHandle)
    (h4 : s.window._initialized = true →
      s.window._destroying = false
        ∧ s.window._ownsWindow = decide (s.window._traits.inheritedWindowData = 0)) :
    WindowInvariant (init d s) ∧ s.world.Extends (init d s).world
      ∧ (init d s).window.this = s.window.this
      ∧ (init d s).window._traits.inheritedWindowData = s.window._traits.inheritedWindowData := by
  obtain ⟨win, world⟩ := s
  dsimp only at h1 h2 h3 h4
  unfold init
  dsimp only
  by_cases hi : win._initialized = true
  · rw [if_pos hi]
    exact ⟨⟨(h4 hi).1, h2, fun h => by rw [hi] at h; simp at h, (h4 hi).2, h3⟩,
      World.Extends.refl _, rfl, rfl⟩
  · rw [if_neg hi]
    have hg : win._hglrc = 0 := h1 (by simpa using hi)
    by_cases ho : win._traits.inheritedWindowData = 0
    · -- the window creates its native window
      simp only [ho, decide_True, if_true]
      obtain ⟨ok, win2, w2, heq, e1, e2, e3, e4, e5, e6, e7, e8, -⟩ :=
        createWindow_spec d (State.mk { win with
          _ownsWindow := true, _closeWindow := false, _destroyWindow := false,
          _destroying := false } world) rfl
      rw [heq]
      dsimp only at e1 e2 e3 e4 e5 e6 e7 e8 ⊢
      have hid := inheritedWindowData_of_corrected e3
      refine ⟨⟨e4, ?_, ?_, ?_, e6 h3⟩, e5, e1, hid.trans ho⟩
      · cases ok
        · intro _
          rcases e7 rfl with h | h
          · exact h
          · rw [h]; exact hg
        · intro h
          exact absurd h (e8 rfl).2.1
      · intro h
        dsimp only at h
        subst h
        rcases e7 rfl with h | h
        · exact h
        · rw [h]; exact hg
      · dsimp only
        rw [e2, hid]
        simp [ho]
    · -- the window adopts the inherited window
      simp only [ho, decide_False, Bool.false_eq_true, if_false]
      obtain ⟨ok, win2, w2, heq, e1, e2, e3, e4, e5, e6, e7, e8⟩ :=
        setWindow_spec win._traits.inheritedWindowData (State.mk { win with
          _ownsWindow := false, _closeWindow := false, _destroyWindow := false,
          _destroying := false } world)
      rw [heq]
      dsimp only at e1 e2 e3 e4 e5 e6 e7 e8 ⊢
      have hid := inheritedWindowData_of_corrected e3
      refine ⟨⟨e4, ?_, ?_, ?_, e6 h3⟩, e5, e1, hid⟩
      · cases ok
        · intro _
          rcases e7 rfl with h | h
          · exact h
          · rw [h]; exact hg
        · intro h
          exact absurd h (e8 rfl)
      · intro h
        dsimp only at h
        subst h
        rcases e7 rfl with h | h
        · exact h
        · rw [h]; exact hg
      · dsimp only
        rw [e2, hid]
        simp [ho]

theorem init_inv (d : Bool) (s : State) (h : WindowInvariant s) : WindowInvariant (init d s) :=
  (init_establishes d s h.2.2.1 h.2.1 h.2.2.2.2 (fun _ => ⟨h.1, h.2.2.2.1⟩)).1

theorem construct_inv (d : Bool) (this : WindowPtr) (traits : Traits) (w : World)
    (hreg : w.windowingSystem.noNullHandle) :
    WindowInvariant (GraphicsWindowWin32.construct d this traits w) := by
  unfold GraphicsWindowWin32.construct
  exact (init_establishes d _ (fun _ => rfl) (fun _ => rfl) hreg
    (fun h => by simp at h)).1

theorem destroyWindow_inv (b : Bool) (s : State) (h : WindowInvariant s) :
    WindowInvariant (destroyWindow b s) := by
  obtain ⟨h1, h2, h3, h4, h5⟩ := h
  obtain ⟨wp, hf, hws⟩ := destroyWindow_fields b s h1
  refine ⟨?_, ?_, ?_, ?_, ?_⟩
  · rw [hf]
  · rw [hf]; intro _; dsimp only
    split_ifs with hz
    · exact h2 hz
    · rfl
  · rw [hf]; intro _; dsimp only
    split_ifs with hz
    · exact h2 hz
    · rfl
  · rw [hf]; exact h4
  · rw [hws]; exact noNullHandle_unregisterWindow _ _ h5

theorem closeImplementation_inv (d : Bool) (s : State) (h : WindowInvariant s) :
    WindowInvariant (closeImplementation d s) := by
  obtain ⟨h1, h2, h3, h4, h5⟩ := destroyWindow_inv d s h
  rw [closeImplementation_eq]
  exact ⟨h1, h2, fun _ => h3 (by
    obtain ⟨wp, hf, -⟩ := destroyWindow_fields d s h.1
    rw [hf]), h4, h5⟩

theorem WindowInvariant.of_world {s : State} (h : WindowInvariant s) (w2 : World)
    (hws : w2.windowingSystem = s.world.windowingSystem) :
    WindowInvariant { s with world := w2 } :=
  ⟨h.1, h.2.1, h.2.2.1, h.2.2.2.1, by
    show w2.windowingSystem.noNullHandle
    rw [hws]; exact h.2.2.2.2⟩

theorem makeCurrentImplementation_spec (s : State) :
    ∃ (ok : Bool) (w2 : World), makeCurrentImplementation s = (ok, { s with world := w2 })
      ∧ s.world.Extends w2 ∧ w2.windowingSystem = s.world.windowingSystem
      ∧ (s.window._realized = false → ok = false ∧ w2 = s.world) := by
  unfold makeCurrentImplementation
  split_ifs with h
  · exact ⟨_, _, rfl, World.Extends.refl _, rfl, fun _ => ⟨rfl, rfl⟩⟩
  · exact ⟨_, _, rfl, World.wglMakeCurrent_ext _ _ (World.Extends.refl _),
      World.wglMakeCurrent_windowingSystem _ _ _, fun h2 => absurd h2 h⟩

theorem releaseContextImplementation_spec (s : State) :
    ∃ (ok : Bool) (w2 : World), releaseContextImplementation s = (ok, { s with world := w2 })
      ∧ s.world.Extends w2 ∧ w2.windowingSystem = s.world.windowingSystem :=
  ⟨_, _, rfl, World.wglMakeCurrent_ext _ _ (World.Extends.refl _),
    World.wglMakeCurrent_windowingSystem _ _ _⟩

theorem realizeImplementation.showWindow_spec (s : State) :
    ∃ (ok : Bool) (w2 : World),
      realizeImplementation.showWindow s = (ok, { s with world := w2 })
        ∧ s.world.Extends w2 ∧ w2.windowingSystem = s.world.windowingSystem
        ∧ (s.world.allSucceed → ok = true) := by
  unfold realizeImplementation.showWindow
  dsimp only
  by_cases ho : s.window._ownsWindow = true
  · rw [if_pos ho]
    generalize hc1 : NativeCall.SetWindowPos s.window._hwnd s.window._windowOriginXToRealize
      s.window._windowOriginYToRealize s.window._windowWidthToRealize
      s.window._windowHeightToRealize SWP_SHOWWINDOW = c1
    by_cases h1 : (s.world.native c1).1.ok = false
    · rw [if_pos h1]
      refine ⟨_, _, rfl, World.native_ext _ (World.Extends.refl _), rfl, fun ha => ?_⟩
      have := ha.ok c1
      simp [h1] at this
    · rw [if_neg h1]
      by_cases h2 : ((s.world.native c1).2.native (NativeCall.UpdateWindow s.window._hwnd)).1.ok
          = false
      · rw [if_pos h2]
        refine ⟨_, _, rfl, World.native_ext _ (World.native_ext _ (World.Extends.refl _)), rfl,
          fun ha => ?_⟩
        have := (World.allSucceed_of_ext ha
          (World.native_ext c1 (World.Extends.refl _))).ok
            (NativeCall.UpdateWindow s.window._hwnd)
        simp [h2] at this
      · rw [if_neg h2]
        exact ⟨_, _, rfl, World.native_ext _ (World.native_ext _ (World.Extends.refl _)), rfl,
          fun _ => rfl⟩
  · rw [if_neg ho]
    exact ⟨_, _, rfl, World.Extends.refl _, rfl, fun _ => rfl⟩

theorem realizeImplementation.initAndShare_inv (d : Bool) (s : State) (h : WindowInvariant s) :
    WindowInvariant (realizeImplementation.initAndShare d s).2 := by
  unfold realizeImplementation.initAndShare
  by_cases hi : s.window._initialized = false
  · rw [if_pos hi]
    have hinv := init_inv d s h
    dsimp only
    generalize init d s = s1 at hinv ⊢
    by_cases hi1 : s1.window._initialized = false
    · rw [if_pos hi1]; exact hinv
    · rw [if_neg hi1]
      split
      · obtain ⟨ok, w2, heq, -, hws, -⟩ := makeCurrentImplementation_spec s1
        unfold makeCurrent
        rw [heq]
        dsimp only
        split_ifs
        · exact hinv.of_world w2 hws
        · exact hinv.of_world _ hws
        · exact hinv.of_world _ hws
      · exact hinv
      · exact hinv
  · rw [if_neg hi]; exact h

theorem realizeImplementation_inv (d : Bool) (s : State) (h : WindowInvariant s) :
    WindowInvariant (realizeImplementation d s).2 := by
  unfold realizeImplementation
  by_cases hr : s.window._realized = true
  · rw [if_pos hr]; exact h
  · rw [if_neg hr]
    have ha := realizeImplementation.initAndShare_inv d s h
    dsimp only
    generalize realizeImplementation.initAndShare d s = a at ha ⊢
    by_cases ha1 : a.1 = false
    · rw [if_pos ha1]; exact ha
    · rw [if_neg ha1]
      obtain ⟨ok, w2, heq, -, hws, -⟩ := realizeImplementation.showWindow_spec a.2
      rw [heq]
      dsimp only
      have hb := ha.of_world w2 hws
      cases ok
      · rw [if_pos rfl]; exact hb
      · rw [if_neg (by simp)]
        obtain ⟨h1, h2, h3, h4, h5⟩ := hb
        refine ⟨h1, h2, ?_, h4, h5⟩
        intro hi
        -- the realized window is initialized or holds no rendering context
        exact h3 hi

theorem adaptKey_ext {w0 w : World} (wParam lParam : Nat) (h : w0.Extends w) :
    w0.Extends (adaptKey wParam lParam w).2.2 := by
  unfold adaptKey
  lift_lets
  intro rightSide rm virtualKey rk km mask1 mask2 keySymbol ra
  split_ifs <;> dsimp only <;>
    first
    | exact World.native_ext _ h
    | exact World.native_ext _ (World.native_ext _ h)
    | exact World.native_ext _ (World.native_ext _ (World.native_ext _ h))

theorem adaptKey_windowingSystem (wParam lParam : Nat) (w : World) :
    (adaptKey wParam lParam w).2.2.windowingSystem = w.windowingSystem := by
  unfold adaptKey
  lift_lets
  intro rightSide rm virtualKey rk km mask1 mask2 keySymbol ra
  split_ifs <;> rfl

theorem handleNativeWindowingEvent.onPaint_spec (hwnd : HWND) (s : State) :
    HandlerFrame s (handleNativeWindowingEvent.onPaint hwnd s) := by
  unfold handleNativeWindowingEvent.onPaint HandlerFrame
  split_ifs
  · exact ⟨_, _, _, _, _, _, _, _, rfl,
      World.native_ext _ (World.native_ext _ (World.Extends.refl _)), rfl⟩
  · exact ⟨_, _, _, _, _, _, _, _, rfl, World.Extends.refl _, rfl⟩

theorem handleNativeWindowingEvent.onMouseMove_spec (lParam : Nat) (t : Time) (s : State) :
    HandlerFrame s (handleNativeWindowingEvent.onMouseMove lParam t s) :=
  ⟨_, _, _, _, _, _, _, _, rfl, World.Extends.refl _, rfl⟩

theorem handleNativeWindowingEvent.onButtonDown_spec (hwnd : HWND) (uMsg lParam : Nat)
    (t : Time) (s : State) :
    HandlerFrame s (handleNativeWindowingEvent.onButtonDown hwnd uMsg lParam t s) :=
  ⟨_, _, _, _, _, _, _, _, rfl, World.native_ext _ (World.Extends.refl _), rfl⟩

theorem handleNativeWindowingEvent.onButtonUp_spec (uMsg lParam : Nat)
    (t : Time) (s : State) :
    HandlerFrame s (handleNativeWindowingEvent.onButtonUp uMsg lParam t s) :=
  ⟨_, _, _, _, _, _, _, _, rfl, World.native_ext _ (World.Extends.refl _), rfl⟩

theorem handleNativeWindowingEvent.onMouseWheel_spec (wParam : Nat) (t : Time) (s : State) :
    HandlerFrame s (handleNativeWindowingEvent.onMouseWheel wParam t s) :=
  ⟨_, _, _, _, _, _, _, _, rfl, World.Extends.refl _, rfl⟩

theorem handleNativeWindowingEvent.onMoveOrSize_spec (hwnd : HWND) (t : Time) (s : State) :
    HandlerFrame s (handleNativeWindowingEvent.onMoveOrSize hwnd t s) := by
  unfold handleNativeWindowingEvent.onMoveOrSize HandlerFrame
  lift_lets
  intro ro windowX windowY resizeTime rc s1 windowWidth windowHeight
  split_ifs
  · exact ⟨_, _, _, _, _, _, _, _, rfl,
      World.native_ext _ (World.native_ext _ (World.Extends.refl _)), rfl⟩
  · exact ⟨_, _, _, _, _, _, _, _, rfl,
      World.native_ext _ (World.native_ext _ (World.Extends.refl _)), rfl⟩

theorem handleNativeWindowingEvent.onKeyDown_spec (wParam lParam : Nat) (t : Time)
    (s : State) : HandlerFrame s (handleNativeWindowingEvent.onKeyDown wParam lParam t s) :=
  ⟨_, _, _, _, _, _, _, _, rfl, adaptKey_ext _ _ (World.Extends.refl _),
    adaptKey_windowingSystem _ _ _⟩

theorem handleNativeWindowingEvent.onKeyUp_spec (wParam lParam : Nat) (t : Time)
    (s : State) : HandlerFrame s (handleNativeWindowingEvent.onKeyUp wParam lParam t s) :=
  ⟨_, _, _, _, _, _, _, _, rfl, adaptKey_ext _ _ (World.Extends.refl _),
    adaptKey_windowingSystem _ _ _⟩

theorem handleNativeWindowingEvent.onSetCursor_spec (hwnd : HWND) (uMsg wParam lParam : Nat)
    (s : State) :
    HandlerFrame s (handleNativeWindowingEvent.onSetCursor hwnd uMsg wParam lParam s) := by
  unfold handleNativeWindowingEvent.onSetCursor HandlerFrame
  split_ifs
  · exact ⟨_, _, _, _, _, _, _, _, rfl, World.native_ext _ (World.Extends.refl _), rfl⟩
  · exact ⟨_, _, _, _, _, _, _, _, rfl, World.native_ext _ (World.Extends.refl _), rfl⟩

theorem handleNativeWindowingEvent.onClose_spec (t : Time) (s : State) :
    HandlerFrame s (handleNativeWindowingEvent.onClose t s) :=
  ⟨_, _, _, _, _, _, _, _, rfl, World.Extends.refl _, rfl⟩

theorem handleNativeWindowingEvent.onDestroy_spec (s : State) :
    HandlerFrame s (handleNativeWindowingEvent.onDestroy s) := by
  simp only [handleNativeWindowingEvent.onDestroy]
  split_ifs
  · exact ⟨_, _, _, _, _, _, _, _, rfl, World.native_ext _ (World.Extends.refl _), rfl⟩
  · exact ⟨_, _, _, _, _, _, _, _, rfl, World.Extends.refl _, rfl⟩

theorem handleNativeWindowingEvent.onQuit_spec (wParam : Nat) (s : State) :
    HandlerFrame s (handleNativeWindowingEvent.onQuit wParam s) :=
  ⟨_, _, _, _, _, _, _, _, rfl, World.Extends.refl _, rfl⟩

theorem handleNativeWindowingEvent.onDefault_spec (hwnd : HWND) (uMsg wParam lParam : Nat)
    (s : State) :
    HandlerFrame s (handleNativeWindowingEvent.onDefault hwnd uMsg wParam lParam s) := by
  unfold handleNativeWindowingEvent.onDefault HandlerFrame
  split_ifs
  · exact ⟨_, _, _, _, _, _, _, _, rfl, World.native_ext _ (World.Extends.refl _), rfl⟩
  · exact ⟨_, _, _, _, _, _, _, _, rfl, World.Extends.refl _, rfl⟩

theorem handleNativeWindowingEvent.switch_spec (hwnd : HWND) (uMsg wParam lParam : Nat)
    (eventTime : Time) (s : State) :
    HandlerFrame s (handleNativeWindowingEvent.switch hwnd uMsg wParam lParam eventTime s) := by
  unfold handleNativeWindowingEvent.switch
  by_cases h1 : uMsg = WM_PAINT
  · rw [if_pos h1]; exact handleNativeWindowingEvent.onPaint_spec _ _
  rw [if_neg h1]
  by_cases h2 : uMsg = WM_MOUSEMOVE
  · rw [if_pos h2]; exact handleNativeWindowingEvent.onMouseMove_spec _ _ _
  rw [if_neg h2]
  by_cases h3 : uMsg = WM_LBUTTONDOWN ∨ uMsg = WM_MBUTTONDOWN ∨ uMsg = WM_RBUTTONDOWN
  · rw [if_pos h3]; exact handleNativeWindowingEvent.onButtonDown_spec _ _ _ _ _
  rw [if_neg h3]
  by_cases h4 : uMsg = WM_LBUTTONUP ∨ uMsg = WM_MBUTTONUP ∨ uMsg = WM_RBUTTONUP
  · rw [if_pos h4]; exact handleNativeWindowingEvent.onButtonUp_spec _ _ _ _
  rw [if_neg h4]
  by_cases h5 : uMsg = WM_MOUSEWHEEL
  · rw [if_pos h5]; exact handleNativeWindowingEvent.onMouseWheel_spec _ _ _
  rw [if_neg h5]
  by_cases h6 : uMsg = WM_MOVE ∨ uMsg = WM_SIZE
  · rw [if_pos h6]; exact handleNativeWindowingEvent.onMoveOrSize_spec _ _ _
  rw [if_neg h6]
  by_cases h7 : uMsg = WM_KEYDOWN ∨ uMsg = WM_SYSKEYDOWN
  · rw [if_pos h7]; exact handleNativeWindowingEvent.onKeyDown_spec _ _ _ _
  rw [if_neg h7]
  by_cases h8 : uMsg = WM_KEYUP ∨ uMsg = WM_SYSKEYUP
  · rw [if_pos h8]; exact handleNativeWindowingEvent.onKeyUp_spec _ _ _ _
  rw [if_neg h8]
  by_cases h9 : uMsg = WM_SETCURSOR
  · rw [if_pos h9]; exact handleNativeWindowingEvent.onSetCursor_spec _ _ _ _ _
  rw [if_neg h9]
  by_cases h10 : uMsg = WM_CLOSE
  · rw [if_pos h10]; exact handleNativeWindowingEvent.onClose_spec _ _
  rw [if_neg h10]
  by_cases h11 : uMsg = WM_DESTROY
  · rw [if_pos h11]; exact handleNativeWindowingEvent.onDestroy_spec _
  rw [if_neg h11]
  by_cases h12 : uMsg = WM_QUIT
  · rw [if_pos h12]; exact handleNativeWindowingEvent.onQuit_spec _ _
  rw [if_neg h12]
  exact handleNativeWindowingEvent.onDefault_spec _ _ _ _ _

theorem HandlerFrame.inv {s : State} {r : Option Int × State} (hf : HandlerFrame s r)
    (h : WindowInvariant s) : WindowInvariant r.2 := by
  obtain ⟨q, x, y, wd, ht, dw, cw, w2, heq, -, hws⟩ := hf
  rw [heq]
  exact ⟨h.1, h.2.1, h.2.2.1, h.2.2.2.1, by
    show w2.windowingSystem.noNullHandle
    rw [hws]; exact h.2.2.2.2⟩

theorem HandlerFrame.ext {s : State} {r : Option Int × State} (hf : HandlerFrame s r) :
    s.world.Extends r.2.world := by
  obtain ⟨q, x, y, wd, ht, dw, cw, w2, heq, he, -⟩ := hf
  rw [heq]; exact he

theorem WindowInvariant.of_timeOfLastCheckEvents {s : State} (h : WindowInvariant s)
    (now : Time) :
    WindowInvariant { s with window := { s.window with _timeOfLastCheckEvents := now } } :=
  ⟨h.1, h.2.1, h.2.2.1, h.2.2.2.1, h.2.2.2.2⟩

theorem handleNativeWindowingEvent_inv (hwnd : HWND) (uMsg wParam lParam : Nat) (now : Time)
    (s : State) (h : WindowInvariant s) :
    WindowInvariant (handleNativeWindowingEvent hwnd uMsg wParam lParam now s).2 := by
  unfold handleNativeWindowingEvent
  dsimp only
  have hs0 := WindowInvariant.of_timeOfLastCheckEvents h now
  have hsw := (handleNativeWindowingEvent.switch_spec hwnd uMsg wParam lParam
    s.window._timeOfLastCheckEvents _).inv hs0
  generalize handleNativeWindowingEvent.switch hwnd uMsg wParam lParam
    s.window._timeOfLastCheckEvents _ = sw at hsw ⊢
  obtain ⟨r, s2⟩ := sw
  cases r with
  | some r => exact hsw
  | none =>
    dsimp only at hsw ⊢
    split_ifs
    · exact hsw
    · exact hsw.of_world _ rfl
    · exact hsw.of_world _ rfl

theorem WindowProc_inv (hwnd : HWND) (uMsg wParam lParam : Nat) (now : Time)
    (s : State) (h : WindowInvariant s) :
    WindowInvariant (WindowProc hwnd uMsg wParam lParam now s).2 := by
  unfold WindowProc
  dsimp only
  split_ifs
  · exact h.of_world _ rfl
  · exact handleNativeWindowingEvent_inv _ _ _ _ _ _ h
  · exact h.of_world _ rfl

theorem WindowProc_foldl_inv (msgs : List MSG) (s : State) (h : WindowInvariant s) :
    WindowInvariant (msgs.foldl
      (fun st m => (WindowProc m.hwnd m.message m.wParam m.lParam m.now st).2) s) := by
  induction msgs generalizing s with
  | nil => exact h
  | cons m ms ih => exact ih _ (WindowProc_inv _ _ _ _ _ _ h)

theorem WindowInvariant.of_closeWindow {s : State} (h : WindowInvariant s) (b : Bool) :
    WindowInvariant { s with window := { s.window with _closeWindow := b } } :=
  ⟨h.1, h.2.1, h.2.2.1, h.2.2.2.1, h.2.2.2.2⟩

theorem WindowInvariant.of_destroyWindow {s : State} (h : WindowInvariant s) (b : Bool) :
    WindowInvariant { s with window := { s.window with _destroyWindow := b } } :=
  ⟨h.1, h.2.1, h.2.2.1, h.2.2.2.1, h.2.2.2.2⟩

theorem checkEvents_inv (d : Bool) (msgs : List MSG) (s : State) (h : WindowInvariant s) :
    WindowInvariant (checkEvents d msgs s) := by
  unfold checkEvents
  by_cases hr : s.window._realized = false
  · rw [if_pos hr]; exact h
  · rw [if_neg hr]
    have h1 := WindowProc_foldl_inv msgs s h
    dsimp only
    generalize msgs.foldl
      (fun st m => (WindowProc m.hwnd m.message m.wParam m.lParam m.now st).2) s = s1 at h1 ⊢
    have h2 : WindowInvariant (if s1.window._closeWindow = true then
        close d { s1 with window := { s1.window with _closeWindow := false } } else s1) := by
      split_ifs
      · exact closeImplementation_inv d _ (h1.of_closeWindow false)
      · exact h1
    generalize (if s1.window._closeWindow = true then
        close d { s1 with window := { s1.window with _closeWindow := false } } else s1) = s2
      at h2 ⊢
    split_ifs
    · exact destroyWindow_inv false _ (h2.of_destroyWindow false)
    · exact h2

theorem Reachable.invariant {d : Bool} {s : State} (h : Reachable d s) : WindowInvariant s := by
  induction h with
  | construct this traits w hreg => exact construct_inv d this traits w hreg
  | init s _ ih => exact init_inv d s ih
  | realize s _ ih => exact realizeImplementation_inv d s ih
  | close s _ ih => exact closeImplementation_inv d s ih
  | destroyWindow b s _ ih => exact destroyWindow_inv b s ih
  | checkEvents msgs s _ ih => exact checkEvents_inv d msgs s ih
  | message hwnd uMsg wParam lParam now s _ ih =>
    exact handleNativeWindowingEvent_inv hwnd uMsg wParam lParam now s ih
  | makeCurrent s _ ih =>
    obtain ⟨ok, w2, heq, -, hws, -⟩ := makeCurrentImplementation_spec s
    rw [heq]; exact ih.of_world w2 hws
  | releaseContext s _ ih =>
    obtain ⟨ok, w2, heq, -, hws⟩ := releaseContextImplementation_spec s
    rw [heq]; exact ih.of_world w2 hws
  | otherRegisters hwnd window s _ ih =>
    exact ⟨ih.1, ih.2.1, ih.2.2.1, ih.2.2.2.1,
      noNullHandle_registerWindow _ hwnd window ih.2.2.2.2⟩
  | otherUnregisters hwnd s _ ih =>
    exact ⟨ih.1, ih.2.1, ih.2.2.1, ih.2.2.2.1,
      noNullHandle_unregisterWindow _ hwnd ih.2.2.2.2⟩
  | environment oracle cc dd u s _ ih =>
    exact ⟨ih.1, ih.2.1, ih.2.2.1, ih.2.2.2.1, ih.2.2.2.2⟩

theorem WindowHandles.find_eq_none_of_forall_ne (m : WindowHandles) (k : HWND)
    (h : ∀ e ∈ m, e.1 ≠ k) : m.find k = none := by
  induction m with
  | nil => rfl
  | cons e m ih =>
    obtain ⟨a, b⟩ := e
    rw [WindowHandles.find_cons]
    have h1 : ¬ k = a := fun hk => h (a, b) (List.mem_cons_self _ _) hk.symm
    rw [if_neg h1]
    exact ih (fun e he => h e (List.mem_cons_of_mem _ he))

theorem find_unregisterWindow_self (ws : Win32WindowingSystem) (h : HWND)
    (hn : ws.noNullHandle) : (ws.unregisterWindow h)._activeWindows.find h = none := by
  unfold Win32WindowingSystem.unregisterWindow
  by_cases hh : h = 0
  · subst hh
    rw [if_neg (by simp)]
    exact WindowHandles.find_eq_none_of_forall_ne _ _ hn
  · rw [if_pos hh]
    exact WindowHandles.find_erase_self _ _

/-- C8: `destroyWindow` always ends fully uninitialized.  From every state reachable through
the operations of the window (construction, `init`, realize, close, `destroyWindow`,
`checkEvents`, message handling, and the steps of the environment), for either value of
`deleteNativeWindow` and every outcome of the native calls, after `destroyWindow` the flags
initialized, realized and valid are false, the window, device-context and rendering-context
handles are null, the reentrancy flag is clear, and the registry has no entry for the handle
the window held. -/
theorem destroyWindow_fully_uninitialized (d deleteNativeWindow : Bool) (s : State)
    (hr : Reachable d s) :
    (destroyWindow deleteNativeWindow s).window._initialized = false
      ∧ (destroyWindow deleteNativeWindow s).window._realized = false
      ∧ (destroyWindow deleteNativeWindow s).window._valid = false
      ∧ (destroyWindow deleteNativeWindow s).window._hwnd = 0
      ∧ (destroyWindow deleteNativeWindow s).window._hdc = 0
      ∧ (destroyWindow deleteNativeWindow s).window._hglrc = 0
      ∧ (destroyWindow deleteNativeWindow s).window._destroying = false
      ∧ (destroyWindow deleteNativeWindow s).world.windowingSystem._activeWindows.find
          s.window._hwnd = none := by
  obtain ⟨h1, h2, -, -, h5⟩ := hr.invariant
  obtain ⟨wp, hf, hws⟩ := destroyWindow_fields deleteNativeWindow s h1
  rw [hf, hws]
  refine ⟨rfl, rfl, rfl, rfl, rfl, ?_, rfl, find_unregisterWindow_self _ _ h5⟩
  dsimp only
  split_ifs with hz
  · exact h2 hz
  · rfl

/-- Witness of `destroyWindow_fully_uninitialized` : the window constructed (and so
initialized) in a world where every native call succeeds. -/
theorem destroyWindow_fully_uninitialized_witness :
    Reachable true (constructedWindow true)
      ∧ ((destroyWindow true (constructedWindow true)).window._initialized = false
        ∧ (destroyWindow true (constructedWindow true)).window._realized = false
        ∧ (destroyWindow true (constructedWindow true)).window._valid = false
        ∧ (destroyWindow true (constructedWindow true)).window._hwnd = 0
        ∧ (destroyWindow true (constructedWindow true)).window._hdc = 0
        ∧ (destroyWindow true (constructedWindow true)).window._hglrc = 0
        ∧ (destroyWindow true (constructedWindow true)).window._destroying = false
        ∧ (destroyWindow true (constructedWindow true)).world.windowingSystem._activeWindows.find
            (constructedWindow true).window._hwnd = none) :=
  ⟨Reachable.construct 1 _ _ (by intro e he; cases he),
    destroyWindow_fully_uninitialized true true (constructedWindow true)
      (Reachable.construct 1 _ _ (by intro e he; cases he))⟩

theorem destroyWindow_mem_DestroyWindow (b : Bool) (s : State)
    (hdes : s.window._destroying = false) (h : HWND) :
    NativeCall.DestroyWindow h ∈ (destroyWindow b s).world.callsSince s.world
      ↔ h = s.window._hwnd ∧ s.window._hwnd ≠ 0 ∧ s.window._ownsWindow = true ∧ b = true := by
  rw [destroyWindow_calls b s hdes]
  have hA : NativeCall.DestroyWindow h ∉ (if s.window._hdc ≠ 0 then
      [NativeCall.wglMakeCurrent s.window._hdc 0]
        ++ (if s.window._hglrc ≠ 0 then [NativeCall.wglDeleteContext s.window._hglrc] else [])
        ++ [NativeCall.ReleaseDC s.window._hwnd s.window._hdc]
      else []) := by
    split_ifs <;> simp
  have hB : NativeCall.DestroyWindow h ∉ (if s.window._windowProcedure ≠ 0 ∧ s.window._hwnd ≠ 0
      then [NativeCall.SetWindowLongPtr s.window._hwnd
        (WndProcValue.saved s.window._windowProcedure)] else []) := by
    split_ifs <;> simp
  simp only [List.mem_append, hA, hB, false_or]
  by_cases h4 : s.window._hwnd ≠ 0 ∧ s.window._ownsWindow = true ∧ b = true
  · rw [if_pos h4]
    simp only [List.mem_singleton, NativeCall.DestroyWindow.injEq]
    exact ⟨fun he => ⟨he, h4⟩, fun he => he.1⟩
  · rw [if_neg h4]
    simp only [List.not_mem_nil, false_iff]
    exact fun he => h4 he.2

/-- C9: ownership of native destruction.  `destroyWindow(deleteNativeWindow)`, entered with
the reentrancy flag clear, issues the native destroy-window call, on the handle of the window
and on no other, if and only if the handle is non-null, the window owns it and
`deleteNativeWindow` is true.  In particular, in every reachable state of a window which
adopted an externally supplied handle (its Traits carry an inherited window), no call of
`destroyWindow` issues a destroy-window call. -/
theorem destroyWindow_destroys_iff_owned (deleteNativeWindow : Bool) (s : State)
    (hdes : s.window._destroying = false) :
    (∀ h : HWND,
        NativeCall.DestroyWindow h ∈ (destroyWindow deleteNativeWindow s).world.callsSince s.world
          ↔ h = s.window._hwnd ∧ s.window._hwnd ≠ 0 ∧ s.window._ownsWindow = true
              ∧ deleteNativeWindow = true)
      ∧ (∀ d : Bool, Reachable d s → s.window._traits.inheritedWindowData ≠ 0 →
          ∀ h : HWND, NativeCall.DestroyWindow h
            ∉ (destroyWindow deleteNativeWindow s).world.callsSince s.world) := by
  refine ⟨destroyWindow_mem_DestroyWindow deleteNativeWindow s hdes, fun d hr hin h hmem => ?_⟩
  have ho := ((destroyWindow_mem_DestroyWindow deleteNativeWindow s hdes h).mp hmem).2.2.1
  rw [hr.invariant.2.2.2.1] at ho
  exact hin (of_decide_eq_true ho)

/-- Witness of `destroyWindow_destroys_iff_owned` : the window constructed over the
externally supplied native window `77`, which is reachable and whose Traits carry the
inherited window. -/
theorem destroyWindow_destroys_iff_owned_witness :
    (adoptedWindow true).window._destroying = false
      ∧ Reachable true (adoptedWindow true)
      ∧ (adoptedWindow true).window._traits.inheritedWindowData ≠ 0
      ∧ ((∀ h : HWND,
          NativeCall.DestroyWindow h
              ∈ (destroyWindow true (adoptedWindow true)).world.callsSince
                  (adoptedWindow true).world
            ↔ h = (adoptedWindow true).window._hwnd ∧ (adoptedWindow true).window._hwnd ≠ 0
                ∧ (adoptedWindow true).window._ownsWindow = true ∧ true = true)
        ∧ (∀ d : Bool, Reachable d (adoptedWindow true) →
            (adoptedWindow true).window._traits.inheritedWindowData ≠ 0 →
            ∀ h : HWND, NativeCall.DestroyWindow h
              ∉ (destroyWindow true (adoptedWindow true)).world.callsSince
                  (adoptedWindow true).world)) :=
  ⟨by decide, Reachable.construct 1 _ _ (by intro e he; cases he), by decide,
    destroyWindow_destroys_iff_owned true (adoptedWindow true) (by decide)⟩

theorem realizeImplementation.initAndShare_of_initialized (d : Bool) (s : State)
    (hi : s.window._initialized = true) : realizeImplementation.initAndShare d s = (true, s) := by
  unfold realizeImplementation.initAndShare
  rw [if_neg (by simp [hi])]

/-- C6 fails on the code.  The window `sharingWindow` was initialized by its constructor, is
not realized, and its Traits configure as shared context a Win32 window holding the
rendering context `9`.  With every native call succeeding, `realizeImplementation` returns
true and the window is realized, but the only native calls it issues are the two which show
the window: no call since the construction of the world is a share-lists call. -/
theorem realizeImplementation_constructed_skips_sharing :
    (sharingWindow true).window._traits.sharedContext = SharedContext.win32 9
      ∧ (sharingWindow true).window._initialized = true
      ∧ (sharingWindow true).window._realized = false
      ∧ (realizeImplementation true (sharingWindow true)).1 = true
      ∧ (realizeImplementation true (sharingWindow true)).2.window._realized = true
      ∧ (realizeImplementation true (sharingWindow true)).2.world.callsSince
            (sharingWindow true).world
          = [NativeCall.SetWindowPos 100 0 0 800 600 SWP_SHOWWINDOW, NativeCall.UpdateWindow 100]
      ∧ (calls (realizeImplementation true (sharingWindow true)).2.world.trace).all
          (fun c => !c.isShareLists) = true := by
  decide

theorem sharedContext_of_corrected {t t0 : Traits}
    (h : t = t0 ∨ ∃ bpp : Nat, t = correctedTraits t0 bpp) :
    t.sharedContext = t0.sharedContext := by
  rcases h with h | ⟨bpp, h⟩
  · rw [h]
  · rw [h]; rfl

theorem screenNum_of_corrected {t t0 : Traits}
    (h : t = t0 ∨ ∃ bpp : Nat, t = correctedTraits t0 bpp) :
    t.screenNum = t0.screenNum := by
  rcases h with h | ⟨bpp, h⟩
  · rw [h]
  · rw [h]; rfl

/-- C11 fails on the code.  The complete handle `completeHandle` (rendering context `60`) is
made current with `makeCurrent(80, true)` while the rendering context `70` is current:
the call succeeds and `60` is current.  The destructor then binds `70` again on the
device context `80`, and right after unbinds with `wglMakeCurrent(50, NULL)` before it
deletes `60` : when it is done no rendering context is current, not `70`. -/
theorem OpenGLContext.destructor_loses_restored_context :
    (completeHandle.makeCurrent 80 true (worldWithCurrent 70)).1 = true
      ∧ (completeHandle.makeCurrent 80 true (worldWithCurrent 70)).2.2.currentContext = 60
      ∧ calls (OpenGLContext.destructor
            (completeHandle.makeCurrent 80 true (worldWithCurrent 70)).2.1
            (completeHandle.makeCurrent 80 true (worldWithCurrent 70)).2.2).trace
          = [NativeCall.wglMakeCurrent 50 60, NativeCall.wglMakeCurrent 80 70,
             NativeCall.wglMakeCurrent 50 0, NativeCall.wglDeleteContext 60,
             NativeCall.ReleaseDC 40 50, NativeCall.DestroyWindow 40]
      ∧ (OpenGLContext.destructor
            (completeHandle.makeCurrent 80 true (worldWithCurrent 70)).2.1
            (completeHandle.makeCurrent 80 true (worldWithCurrent 70)).2.2).currentContext = 0
      ∧ (OpenGLContext.destructor
            (completeHandle.makeCurrent 80 true (worldWithCurrent 70)).2.1
            (completeHandle.makeCurrent 80 true (worldWithCurrent 70)).2.2).currentContext
          ≠ 70 := by
  decide

theorem OpenGLContext.destructor_currentContext (c : OpenGLContext) (w : World)
    (hg : c._hglrc ≠ 0) (hall : w.allSucceed) : (c.destructor w).currentContext = 0 := by
  unfold OpenGLContext.destructor
  dsimp only
  rw [if_pos hg]
  generalize hw1 : (if c._restorePreviousOnExit = true ∧ c._previousHglrc ≠ c._hglrc then
      (w.wglMakeCurrent c._previousHdc c._previousHglrc).2 else w) = w1
  have h1 : w1.allSucceed := by
    rw [← hw1]
    split_ifs
    · exact World.allSucceed_of_ext hall (World.wglMakeCurrent_ext _ _ (World.Extends.refl _))
    · exact hall
  have h2 : (w1.wglMakeCurrent c._hdc 0).2.currentContext = 0 := by
    have hok := (h1 w1.trace.length).1
    have hok2 : (w1.oracle w1.trace.length).ok = true := by
      simp [NativeResult.ok]; omega
    simp [World.wglMakeCurrent, World.native, hok2]
  split_ifs <;> simp only [World.native_currentContext, h2]

/-- C12, as the claim states it, fails: with the restore-on-release argument false, the
complete handle `completeHandle`, whose rendering context `60` is already current, issues
the native bind call all the same. -/
theorem OpenGLContext.makeCurrent_rebinds_without_restore :
    (worldWithCurrent 60).currentContext = completeHandle._hglrc
      ∧ (completeHandle.makeCurrent 0 false (worldWithCurrent 60)).1 = true
      ∧ (completeHandle.makeCurrent 0 false (worldWithCurrent 60)).2.2.callsSince
            (worldWithCurrent 60)
          = [NativeCall.wglMakeCurrent 50 60] := by
  decide

/-- C12 (amended): for every handle whose device context and rendering context are set and
whose rendering context is already current on the thread, `makeCurrent` with the
restore-on-release argument true returns true and issues no native call (the world is
unchanged); with the argument false it issues the native bind call, once and as its only
native call, and returns the outcome of that call. -/
theorem OpenGLContext.makeCurrent_already_current (c : OpenGLContext) (restoreOnHdc : HDC)
    (w : World) (hdc : c._hdc ≠ 0) (hglrc : c._hglrc ≠ 0)
    (hcur : w.currentContext = c._hglrc) :
    (c.makeCurrent restoreOnHdc true w).1 = true
      ∧ (c.makeCurrent restoreOnHdc true w).2.2 = w
      ∧ (c.makeCurrent restoreOnHdc false w).2.2.callsSince w
          = [NativeCall.wglMakeCurrent c._hdc c._hglrc]
      ∧ (c.makeCurrent restoreOnHdc false w).1 = (w.oracle w.trace.length).ok := by
  have hd : ¬ c._hdc = 0 := hdc
  have hne : ¬ c._hglrc = 0 := hglrc
  by_cases hok : (w.oracle w.trace.length).ok = true
  · simp [OpenGLContext.makeCurrent, hd, hcur, hne, World.wglMakeCurrent, World.native, hok,
      World.callsSince, calls]
  · simp [OpenGLContext.makeCurrent, hd, hcur, hne, World.wglMakeCurrent, World.native, hok,
      World.callsSince, calls]

/-- Witness of `OpenGLContext.makeCurrent_already_current` : the handle `completeHandle`
while its rendering context `60` is current. -/
theorem OpenGLContext.makeCurrent_already_current_witness :
    completeHandle._hdc ≠ 0 ∧ completeHandle._hglrc ≠ 0
      ∧ (worldWithCurrent 60).currentContext = completeHandle._hglrc
      ∧ ((completeHandle.makeCurrent 80 true (worldWithCurrent 60)).1 = true
        ∧ (completeHandle.makeCurrent 80 true (worldWithCurrent 60)).2.2 = worldWithCurrent 60
        ∧ (completeHandle.makeCurrent 80 false (worldWithCurrent 60)).2.2.callsSince
              (worldWithCurrent 60)
            = [NativeCall.wglMakeCurrent completeHandle._hdc completeHandle._hglrc]
        ∧ (completeHandle.makeCurrent 80 false (worldWithCurrent 60)).1
            = ((worldWithCurrent 60).oracle (worldWithCurrent 60).trace.length).ok) :=
  ⟨by decide, by decide, rfl,
    OpenGLContext.makeCurrent_already_current completeHandle 80 (worldWithCurrent 60)
      (by decide) (by decide) rfl⟩

/-- C13, as the claim states it, fails: the handle `handleWithoutWindow` has no native
window, and `makeCurrent` issues the native bind call and returns true. -/
theorem OpenGLContext.makeCurrent_ignores_window_handle :
    handleWithoutWindow._hwnd = 0
      ∧ (handleWithoutWindow.makeCurrent 0 false (worldWithCurrent 0)).1 = true
      ∧ (handleWithoutWindow.makeCurrent 0 false (worldWithCurrent 0)).2.2.callsSince
            (worldWithCurrent 0)
          = [NativeCall.wglMakeCurrent 50 60] := by
  decide

/-- C13 (amended): `makeCurrent` fails on an unset device context or rendering context, and
does not look at the native window handle.  Whenever the device context or the rendering
context of the handle is unset, `makeCurrent` returns false, issues no native call and
leaves the handle as it was.  Whenever the native bind call is issued and fails,
`makeCurrent` returns false and the restore-on-exit flag is left as it was.  The result, the
world and the flag do not depend on the native window handle. -/
theorem OpenGLContext.makeCurrent_failure (c : OpenGLContext) (restoreOnHdc : HDC)
    (restorePreviousOnExit : Bool) (w : World) :
    ((c._hdc = 0 ∨ c._hglrc = 0) →
        c.makeCurrent restoreOnHdc restorePreviousOnExit w = (false, c, w))
      ∧ (∀ e ∈ (c.makeCurrent restoreOnHdc restorePreviousOnExit w).2.2.eventsSince w,
          e.result.ok = false →
            e.call = NativeCall.wglMakeCurrent c._hdc c._hglrc
              ∧ (c.makeCurrent restoreOnHdc restorePreviousOnExit w).1 = false
              ∧ (c.makeCurrent restoreOnHdc restorePreviousOnExit w).2.1._restorePreviousOnExit
                  = c._restorePreviousOnExit)
      ∧ (∀ hwnd : HWND,
          (OpenGLContext.makeCurrent { c with _hwnd := hwnd } restoreOnHdc
              restorePreviousOnExit w).1
              = (c.makeCurrent restoreOnHdc restorePreviousOnExit w).1
            ∧ (OpenGLContext.makeCurrent { c with _hwnd := hwnd } restoreOnHdc
                restorePreviousOnExit w).2.2
              = (c.makeCurrent restoreOnHdc restorePreviousOnExit w).2.2
            ∧ (OpenGLContext.makeCurrent { c with _hwnd := hwnd } restoreOnHdc
                restorePreviousOnExit w).2.1._restorePreviousOnExit
              = (c.makeCurrent restoreOnHdc restorePreviousOnExit w).2.1._restorePreviousOnExit)
        := by
  refine ⟨fun h => by simp only [OpenGLContext.makeCurrent, if_pos h], ?_, ?_⟩
  · intro e he hfail
    by_cases h0 : c._hdc = 0 ∨ c._hglrc = 0
    · simp [OpenGLContext.makeCurrent, if_pos h0, World.eventsSince] at he
    · have hd : ¬ c._hdc = 0 := fun h => h0 (Or.inl h)
      have hg : ¬ c._hglrc = 0 := fun h => h0 (Or.inr h)
      by_cases h1 : c._hglrc = (if restorePreviousOnExit = true then w.currentContext else 0)
      · simp [OpenGLContext.makeCurrent, hd, hg, ← h1, World.eventsSince] at he
      · by_cases hok : (w.oracle w.trace.length).ok = true
        · simp [OpenGLContext.makeCurrent, hd, hg, h1, World.wglMakeCurrent, World.native, hok,
            World.eventsSince] at he
          subst he
          simp [hok] at hfail
        · simp [OpenGLContext.makeCurrent, hd, hg, h1, World.wglMakeCurrent, World.native, hok,
            World.eventsSince] at he ⊢
          rw [he]
  · intro hwnd
    by_cases h0 : c._hdc = 0 ∨ c._hglrc = 0
    · simp only [OpenGLContext.makeCurrent, if_pos h0]
      exact ⟨trivial, trivial, trivial⟩
    · have hd : ¬ c._hdc = 0 := fun h => h0 (Or.inl h)
      have hg : ¬ c._hglrc = 0 := fun h => h0 (Or.inr h)
      by_cases h1 : c._hglrc = (if restorePreviousOnExit = true then w.currentContext else 0)
      · simp [OpenGLContext.makeCurrent, hd, hg, ← h1]
      · by_cases hok : (w.oracle w.trace.length).ok = true
        · simp [OpenGLContext.makeCurrent, hd, hg, h1, World.wglMakeCurrent, World.native, hok]
        · simp [OpenGLContext.makeCurrent, hd, hg, h1, World.wglMakeCurrent, World.native, hok]

/-- Witness of `OpenGLContext.makeCurrent_failure` : the empty handle, for which no call is
issued, and the handle `completeHandle` in a world where the native bind call fails. -/
theorem OpenGLContext.makeCurrent_failure_witness :
    (({} : OpenGLContext)._hdc = 0 ∨ ({} : OpenGLContext)._hglrc = 0)
      ∧ OpenGLContext.makeCurrent {} 80 true (worldWithCurrent 70)
          = (false, {}, worldWithCurrent 70)
      ∧ (⟨NativeCall.wglMakeCurrent 50 60, {}⟩ : NativeEvent)
          ∈ (completeHandle.makeCurrent 80 true (failingWorld 70)).2.2.eventsSince
              (failingWorld 70)
      ∧ (completeHandle.makeCurrent 80 true (failingWorld 70)).1 = false
      ∧ (completeHandle.makeCurrent 80 true (failingWorld 70)).2.1._restorePreviousOnExit
          = completeHandle._restorePreviousOnExit :=
  ⟨Or.inl rfl,
    (OpenGLContext.makeCurrent_failure {} 80 true (worldWithCurrent 70)).1 (Or.inl rfl),
    by decide,
    ((OpenGLContext.makeCurrent_failure completeHandle 80 true (failingWorld 70)).2.1
      ⟨NativeCall.wglMakeCurrent 50 60, {}⟩ (by decide) (by decide)).2⟩

/-! ## Theorems : key adaptation -/

theorem and_two_pow_ne_zero_iff (x n : Nat) : (x &&& 2 ^ n ≠ 0) ↔ x.testBit n = true := by
  constructor
  · intro h
    by_contra hb
    apply h
    apply Nat.eq_of_testBit_eq
    intro i
    simp only [Nat.testBit_and, Nat.testBit_two_pow, Nat.zero_testBit]
    by_cases hi : n = i
    · subst hi; simp [hb]
    · simp [hi]
  · intro h h0
    have := congrArg (fun y => Nat.testBit y n) h0
    simp [Nat.testBit_and, Nat.testBit_two_pow, h] at this

theorem rightSide_eq_testBit (lParam : Nat) :
    ((lParam &&& 0x01000000) != 0) = lParam.testBit 24 := by
  have h := and_two_pow_ne_zero_iff lParam 24
  have e : (2 : Nat) ^ 24 = 0x01000000 := by norm_num
  rw [e] at h
  by_cases hb : lParam.testBit 24 = true
  · rw [hb]; simpa using h.mpr hb
  · have hb2 : lParam.testBit 24 = false := by simpa using hb
    rw [hb2]
    have : ¬ (lParam &&& 0x01000000 ≠ 0) := fun hh => hb (h.mp hh)
    simpa using this


theorem remapWin32Key_VK_RCONTROL : remapWin32Key VK_RCONTROL = KEY_Control_R := by decide
theorem remapWin32Key_VK_LCONTROL : remapWin32Key VK_LCONTROL = KEY_Control_L := by decide
theorem remapWin32Key_VK_RETURN : remapWin32Key VK_RETURN = KEY_Return := by decide

theorem World.native_trace_length (w : World) (c : NativeCall) :
    (w.native c).2.trace.length = w.trace.length + 1 := by
  simp [World.native]

theorem adaptKey_of_control (wParam lParam : Nat) (w : World)
    (hvk : (w.oracle w.trace.length).ret = VK_CONTROL
      ∨ (w.oracle w.trace.length).ret = VK_LCONTROL)
    (hks : (w.oracle (w.trace.length + 1)).ok = true) :
    (adaptKey wParam lParam w).1
        = (if lParam.testBit 24 = true then KEY_Control_R else KEY_Control_L)
      ∧ ∃ locks : Nat, (locks = 0 ∨ locks = MODKEY_CAPS_LOCK ∨ locks = MODKEY_NUM_LOCK
            ∨ locks = MODKEY_CAPS_LOCK ||| MODKEY_NUM_LOCK)
          ∧ (adaptKey wParam lParam w).2.1
            = (if lParam.testBit 24 = true then MODKEY_RIGHT_CTRL else MODKEY_LEFT_CTRL)
                ||| locks := by
  have hne : (w.oracle w.trace.length).ret ≠ 0 := by
    rcases hvk with h | h <;> rw [h] <;> decide
  have h1 : ¬ (w.oracle w.trace.length).ret = VK_LSHIFT := by
    rcases hvk with h | h <;> rw [h] <;> decide
  have h2 : ¬ (w.oracle w.trace.length).ret = VK_RSHIFT := by
    rcases hvk with h | h <;> rw [h] <;> decide
  unfold adaptKey
  lift_lets
  intro rightSide rm virtualKey rk km mask1 mask2 keySymbol ra
  have e0 : virtualKey = (w.oracle w.trace.length).ret := rfl
  have e1 : rk.1.ok = true := by
    simpa [rk, rm, World.native] using hks
  have ers : rightSide = lParam.testBit 24 := rightSide_eq_testBit lParam
  have ekm : km = (if rightSide = true then VK_RCONTROL else VK_LCONTROL,
      if rightSide = true then MODKEY_RIGHT_CTRL else MODKEY_LEFT_CTRL) := by
    show (if virtualKey = VK_LSHIFT then _ else _) = _
    rw [e0, if_neg h1, if_neg h2, if_pos hvk]
  have eks : keySymbol = (if rightSide = true then KEY_Control_R else KEY_Control_L) := by
    show remapWin32Key km.1 = _
    rw [ekm]
    cases rightSide
    · exact remapWin32Key_VK_LCONTROL
    · exact remapWin32Key_VK_RCONTROL
  have hnr : ¬ (keySymbol = KEY_Return ∧ rightSide = true) := by
    rw [eks]; cases rightSide <;> decide
  have hhi : ¬ ((toUInt32 keySymbol) &&& 0xff00 = 0) := by
    rw [eks]; cases rightSide <;> decide
  rw [if_neg (by rw [e0]; exact hne), if_neg (by simp [e1]), if_neg hnr, if_neg hhi]
  dsimp only
  refine ⟨by rw [eks, ers], ?_⟩
  have em : mask2 = (if rk.1.out2 % 2 = 1 then
      (if rk.1.out1 % 2 = 1 then km.2 ||| MODKEY_CAPS_LOCK else km.2) ||| MODKEY_NUM_LOCK
      else (if rk.1.out1 % 2 = 1 then km.2 ||| MODKEY_CAPS_LOCK else km.2)) := rfl
  rw [em, ekm, ← ers]
  dsimp only
  by_cases c1 : rk.1.out1 % 2 = 1 <;> by_cases c2 : rk.1.out2 % 2 = 1
  · rw [if_pos c1, if_pos c2]
    exact ⟨_, Or.inr (Or.inr (Or.inr rfl)), by rw [Nat.lor_assoc]⟩
  · rw [if_pos c1, if_neg c2]
    exact ⟨_, Or.inr (Or.inl rfl), rfl⟩
  · rw [if_neg c1, if_pos c2]
    exact ⟨_, Or.inr (Or.inr (Or.inl rfl)), rfl⟩
  · rw [if_neg c1, if_neg c2]
    exact ⟨0, Or.inl rfl, by simp⟩

/-- C14: right Control.  For every key message whose scan code `MapVirtualKeyEx` maps to
`VK_CONTROL` or `VK_LCONTROL`, with the keyboard state readable: when the extended-key bit
(bit 24 of `lParam`) is set, `adaptKey` yields the key symbol `KEY_Control_R` and a modifier
mask which contains the right-control bit and, of the six left / right Shift, Control and Alt
bits, no other; when the bit is clear it yields `KEY_Control_L` and a mask which contains
the left-control bit and no other of the six. -/
theorem adaptKey_right_control (wParam lParam : Nat) (w : World)
    (hvk : (w.oracle w.trace.length).ret = VK_CONTROL
      ∨ (w.oracle w.trace.length).ret = VK_LCONTROL)
    (hks : (w.oracle (w.trace.length + 1)).ok = true) :
    (lParam.testBit 24 = true →
        (adaptKey wParam lParam w).1 = KEY_Control_R
          ∧ (adaptKey wParam lParam w).2.1 &&& MODKEY_RIGHT_CTRL = MODKEY_RIGHT_CTRL
          ∧ (adaptKey wParam lParam w).2.1 &&& MODKEY_LEFT_CTRL = 0
          ∧ (adaptKey wParam lParam w).2.1
                &&& (MODKEY_LEFT_SHIFT ||| MODKEY_RIGHT_SHIFT ||| MODKEY_LEFT_CTRL
                  ||| MODKEY_RIGHT_CTRL ||| MODKEY_LEFT_ALT ||| MODKEY_RIGHT_ALT)
              = MODKEY_RIGHT_CTRL)
      ∧ (lParam.testBit 24 = false →
        (adaptKey wParam lParam w).1 = KEY_Control_L
          ∧ (adaptKey wParam lParam w).2.1 &&& MODKEY_LEFT_CTRL = MODKEY_LEFT_CTRL
          ∧ (adaptKey wParam lParam w).2.1 &&& MODKEY_RIGHT_CTRL = 0
          ∧ (adaptKey wParam lParam w).2.1
                &&& (MODKEY_LEFT_SHIFT ||| MODKEY_RIGHT_SHIFT ||| MODKEY_LEFT_CTRL
                  ||| MODKEY_RIGHT_CTRL ||| MODKEY_LEFT_ALT ||| MODKEY_RIGHT_ALT)
              = MODKEY_LEFT_CTRL) := by
  obtain ⟨hsym, locks, hl, hmask⟩ := adaptKey_of_control wParam lParam w hvk hks
  rw [hsym, hmask]
  constructor
  · intro hb
    rw [if_pos hb, if_pos hb]
    rcases hl with h | h | h | h <;> rw [h] <;> decide
  · intro hb
    rw [if_neg (by simp [hb]), if_neg (by simp [hb])]
    rcases hl with h | h | h | h <;> rw [h] <;> decide

/-- Witness of `adaptKey_right_control` : the key message of the right Control key (scan
code `0x1D`, extended-key bit set) handled in a world whose first native call,
`MapVirtualKeyEx`, answers `VK_CONTROL`. -/
theorem adaptKey_right_control_witness :
    (((keyboardWorld VK_CONTROL).oracle (keyboardWorld VK_CONTROL).trace.length).ret
          = VK_CONTROL
        ∨ ((keyboardWorld VK_CONTROL).oracle (keyboardWorld VK_CONTROL).trace.length).ret
          = VK_LCONTROL)
      ∧ ((keyboardWorld VK_CONTROL).oracle
          ((keyboardWorld VK_CONTROL).trace.length + 1)).ok = true
      ∧ Nat.testBit 0x011D0001 24 = true
      ∧ ((Nat.testBit 0x011D0001 24 = true →
          (adaptKey 0x11 0x011D0001 (keyboardWorld VK_CONTROL)).1 = KEY_Control_R
            ∧ (adaptKey 0x11 0x011D0001 (keyboardWorld VK_CONTROL)).2.1 &&& MODKEY_RIGHT_CTRL
                = MODKEY_RIGHT_CTRL
            ∧ (adaptKey 0x11 0x011D0001 (keyboardWorld VK_CONTROL)).2.1 &&& MODKEY_LEFT_CTRL
                = 0
            ∧ (adaptKey 0x11 0x011D0001 (keyboardWorld VK_CONTROL)).2.1
                  &&& (MODKEY_LEFT_SHIFT ||| MODKEY_RIGHT_SHIFT ||| MODKEY_LEFT_CTRL
                    ||| MODKEY_RIGHT_CTRL ||| MODKEY_LEFT_ALT ||| MODKEY_RIGHT_ALT)
                = MODKEY_RIGHT_CTRL)
        ∧ (Nat.testBit 0x011D0001 24 = false →
          (adaptKey 0x11 0x011D0001 (keyboardWorld VK_CONTROL)).1 = KEY_Control_L
            ∧ (adaptKey 0x11 0x011D0001 (keyboardWorld VK_CONTROL)).2.1 &&& MODKEY_LEFT_CTRL
                = MODKEY_LEFT_CTRL
            ∧ (adaptKey 0x11 0x011D0001 (keyboardWorld VK_CONTROL)).2.1 &&& MODKEY_RIGHT_CTRL
                = 0
            ∧ (adaptKey 0x11 0x011D0001 (keyboardWorld VK_CONTROL)).2.1
                  &&& (MODKEY_LEFT_SHIFT ||| MODKEY_RIGHT_SHIFT ||| MODKEY_LEFT_CTRL
                    ||| MODKEY_RIGHT_CTRL ||| MODKEY_LEFT_ALT ||| MODKEY_RIGHT_ALT)
                = MODKEY_LEFT_CTRL)) :=
  ⟨Or.inl (by decide), by decide, by decide,
    adaptKey_right_control 0x11 0x011D0001 (keyboardWorld VK_CONTROL) (Or.inl (by decide))
      (by decide)⟩

/-- C15: right Enter.  For every key message with `wParam = VK_RETURN` whose scan code
`MapVirtualKeyEx` maps to a non-zero virtual key which is none of the Shift, Control and Alt
keys that `adaptKey` tells apart, with the keyboard state readable, `adaptKey` yields the
key symbol `KEY_KP_Enter` when the extended-key bit (bit 24 of `lParam`) is set and
`KEY_Return` when it is clear.  The character conversion has no part in it: the only native
calls issued are `MapVirtualKeyEx` and `GetKeyboardState`, `ToAscii` is not called. -/
theorem adaptKey_return (wParam lParam : Nat) (w : World)
    (hw : Int.ofNat wParam = VK_RETURN)
    (h0 : (w.oracle w.trace.length).ret ≠ 0)
    (h1 : (w.oracle w.trace.length).ret ≠ VK_LSHIFT)
    (h2 : (w.oracle w.trace.length).ret ≠ VK_RSHIFT)
    (h3 : (w.oracle w.trace.length).ret ≠ VK_CONTROL)
    (h4 : (w.oracle w.trace.length).ret ≠ VK_LCONTROL)
    (h5 : (w.oracle w.trace.length).ret ≠ VK_MENU)
    (h6 : (w.oracle w.trace.length).ret ≠ VK_LMENU)
    (hks : (w.oracle (w.trace.length + 1)).ok = true) :
    (adaptKey wParam lParam w).1
        = (if lParam.testBit 24 = true then KEY_KP_Enter else KEY_Return)
      ∧ (adaptKey wParam lParam w).2.2.callsSince w
          = [NativeCall.MapVirtualKeyEx ((lParam >>> 16) &&& 0xff),
             NativeCall.GetKeyboardState] := by
  have hw13 : wParam = 13 := by
    have : Int.ofNat wParam = Int.ofNat 13 := hw
    exact Int.ofNat.inj this
  subst hw13
  unfold adaptKey
  lift_lets
  intro rightSide rm virtualKey rk km mask1 mask2 keySymbol ra
  have e0 : virtualKey = (w.oracle w.trace.length).ret := rfl
  have e1 : rk.1.ok = true := by
    simpa [rk, rm, World.native] using hks
  have ers : rightSide = lParam.testBit 24 := rightSide_eq_testBit lParam
  have ekm : km = (toInt32 13, 0) := by
    show (if virtualKey = VK_LSHIFT then _ else _) = _
    rw [e0, if_neg h1, if_neg h2, if_neg (by rintro (h | h); exact h3 h; exact h4 h),
      if_neg (by rintro (h | h); exact h5 h; exact h6 h)]
  have eks : keySymbol = KEY_Return := by
    show remapWin32Key km.1 = _
    rw [ekm]
    exact remapWin32Key_VK_RETURN
  have hcalls : rk.2.callsSince w
      = [NativeCall.MapVirtualKeyEx ((lParam >>> 16) &&& 0xff),
         NativeCall.GetKeyboardState] := by
    simp [rk, rm, World.native, World.callsSince, calls]
  rw [if_neg (by rw [e0]; exact h0), if_neg (by simp [e1])]
  by_cases hb : rightSide = true
  · rw [if_pos ⟨eks, hb⟩]
    dsimp only
    rw [← ers, if_pos hb]
    exact ⟨rfl, hcalls⟩
  · have hhi : ¬ ((toUInt32 keySymbol) &&& 0xff00 = 0) := by
      rw [eks]; decide
    rw [if_neg (fun h => hb h.2), if_neg hhi]
    dsimp only
    rw [← ers, if_neg hb]
    exact ⟨eks, hcalls⟩

/-- Witness of `adaptKey_return` : the key message of the numeric-pad Enter key (scan code
`0x1C`, extended-key bit set, `wParam = VK_RETURN`) handled in a world whose first native
call, `MapVirtualKeyEx`, answers `VK_RETURN`. -/
theorem adaptKey_return_witness :
    Int.ofNat 13 = VK_RETURN
      ∧ ((keyboardWorld VK_RETURN).oracle (keyboardWorld VK_RETURN).trace.length).ret ≠ 0
      ∧ ((keyboardWorld VK_RETURN).oracle (keyboardWorld VK_RETURN).trace.length).ret
          ≠ VK_LSHIFT
      ∧ ((keyboardWorld VK_RETURN).oracle (keyboardWorld VK_RETURN).trace.length).ret
          ≠ VK_RSHIFT
      ∧ ((keyboardWorld VK_RETURN).oracle (keyboardWorld VK_RETURN).trace.length).ret
          ≠ VK_CONTROL
      ∧ ((keyboardWorld VK_RETURN).oracle (keyboardWorld VK_RETURN).trace.length).ret
          ≠ VK_LCONTROL
      ∧ ((keyboardWorld VK_RETURN).oracle (keyboardWorld VK_RETURN).trace.length).ret
          ≠ VK_MENU
      ∧ ((keyboardWorld VK_RETURN).oracle (keyboardWorld VK_RETURN).trace.length).ret
          ≠ VK_LMENU
      ∧ ((keyboardWorld VK_RETURN).oracle
          ((keyboardWorld VK_RETURN).trace.length + 1)).ok = true
      ∧ ((adaptKey 13 0x011C0001 (keyboardWorld VK_RETURN)).1
            = (if Nat.testBit 0x011C0001 24 = true then KEY_KP_Enter else KEY_Return)
        ∧ (adaptKey 13 0x011C0001 (keyboardWorld VK_RETURN)).2.2.callsSince
              (keyboardWorld VK_RETURN)
            = [NativeCall.MapVirtualKeyEx ((0x011C0001 >>> 16) &&& 0xff),
               NativeCall.GetKeyboardState]) :=
  ⟨by decide, by decide, by decide, by decide, by decide, by decide, by decide, by decide,
    by decide,
    adaptKey_return 13 0x011C0001 (keyboardWorld VK_RETURN) (by decide) (by decide)
      (by decide) (by decide) (by decide) (by decide) (by decide) (by decide) (by decide)⟩

theorem KeyMap.lookup_assign (m : KeyMap) (key value k : Int) :
    List.lookup k (KeyMap.assign m key value)
      = if k = key then some value else List.lookup k m := by
  unfold KeyMap.assign
  by_cases h : k = key
  · subst h; simp [List.lookup]
  · have hk : (k == key) = false := by simpa using h
    rw [if_neg h]
    simp only [List.lookup, hk]
    induction m with
    | nil => rfl
    | cons e m ih =>
      obtain ⟨a, b⟩ := e
      by_cases ha : a = key
      · subst ha
        simp [List.filter_cons, List.lookup, hk, ih]
      · have hka : (a != key) = true := by simpa using ha
        simp only [List.filter_cons, hka, if_true, List.lookup]
        rw [ih]

theorem KeyMap.lookup_foldl_assign_of_not_mem (l : List (Int × Int)) (m : KeyMap) (k : Int)
    (hk : k ∉ l.map Prod.fst) :
    List.lookup k (l.foldl (fun m e => KeyMap.assign m e.1 e.2) m) = List.lookup k m := by
  induction l generalizing m with
  | nil => rfl
  | cons e l ih =>
    simp only [List.map_cons, List.mem_cons, not_or] at hk
    rw [List.foldl_cons, ih _ hk.2, KeyMap.lookup_assign, if_neg hk.1]

theorem remapWin32Key_assignments :
    ∀ e ∈ Win32KeyboardMap.assignments, remapWin32Key e.1 = e.2 := by
  decide

/-- C16: identity on unknown keys.  For every virtual-key code `k` : when `k` is not one of
the keys entered in the static key map, `remapWin32Key k = k`; and for every symbol `v`
which the table lists for `k`, `remapWin32Key k = v`. -/
theorem remapWin32Key_identity_on_unknown (k : Int) :
    (k ∉ Win32KeyboardMap.assignments.map Prod.fst → remapWin32Key k = k)
      ∧ (∀ v : Int, (k, v) ∈ Win32KeyboardMap.assignments → remapWin32Key k = v) := by
  constructor
  · intro hk
    unfold remapWin32Key Win32KeyboardMap.remapKey s_win32KeyboardMap
    rw [KeyMap.lookup_foldl_assign_of_not_mem _ _ _ hk]
    rfl
  · intro v hv
    exact remapWin32Key_assignments (k, v) hv

/-- Witness of `remapWin32Key_identity_on_unknown` : the code `7`, which the table does not
hold, and the key `VK_ESCAPE`, which it lists with `KEY_Escape`. -/
theorem remapWin32Key_identity_on_unknown_witness :
    (7 : Int) ∉ Win32KeyboardMap.assignments.map Prod.fst
      ∧ remapWin32Key 7 = 7
      ∧ (VK_ESCAPE, KEY_Escape) ∈ Win32KeyboardMap.assignments
      ∧ remapWin32Key VK_ESCAPE = KEY_Escape :=
  ⟨by decide, (remapWin32Key_identity_on_unknown 7).1 (by decide), by decide,
    (remapWin32Key_identity_on_unknown VK_ESCAPE).2 KEY_Escape (by decide)⟩

/-! ## Theorems : move and size messages -/

theorem handleNativeWindowingEvent.switch_of_move_or_size (hwnd : HWND)
    (uMsg wParam lParam : Nat) (eventTime : Time) (s : State)
    (hmsg : uMsg = WM_MOVE ∨ uMsg = WM_SIZE) :
    handleNativeWindowingEvent.switch hwnd uMsg wParam lParam eventTime s
      = handleNativeWindowingEvent.onMoveOrSize hwnd eventTime s := by
  unfold handleNativeWindowingEvent.switch
  rcases hmsg with h | h <;> subst h <;>
    rw [if_neg (by decide), if_neg (by decide), if_neg (by decide), if_neg (by decide),
      if_neg (by decide), if_pos (by decide)]

theorem handleNativeWindowingEvent.onMoveOrSize_fst (hwnd : HWND) (eventTime : Time)
    (s : State) : (handleNativeWindowingEvent.onMoveOrSize hwnd eventTime s).1 = none := by
  unfold handleNativeWindowingEvent.onMoveOrSize
  lift_lets
  intro ro windowX windowY resizeTime rc s1 windowWidth windowHeight
  split_ifs <;> rfl

theorem handleNativeWindowingEvent_window_of_break (hwnd : HWND) (uMsg wParam lParam : Nat)
    (now : Time) (s : State)
    (hb : (handleNativeWindowingEvent.switch hwnd uMsg wParam lParam
        s.window._timeOfLastCheckEvents
        { s with window := { s.window with _timeOfLastCheckEvents := now } }).1 = none) :
    (handleNativeWindowingEvent hwnd uMsg wParam lParam now s).2.window
      = (handleNativeWindowingEvent.switch hwnd uMsg wParam lParam
          s.window._timeOfLastCheckEvents
          { s with window := { s.window with _timeOfLastCheckEvents := now } }).2.window := by
  unfold handleNativeWindowingEvent
  dsimp only
  generalize handleNativeWindowingEvent.switch hwnd uMsg wParam lParam
    s.window._timeOfLastCheckEvents _ = sw at hb ⊢
  obtain ⟨r, s2⟩ := sw
  dsimp only at hb
  subst hb
  dsimp only
  split_ifs <;> rfl

/-- The window after the case `WM_MOVE` / `WM_SIZE`, in terms of the two answers of the
operating system. -/
theorem handleNativeWindowingEvent.onMoveOrSize_window (hwnd : HWND) (eventTime : Time)
    (s : State) (x y w h : Int)
    (hx : x = (s.world.oracle s.world.trace.length).out1 - s.window._screenOriginX)
    (hy : y = (s.world.oracle s.world.trace.length).out2 - s.window._screenOriginY)
    (hw : w = if (s.world.oracle (s.world.trace.length + 1)).out4 = 0
        ∧ (s.world.oracle (s.world.trace.length + 1)).out3 = 0 then 1
        else (s.world.oracle (s.world.trace.length + 1)).out3)
    (hh : h = if (s.world.oracle (s.world.trace.length + 1)).out4 = 0
        ∧ (s.world.oracle (s.world.trace.length + 1)).out3 = 0 then 1
        else (s.world.oracle (s.world.trace.length + 1)).out4) :
    (handleNativeWindowingEvent.onMoveOrSize hwnd eventTime s).2.window
      = if x ≠ s.window._traits.x ∨ y ≠ s.window._traits.y ∨ w ≠ s.window._traits.width
            ∨ h ≠ s.window._traits.height then
          { s.window with
            _traits := { s.window._traits with x := x, y := y, width := w, height := h },
            eventQueue := s.window.eventQueue.push (GUIEvent.windowResize x y w h eventTime) }
        else s.window := by
  unfold handleNativeWindowingEvent.onMoveOrSize
  lift_lets
  intro ro windowX windowY resizeTime rc s1 windowWidth windowHeight
  have ex : windowX = x := by rw [hx]; rfl
  have ey : windowY = y := by rw [hy]; rfl
  have e3 : rc.1 = s.world.oracle (s.world.trace.length + 1) := by
    simp [rc, ro, World.native]
  have ew : windowWidth = w := by
    rw [hw]
    show (if rc.1.out4 = 0 ∧ rc.1.out3 = 0 then 1 else rc.1.out3) = _
    rw [e3]
  have eh : windowHeight = h := by
    rw [hh]
    show (if rc.1.out4 = 0 ∧ rc.1.out3 = 0 then 1 else rc.1.out4) = _
    rw [e3]
  rw [ex, ey, ew, eh]
  have et : s1.window._traits = s.window._traits := rfl
  rw [et]
  split_ifs
  · rfl
  · rfl

theorem handleNativeWindowingEvent_move_or_size_window (hwnd : HWND)
    (uMsg wParam lParam : Nat) (now : Time) (s : State)
    (hmsg : uMsg = WM_MOVE ∨ uMsg = WM_SIZE) (x y w h : Int)
    (hx : x = (s.world.oracle s.world.trace.length).out1 - s.window._screenOriginX)
    (hy : y = (s.world.oracle s.world.trace.length).out2 - s.window._screenOriginY)
    (hw : w = if (s.world.oracle (s.world.trace.length + 1)).out4 = 0
        ∧ (s.world.oracle (s.world.trace.length + 1)).out3 = 0 then 1
        else (s.world.oracle (s.world.trace.length + 1)).out3)
    (hh : h = if (s.world.oracle (s.world.trace.length + 1)).out4 = 0
        ∧ (s.world.oracle (s.world.trace.length + 1)).out3 = 0 then 1
        else (s.world.oracle (s.world.trace.length + 1)).out4) :
    (handleNativeWindowingEvent hwnd uMsg wParam lParam now s).2.window
      = if x ≠ s.window._traits.x ∨ y ≠ s.window._traits.y ∨ w ≠ s.window._traits.width
            ∨ h ≠ s.window._traits.height then
          { s.window with
            _timeOfLastCheckEvents := now,
            _traits := { s.window._traits with x := x, y := y, width := w, height := h },
            eventQueue := s.window.eventQueue.push
              (GUIEvent.windowResize x y w h s.window._timeOfLastCheckEvents) }
        else { s.window with _timeOfLastCheckEvents := now } := by
  have hsw := handleNativeWindowingEvent.switch_of_move_or_size hwnd uMsg wParam lParam
    s.window._timeOfLastCheckEvents
    (State.mk { s.window with _timeOfLastCheckEvents := now } s.world) hmsg
  have hwin := handleNativeWindowingEvent.onMoveOrSize_window hwnd
    s.window._timeOfLastCheckEvents
    (State.mk { s.window with _timeOfLastCheckEvents := now } s.world) x y w h hx hy hw hh
  rw [handleNativeWindowingEvent_window_of_break _ _ _ _ _ _ (by
      rw [hsw]; exact handleNativeWindowingEvent.onMoveOrSize_fst _ _ _), hsw, hwin]

/-- C17: resize events only on change.  When the handler handles a move or size message,
with `(x, y)` the client origin which `ClientToScreen` reports, relative to the screen
origin, and `(w, h)` the client size which `GetClientRect` reports (after the minimize
clamp): if `(x, y, w, h)` differs from the `(x, y, width, height)` of the Traits, the
handler calls `resized` (the Traits hold `x, y, w, h` afterwards) and sends exactly one
notification, the window-resize event carrying `x, y, w, h` and the time of the last
`checkEvents`; if they are equal, the event queue and the Traits are left as they were. -/
theorem handleNativeWindowingEvent_resize_only_on_change (hwnd : HWND)
    (uMsg wParam lParam : Nat) (now : Time) (s : State)
    (hmsg : uMsg = WM_MOVE ∨ uMsg = WM_SIZE) (x y w h : Int)
    (hx : x = (s.world.oracle s.world.trace.length).out1 - s.window._screenOriginX)
    (hy : y = (s.world.oracle s.world.trace.length).out2 - s.window._screenOriginY)
    (hw : w = if (s.world.oracle (s.world.trace.length + 1)).out4 = 0
        ∧ (s.world.oracle (s.world.trace.length + 1)).out3 = 0 then 1
        else (s.world.oracle (s.world.trace.length + 1)).out3)
    (hh : h = if (s.world.oracle (s.world.trace.length + 1)).out4 = 0
        ∧ (s.world.oracle (s.world.trace.length + 1)).out3 = 0 then 1
        else (s.world.oracle (s.world.trace.length + 1)).out4) :
    ((x, y, w, h) ≠ (s.window._traits.x, s.window._traits.y, s.window._traits.width,
          s.window._traits.height) →
        (handleNativeWindowingEvent hwnd uMsg wParam lParam now s).2.window.eventQueue.events
            = s.window.eventQueue.events
                ++ [GUIEvent.windowResize x y w h s.window._timeOfLastCheckEvents]
          ∧ (handleNativeWindowingEvent hwnd uMsg wParam lParam now s).2.window._traits
            = { s.window._traits with x := x, y := y, width := w, height := h })
      ∧ ((x, y, w, h) = (s.window._traits.x, s.window._traits.y, s.window._traits.width,
          s.window._traits.height) →
        (handleNativeWindowingEvent hwnd uMsg wParam lParam now s).2.window.eventQueue
            = s.window.eventQueue
          ∧ (handleNativeWindowingEvent hwnd uMsg wParam lParam now s).2.window._traits
            = s.window._traits) := by
  rw [handleNativeWindowingEvent_move_or_size_window hwnd uMsg wParam lParam now s hmsg
    x y w h hx hy hw hh]
  constructor
  · intro hne
    have hc : x ≠ s.window._traits.x ∨ y ≠ s.window._traits.y ∨ w ≠ s.window._traits.width
        ∨ h ≠ s.window._traits.height := by
      by_contra hcon
      push_neg at hcon
      exact hne (by rw [hcon.1, hcon.2.1, hcon.2.2.1, hcon.2.2.2])
    rw [if_pos hc]
    exact ⟨rfl, rfl⟩
  · intro heq
    have hc : ¬ (x ≠ s.window._traits.x ∨ y ≠ s.window._traits.y
        ∨ w ≠ s.window._traits.width ∨ h ≠ s.window._traits.height) := by
      simp only [Prod.mk.injEq] at heq
      rintro (h1 | h1 | h1 | h1)
      · exact h1 heq.1
      · exact h1 heq.2.1
      · exact h1 heq.2.2.1
      · exact h1 heq.2.2.2
    rw [if_neg hc]
    exact ⟨rfl, rfl⟩

/-- C18: minimize clamp.  When a move or size message finds the client rectangle shrunk to
0 by 0 (`GetClientRect` reports right = 0 and bottom = 0), the size compared with the
Traits and reported is 1 by 1: with `(x, y)` the client origin relative to the screen
origin, the handler sends the window-resize event carrying `x, y, 1, 1` when
`(x, y, 1, 1)` differs from the geometry of the Traits, which then hold width 1 and
height 1, and sends nothing when it is equal; no notification it sends is a window-resize
event of size 0 by 0. -/
theorem handleNativeWindowingEvent_minimize_clamp (hwnd : HWND)
    (uMsg wParam lParam : Nat) (now : Time) (s : State)
    (hmsg : uMsg = WM_MOVE ∨ uMsg = WM_SIZE)
    (hright : (s.world.oracle (s.world.trace.length + 1)).out3 = 0)
    (hbottom : (s.world.oracle (s.world.trace.length + 1)).out4 = 0) :
    ((handleNativeWindowingEvent hwnd uMsg wParam lParam now s).2.window.eventQueue.events
        = if ((s.world.oracle s.world.trace.length).out1 - s.window._screenOriginX,
              (s.world.oracle s.world.trace.length).out2 - s.window._screenOriginY, (1 : Int),
              (1 : Int))
            ≠ (s.window._traits.x, s.window._traits.y, s.window._traits.width,
                s.window._traits.height) then
            s.window.eventQueue.events
              ++ [GUIEvent.windowResize
                    ((s.world.oracle s.world.trace.length).out1 - s.window._screenOriginX)
                    ((s.world.oracle s.world.trace.length).out2 - s.window._screenOriginY)
                    1 1 s.window._timeOfLastCheckEvents]
          else s.window.eventQueue.events)
      ∧ ((handleNativeWindowingEvent hwnd uMsg wParam lParam now s).2.window.eventQueue.events
            ≠ s.window.eventQueue.events →
          (handleNativeWindowingEvent hwnd uMsg wParam lParam now s).2.window._traits.width = 1
            ∧ (handleNativeWindowingEvent hwnd uMsg wParam lParam now s).2.window._traits.height
                = 1)
      ∧ ∀ (px py : Int) (t : Time),
          GUIEvent.windowResize px py 0 0 t
            ∉ ((handleNativeWindowingEvent hwnd uMsg wParam lParam now
                  s).2.window.eventQueue.events).drop s.window.eventQueue.events.length := by
  rw [handleNativeWindowingEvent_move_or_size_window hwnd uMsg wParam lParam now s hmsg
    ((s.world.oracle s.world.trace.length).out1 - s.window._screenOriginX)
    ((s.world.oracle s.world.trace.length).out2 - s.window._screenOriginY) 1 1 rfl rfl
    (by rw [if_pos ⟨hbottom, hright⟩]) (by rw [if_pos ⟨hbottom, hright⟩])]
  by_cases hc : (s.world.oracle s.world.trace.length).out1 - s.window._screenOriginX
        ≠ s.window._traits.x
      ∨ (s.world.oracle s.world.trace.length).out2 - s.window._screenOriginY
        ≠ s.window._traits.y
      ∨ 1 ≠ s.window._traits.width ∨ 1 ≠ s.window._traits.height
  · have hne : ((s.world.oracle s.world.trace.length).out1 - s.window._screenOriginX,
          (s.world.oracle s.world.trace.length).out2 - s.window._screenOriginY, (1 : Int),
          (1 : Int))
        ≠ (s.window._traits.x, s.window._traits.y, s.window._traits.width,
            s.window._traits.height) := by
      intro heq
      simp only [Prod.mk.injEq] at heq
      rcases hc with h1 | h1 | h1 | h1
      · exact h1 heq.1
      · exact h1 heq.2.1
      · exact h1 heq.2.2.1
      · exact h1 heq.2.2.2
    rw [if_pos hc, if_pos hne]
    refine ⟨rfl, fun _ => ⟨rfl, rfl⟩, fun px py t hmem => ?_⟩
    simp [EventQueue.push] at hmem
  · have heq : ¬ ((s.world.oracle s.world.trace.length).out1 - s.window._screenOriginX,
          (s.world.oracle s.world.trace.length).out2 - s.window._screenOriginY, (1 : Int),
          (1 : Int))
        ≠ (s.window._traits.x, s.window._traits.y, s.window._traits.width,
            s.window._traits.height) := by
      push_neg at hc ⊢
      rw [hc.1, hc.2.1, ← hc.2.2.1, ← hc.2.2.2]
    rw [if_neg hc, if_neg heq]
    refine ⟨rfl, fun h => absurd rfl h, fun px py t hmem => ?_⟩
    simp at hmem

/-- Witness of `handleNativeWindowingEvent_resize_only_on_change` : the size message on the
window `realizedWindow` (Traits geometry `0, 0, 800, 600`), for which the operating system
reports the client origin `(7, 1)` and the client size 806 by 600. -/
theorem handleNativeWindowingEvent_resize_only_on_change_witness :
    (WM_SIZE = WM_MOVE ∨ WM_SIZE = WM_SIZE)
      ∧ (7 : Int) = ((realizedWindow true).world.oracle
            (realizedWindow true).world.trace.length).out1
          - (realizedWindow true).window._screenOriginX
      ∧ (1 : Int) = ((realizedWindow true).world.oracle
            (realizedWindow true).world.trace.length).out2
          - (realizedWindow true).window._screenOriginY
      ∧ (806 : Int) = (if ((realizedWindow true).world.oracle
              ((realizedWindow true).world.trace.length + 1)).out4 = 0
            ∧ ((realizedWindow true).world.oracle
              ((realizedWindow true).world.trace.length + 1)).out3 = 0 then 1
          else ((realizedWindow true).world.oracle
              ((realizedWindow true).world.trace.length + 1)).out3)
      ∧ (600 : Int) = (if ((realizedWindow true).world.oracle
              ((realizedWindow true).world.trace.length + 1)).out4 = 0
            ∧ ((realizedWindow true).world.oracle
              ((realizedWindow true).world.trace.length + 1)).out3 = 0 then 1
          else ((realizedWindow true).world.oracle
              ((realizedWindow true).world.trace.length + 1)).out4)
      ∧ (((7 : Int), (1 : Int), (806 : Int), (600 : Int))
            ≠ ((realizedWindow true).window._traits.x, (realizedWindow true).window._traits.y,
                (realizedWindow true).window._traits.width,
                (realizedWindow true).window._traits.height) →
          (handleNativeWindowingEvent 100 WM_SIZE 0 0 5
                (realizedWindow true)).2.window.eventQueue.events
              = (realizedWindow true).window.eventQueue.events
                  ++ [GUIEvent.windowResize 7 1 806 600
                        (realizedWindow true).window._timeOfLastCheckEvents]
            ∧ (handleNativeWindowingEvent 100 WM_SIZE 0 0 5
                (realizedWindow true)).2.window._traits
              = { (realizedWindow true).window._traits with
                  x := 7, y := 1, width := 806, height := 600 })
      ∧ (((7 : Int), (1 : Int), (806 : Int), (600 : Int))
            = ((realizedWindow true).window._traits.x, (realizedWindow true).window._traits.y,
                (realizedWindow true).window._traits.width,
                (realizedWindow true).window._traits.height) →
          (handleNativeWindowingEvent 100 WM_SIZE 0 0 5
                (realizedWindow true)).2.window.eventQueue
              = (realizedWindow true).window.eventQueue
            ∧ (handleNativeWindowingEvent 100 WM_SIZE 0 0 5
                (realizedWindow true)).2.window._traits
              = (realizedWindow true).window._traits) :=
  ⟨Or.inr rfl, by decide, by decide, by decide, by decide,
    handleNativeWindowingEvent_resize_only_on_change 100 WM_SIZE 0 0 5 (realizedWindow true)
      (Or.inr rfl) 7 1 806 600 (by decide) (by decide) (by decide) (by decide)⟩

/-- Witness of `handleNativeWindowingEvent_minimize_clamp` : the size message on the
minimized window `minimizedWindow`, whose client rectangle is reported empty. -/
theorem handleNativeWindowingEvent_minimize_clamp_witness :
    (WM_SIZE = WM_MOVE ∨ WM_SIZE = WM_SIZE)
      ∧ (minimizedWindow.world.oracle (minimizedWindow.world.trace.length + 1)).out3 = 0
      ∧ (minimizedWindow.world.oracle (minimizedWindow.world.trace.length + 1)).out4 = 0
      ∧ (((handleNativeWindowingEvent 100 WM_SIZE 0 0 5
              minimizedWindow).2.window.eventQueue.events
          = if ((minimizedWindow.world.oracle minimizedWindow.world.trace.length).out1
                  - minimizedWindow.window._screenOriginX,
                (minimizedWindow.world.oracle minimizedWindow.world.trace.length).out2
                  - minimizedWindow.window._screenOriginY, (1 : Int), (1 : Int))
              ≠ (minimizedWindow.window._traits.x, minimizedWindow.window._traits.y,
                  minimizedWindow.window._traits.width,
                  minimizedWindow.window._traits.height) then
              minimizedWindow.window.eventQueue.events
                ++ [GUIEvent.windowResize
                      ((minimizedWindow.world.oracle minimizedWindow.world.trace.length).out1
                        - minimizedWindow.window._screenOriginX)
                      ((minimizedWindow.world.oracle minimizedWindow.world.trace.length).out2
                        - minimizedWindow.window._screenOriginY)
                      1 1 minimizedWindow.window._timeOfLastCheckEvents]
            else minimizedWindow.window.eventQueue.events)
        ∧ ((handleNativeWindowingEvent 100 WM_SIZE 0 0 5
                minimizedWindow).2.window.eventQueue.events
              ≠ minimizedWindow.window.eventQueue.events →
            (handleNativeWindowingEvent 100 WM_SIZE 0 0 5
                minimizedWindow).2.window._traits.width = 1
              ∧ (handleNativeWindowingEvent 100 WM_SIZE 0 0 5
                  minimizedWindow).2.window._traits.height = 1)
        ∧ ∀ (px py : Int) (t : Time),
            GUIEvent.windowResize px py 0 0 t
              ∉ ((handleNativeWindowingEvent 100 WM_SIZE 0 0 5
                    minimizedWindow).2.window.eventQueue.events).drop
                  minimizedWindow.window.eventQueue.events.length) :=
  ⟨Or.inr rfl, by decide, by decide,
    handleNativeWindowingEvent_minimize_clamp 100 WM_SIZE 0 0 5 minimizedWindow (Or.inr rfl)
      (by decide) (by decide)⟩

/-! ## Theorems : repeated close -/

theorem destroyWindow_of_null (b : Bool) (s : State) (hdes : s.window._destroying = false)
    (hwnd : s.window._hwnd = 0) (hdc : s.window._hdc = 0) :
    destroyWindow b s
      = { s with window := { s.window with
            _initialized := false, _realized := false, _valid := false,
            _destroying := false } } := by
  obtain ⟨win, world⟩ := s
  dsimp only at hdes hwnd hdc
  simp [destroyWindow, unregisterWindowProcedure, hdes, hwnd, hdc]

theorem closeImplementation_idempotent (d : Bool) (s : State) :
    closeImplementation d (closeImplementation d s) = closeImplementation d s := by
  by_cases hdes : s.window._destroying = true
  · have h1 : closeImplementation d s
        = { s with window := { s.window with
              _initialized := false, _valid := false, _realized := false } } := by
      rw [closeImplementation_eq, destroyWindow_of_destroying d s hdes]
    have h2 := destroyWindow_of_destroying d
      (State.mk { s.window with
        _initialized := false, _valid := false, _realized := false } s.world) hdes
    rw [h1, closeImplementation_eq, h2]
  · have hdes2 : s.window._destroying = false := by simpa using hdes
    obtain ⟨wp, hf, -⟩ := destroyWindow_fields d s hdes2
    have h1 : closeImplementation d s
        = State.mk { s.window with
            _hwnd := 0, _hdc := 0,
            _hglrc := if s.window._hdc = 0 then s.window._hglrc else 0,
            _windowProcedure := wp,
            _initialized := false, _realized := false, _valid := false,
            _destroying := false } (destroyWindow d s).world := by
      rw [closeImplementation_eq, hf]
    rw [h1, closeImplementation_eq, destroyWindow_of_null d _ rfl rfl rfl]

/-- C19: close is safe to repeat.  From every window state, reachable or not, and for
either default of `destroyWindow`, calling `closeImplementation` a second time right after
a first issues no native call, changes nothing in the registry (nor anywhere else in the
world) and leaves every field of the window equal to its value after the first call. -/
theorem closeImplementation_twice (d : Bool) (s : State) :
    (closeImplementation d (closeImplementation d s)).world.callsSince
        (closeImplementation d s).world = []
      ∧ (closeImplementation d (closeImplementation d s)).world.windowingSystem
          = (closeImplementation d s).world.windowingSystem
      ∧ (closeImplementation d (closeImplementation d s)).world
          = (closeImplementation d s).world
      ∧ (closeImplementation d (closeImplementation d s)).window
          = (closeImplementation d s).window := by
  rw [closeImplementation_idempotent]
  refine ⟨?_, rfl, rfl, rfl⟩
  simp [World.callsSince, calls]

/-! ## Theorems : screen queries -/

theorem getScreenInformation_of_unknown (w : World) (si : ScreenIdentifier)
    (h : Int.ofNat (enumerateDisplayDevices w).length ≤ si.screenNum ∨ si.screenNum < 0
      ∨ 0 < si.displayNum) :
    getScreenInformation w si = none := by
  unfold getScreenInformation
  by_cases hd : si.displayNum > 0
  · rw [if_pos hd]
  · rw [if_neg hd]
    have hs : si.screenNum < 0 ∨ (enumerateDisplayDevices w).length ≤ si.screenNum.toNat := by
      rcases h with h | h | h
      · right
        have h2 : Int.ofNat (enumerateDisplayDevices w).length ≤ Int.ofNat si.screenNum.toNat :=
          le_trans h (Int.self_le_toNat _)
        exact Int.ofNat_le.mp h2
      · exact Or.inl h
      · exact absurd h hd
    rw [if_pos hs]

/-- C20: unknown screens yield zeros.  For every screen identifier whose screen index is
greater than or equal to the number of enumerated display devices (or negative, which the
unsigned comparison of the source takes for too large), or whose display number is greater
than 0 : `getScreenInformation` returns false; `getScreenResolution` returns width and
height 0, `getScreenColorDepth` returns 0, `getScreenPosition` returns the origin `(0, 0)`
and the size `(0, 0)`; and `setScreenResolution` and `setScreenRefreshRate` return false
and issue no native call, so no change of the display settings. -/
theorem unknown_screen_yields_zeros (w : World) (si : ScreenIdentifier)
    (h : Int.ofNat (enumerateDisplayDevices w).length ≤ si.screenNum ∨ si.screenNum < 0
      ∨ 0 < si.displayNum) :
    getScreenInformation w si = none
      ∧ getScreenResolution w si = (0, 0)
      ∧ getScreenColorDepth w si = 0
      ∧ getScreenPosition w si = (0, 0, 0, 0)
      ∧ (∀ width height : Nat,
          (setScreenResolution si width height w).1 = false
            ∧ (setScreenResolution si width height w).2 = w
            ∧ (setScreenResolution si width height w).2.callsSince w = [])
      ∧ (∀ refreshRate : Nat,
          (setScreenRefreshRate si refreshRate w).1 = false
            ∧ (setScreenRefreshRate si refreshRate w).2 = w
            ∧ (setScreenRefreshRate si refreshRate w).2.callsSince w = []) := by
  have hn := getScreenInformation_of_unknown w si h
  have hc : w.callsSince w = [] := by simp [World.callsSince, calls]
  refine ⟨hn, ?_, ?_, ?_, fun width height => ?_, fun refreshRate => ?_⟩
  · simp only [getScreenResolution, hn]
  · simp only [getScreenColorDepth, hn]
  · simp only [getScreenPosition, hn]
  · simp only [setScreenResolution, hn]
    exact ⟨trivial, trivial, hc⟩
  · simp only [setScreenRefreshRate, hn]
    exact ⟨trivial, trivial, hc⟩

/-- Witness of `unknown_screen_yields_zeros` : the screen `1` of display `0` in the world
of `constructedWindow`, which has one display device. -/
theorem unknown_screen_yields_zeros_witness :
    (Int.ofNat (enumerateDisplayDevices (constructedWindow true).world).length
          ≤ ({ displayNum := 0, screenNum := 1 } : ScreenIdentifier).screenNum
        ∨ ({ displayNum := 0, screenNum := 1 } : ScreenIdentifier).screenNum < 0
        ∨ 0 < ({ displayNum := 0, screenNum := 1 } : ScreenIdentifier).displayNum)
      ∧ (getScreenInformation (constructedWindow true).world { displayNum := 0, screenNum := 1 }
            = none
        ∧ getScreenResolution (constructedWindow true).world { displayNum := 0, screenNum := 1 }
            = (0, 0)
        ∧ getScreenColorDepth (constructedWindow true).world { displayNum := 0, screenNum := 1 }
            = 0
        ∧ getScreenPosition (constructedWindow true).world { displayNum := 0, screenNum := 1 }
            = (0, 0, 0, 0)
        ∧ (∀ width height : Nat,
            (setScreenResolution { displayNum := 0, screenNum := 1 } width height
                (constructedWindow true).world).1 = false
              ∧ (setScreenResolution { displayNum := 0, screenNum := 1 } width height
                  (constructedWindow true).world).2 = (constructedWindow true).world
              ∧ (setScreenResolution { displayNum := 0, screenNum := 1 } width height
                  (constructedWindow true).world).2.callsSince (constructedWindow true).world
                = [])
        ∧ (∀ refreshRate : Nat,
            (setScreenRefreshRate { displayNum := 0, screenNum := 1 } refreshRate
                (constructedWindow true).world).1 = false
              ∧ (setScreenRefreshRate { displayNum := 0, screenNum := 1 } refreshRate
                  (constructedWindow true).world).2 = (constructedWindow true).world
              ∧ (setScreenRefreshRate { displayNum := 0, screenNum := 1 } refreshRate
                  (constructedWindow true).world).2.callsSince (constructedWindow true).world
                = [])) :=
  ⟨Or.inl (by decide),
    unknown_screen_yields_zeros (constructedWindow true).world
      { displayNum := 0, screenNum := 1 } (Or.inl (by decide))⟩

/-! ## Theorems : the attribute list of the extension chooser -/

theorem toInt32_of_lt (n : Nat) (h : n < 2147483648) : toInt32 n = Int.ofNat n := by
  unfold toInt32
  have h1 : n % 4294967296 = n := Nat.mod_eq_of_lt (by omega)
  rw [h1, if_pos h]

theorem WGLIntegerAttributes.set_parameters (a : WGLIntegerAttributes) (id value : Int) :
    (a.set id value).m_parameters = a.m_parameters ++ [id, value] := by
  simp [WGLIntegerAttributes.set, WGLIntegerAttributes.add]

theorem WGLIntegerAttributes.enable_parameters (a : WGLIntegerAttributes) (id : Int) :
    (a.enable id).m_parameters = a.m_parameters ++ [id, 1] := by
  simp [WGLIntegerAttributes.enable, WGLIntegerAttributes.add]

theorem WGLIntegerAttributes.end_parameters (a : WGLIntegerAttributes) :
    a.end.m_parameters = a.m_parameters ++ [0] := rfl

theorem WGLIntegerAttributes.ite_set_parameters (c : Prop) [Decidable c]
    (a : WGLIntegerAttributes) (id value : Int) :
    (if c then a.set id value else a).m_parameters
      = a.m_parameters ++ (if c then [id, value] else []) := by
  split_ifs
  · exact WGLIntegerAttributes.set_parameters _ _ _
  · simp

theorem WGLIntegerAttributes.ite_enable_parameters (c : Prop) [Decidable c]
    (a : WGLIntegerAttributes) (id : Int) :
    (if c then a.enable id else a).m_parameters
      = a.m_parameters ++ (if c then [id, 1] else []) := by
  split_ifs
  · exact WGLIntegerAttributes.enable_parameters _ _
  · simp

theorem WGLIntegerAttributes.doubleBuffer_parameters (db allow : Bool)
    (a : WGLIntegerAttributes) :
    (if db = true then
        (if allow = true then
          (a.enable WGL_DOUBLE_BUFFER_ARB).set WGL_SWAP_METHOD_ARB WGL_SWAP_EXCHANGE_ARB
        else a.enable WGL_DOUBLE_BUFFER_ARB)
      else a).m_parameters
      = a.m_parameters ++ (if db = true then [WGL_DOUBLE_BUFFER_ARB, 1] else [])
          ++ (if db = true ∧ allow = true then [WGL_SWAP_METHOD_ARB, WGL_SWAP_EXCHANGE_ARB]
              else []) := by
  cases db <;> cases allow <;>
    simp [WGLIntegerAttributes.set_parameters, WGLIntegerAttributes.enable_parameters]

theorem PreparePixelFormatSpecifications_parameters (t : Traits)
    (attributes : WGLIntegerAttributes) (allowSwapExchangeARB : Bool) :
    (PreparePixelFormatSpecifications t attributes allowSwapExchangeARB).m_parameters
        = [WGL_DRAW_TO_WINDOW_ARB, 1, WGL_SUPPORT_OPENGL_ARB, 1,
            WGL_ACCELERATION_ARB, WGL_FULL_ACCELERATION_ARB,
            WGL_PIXEL_TYPE_ARB, WGL_TYPE_RGBA_ARB,
            WGL_COLOR_BITS_ARB, toInt32 (t.red + t.green + t.blue),
            WGL_RED_BITS_ARB, toInt32 t.red, WGL_GREEN_BITS_ARB, toInt32 t.green,
            WGL_BLUE_BITS_ARB, toInt32 t.blue, WGL_DEPTH_BITS_ARB, toInt32 t.depth]
          ++ (if t.doubleBuffer = true then [WGL_DOUBLE_BUFFER_ARB, 1] else [])
          ++ (if t.doubleBuffer = true ∧ allowSwapExchangeARB = true then
                [WGL_SWAP_METHOD_ARB, WGL_SWAP_EXCHANGE_ARB] else [])
          ++ (if t.alpha ≠ 0 then [WGL_ALPHA_BITS_ARB, toInt32 t.alpha] else [])
          ++ (if t.stencil ≠ 0 then [WGL_STENCIL_BITS_ARB, toInt32 t.stencil] else [])
          ++ (if t.sampleBuffers ≠ 0 then [WGL_SAMPLE_BUFFERS_ARB, toInt32 t.sampleBuffers]
              else [])
          ++ (if t.samples ≠ 0 then [WGL_SAMPLES_ARB, toInt32 t.samples] else [])
          ++ (if t.quadBufferStereo = true then [WGL_STEREO_ARB, 1] else [])
          ++ [0] := by
  unfold PreparePixelFormatSpecifications
  simp only [WGLIntegerAttributes.end_parameters, WGLIntegerAttributes.ite_enable_parameters,
    WGLIntegerAttributes.ite_set_parameters, WGLIntegerAttributes.doubleBuffer_parameters,
    WGLIntegerAttributes.set_parameters, WGLIntegerAttributes.enable_parameters]
  rfl

/-- C23: the attribute list built for the extension chooser.  For every Traits `t` and flag
`allowSwapExchangeARB`, and whatever the attribute object held before,
`PreparePixelFormatSpecifications` leaves it holding exactly: draw-to-window 1,
support-OpenGL 1, acceleration full, pixel type RGBA, color bits `red + green + blue`, red,
green, blue and depth bits; then double-buffer 1 if `t.doubleBuffer`; then the swap method
swap-exchange if `t.doubleBuffer` and the flag; then alpha, stencil, sample-buffers and
samples, each only if non-zero; then stereo 1 if `t.quadBufferStereo`; and one terminating
`0`.  The bit depths enter the list as `int` (`toInt32`), which is the value itself for
every depth below `2 ^ 31`.  The length of the list is odd (pairs and one terminator), and
the result does not depend on what the object held: preparing again on the same object
gives the list of the last call alone. -/
theorem PreparePixelFormatSpecifications_list (t : Traits) (attributes : WGLIntegerAttributes)
    (allowSwapExchangeARB : Bool) :
    (PreparePixelFormatSpecifications t attributes allowSwapExchangeARB).m_parameters
        = [WGL_DRAW_TO_WINDOW_ARB, 1, WGL_SUPPORT_OPENGL_ARB, 1,
            WGL_ACCELERATION_ARB, WGL_FULL_ACCELERATION_ARB,
            WGL_PIXEL_TYPE_ARB, WGL_TYPE_RGBA_ARB,
            WGL_COLOR_BITS_ARB, toInt32 (t.red + t.green + t.blue),
            WGL_RED_BITS_ARB, toInt32 t.red, WGL_GREEN_BITS_ARB, toInt32 t.green,
            WGL_BLUE_BITS_ARB, toInt32 t.blue, WGL_DEPTH_BITS_ARB, toInt32 t.depth]
          ++ (if t.doubleBuffer = true then [WGL_DOUBLE_BUFFER_ARB, 1] else [])
          ++ (if t.doubleBuffer = true ∧ allowSwapExchangeARB = true then
                [WGL_SWAP_METHOD_ARB, WGL_SWAP_EXCHANGE_ARB] else [])
          ++ (if t.alpha ≠ 0 then [WGL_ALPHA_BITS_ARB, toInt32 t.alpha] else [])
          ++ (if t.stencil ≠ 0 then [WGL_STENCIL_BITS_ARB, toInt32 t.stencil] else [])
          ++ (if t.sampleBuffers ≠ 0 then [WGL_SAMPLE_BUFFERS_ARB, toInt32 t.sampleBuffers]
              else [])
          ++ (if t.samples ≠ 0 then [WGL_SAMPLES_ARB, toInt32 t.samples] else [])
          ++ (if t.quadBufferStereo = true then [WGL_STEREO_ARB, 1] else [])
          ++ [0]
      ∧ (∀ n : Nat, n < 2147483648 → toInt32 n = Int.ofNat n)
      ∧ (PreparePixelFormatSpecifications t attributes allowSwapExchangeARB).m_parameters.length
          % 2 = 1
      ∧ (∀ (t0 : Traits) (b0 : Bool),
          PreparePixelFormatSpecifications t
              (PreparePixelFormatSpecifications t0 attributes b0) allowSwapExchangeARB
            = PreparePixelFormatSpecifications t {} allowSwapExchangeARB) := by
  have hlist := PreparePixelFormatSpecifications_parameters t attributes allowSwapExchangeARB
  refine ⟨hlist, toInt32_of_lt, ?_, fun t0 b0 => PreparePixelFormatSpecifications_begin _ _ _ _ _⟩
  rw [hlist]
  split_ifs <;> simp only [List.length_append, List.length_cons, List.length_nil]

theorem remapWin32Key_VK_LSHIFT : remapWin32Key VK_LSHIFT = KEY_Shift_L := by decide
theorem remapWin32Key_VK_RSHIFT : remapWin32Key VK_RSHIFT = KEY_Shift_R := by decide

theorem adaptKey_of_shift (wParam lParam : Nat) (w : World)
    (hvk : (w.oracle w.trace.length).ret = VK_LSHIFT
      ∨ (w.oracle w.trace.length).ret = VK_RSHIFT)
    (hks : (w.oracle (w.trace.length + 1)).ok = true) :
    (adaptKey wParam lParam w).1
        = (if (w.oracle w.trace.length).ret = VK_LSHIFT then KEY_Shift_L else KEY_Shift_R)
      ∧ ∃ locks : Nat, (locks = 0 ∨ locks = MODKEY_CAPS_LOCK ∨ locks = MODKEY_NUM_LOCK
            ∨ locks = MODKEY_CAPS_LOCK ||| MODKEY_NUM_LOCK)
          ∧ (adaptKey wParam lParam w).2.1
            = (if (w.oracle w.trace.length).ret = VK_LSHIFT then MODKEY_LEFT_SHIFT
                else MODKEY_RIGHT_SHIFT) ||| locks := by
  have hne : (w.oracle w.trace.length).ret ≠ 0 := by
    rcases hvk with h | h <;> rw [h] <;> decide
  unfold adaptKey
  lift_lets
  intro rightSide rm virtualKey rk km mask1 mask2 keySymbol ra
  have e0 : virtualKey = (w.oracle w.trace.length).ret := rfl
  have e1 : rk.1.ok = true := by
    simpa [rk, rm, World.native] using hks
  have ekm : km = (virtualKey,
      if (w.oracle w.trace.length).ret = VK_LSHIFT then MODKEY_LEFT_SHIFT
      else MODKEY_RIGHT_SHIFT) := by
    show (if virtualKey = VK_LSHIFT then _ else _) = _
    rw [e0]
    rcases hvk with h | h
    · rw [if_pos h, if_pos h]
    · have hn : ¬ (w.oracle w.trace.length).ret = VK_LSHIFT := by rw [h]; decide
      rw [if_neg hn, if_pos h, if_neg hn]
  have eks : keySymbol
      = (if (w.oracle w.trace.length).ret = VK_LSHIFT then KEY_Shift_L else KEY_Shift_R) := by
    show remapWin32Key km.1 = _
    rw [ekm]
    show remapWin32Key virtualKey = _
    rw [e0]
    rcases hvk with h | h
    · rw [if_pos h, h]; exact remapWin32Key_VK_LSHIFT
    · have hn : ¬ (w.oracle w.trace.length).ret = VK_LSHIFT := by rw [h]; decide
      rw [if_neg hn, h]; exact remapWin32Key_VK_RSHIFT
  have hnr : ¬ (keySymbol = KEY_Return ∧ rightSide = true) := by
    have hk : keySymbol ≠ KEY_Return := by
      rw [eks]; split_ifs <;> decide
    exact fun hh => hk hh.1
  have hhi : ¬ ((toUInt32 keySymbol) &&& 0xff00 = 0) := by
    rw [eks]; split_ifs <;> decide
  rw [if_neg (by rw [e0]; exact hne), if_neg (by simp [e1]), if_neg hnr, if_neg hhi]
  dsimp only
  refine ⟨eks, ?_⟩
  have em : mask2 = (if rk.1.out2 % 2 = 1 then
      (if rk.1.out1 % 2 = 1 then km.2 ||| MODKEY_CAPS_LOCK else km.2) ||| MODKEY_NUM_LOCK
      else (if rk.1.out1 % 2 = 1 then km.2 ||| MODKEY_CAPS_LOCK else km.2)) := rfl
  rw [em, ekm]
  dsimp only
  by_cases c1 : rk.1.out1 % 2 = 1 <;> by_cases c2 : rk.1.out2 % 2 = 1
  · rw [if_pos c1, if_pos c2]
    exact ⟨_, Or.inr (Or.inr (Or.inr rfl)), by rw [Nat.lor_assoc]⟩
  · rw [if_pos c1, if_neg c2]
    exact ⟨_, Or.inr (Or.inl rfl), rfl⟩
  · rw [if_neg c1, if_pos c2]
    exact ⟨_, Or.inr (Or.inr (Or.inl rfl)), rfl⟩
  · rw [if_neg c1, if_neg c2]
    exact ⟨0, Or.inl rfl, by simp⟩

/-- C24, as the claim states it, fails: the key message of the left Shift key (scan code
`0x2A`, which `MapVirtualKeyEx` maps to `VK_LSHIFT`) with the extended-key bit set yields
`KEY_Shift_L` and the left-shift bit, not `KEY_Shift_R` and the right-shift bit. -/
theorem adaptKey_shift_ignores_extended_bit :
    Nat.testBit 0x012A0001 24 = true
      ∧ (adaptKey 0x10 0x012A0001 (keyboardWorld VK_LSHIFT)).1 = KEY_Shift_L
      ∧ (adaptKey 0x10 0x012A0001 (keyboardWorld VK_LSHIFT)).1 ≠ KEY_Shift_R
      ∧ (adaptKey 0x10 0x012A0001 (keyboardWorld VK_LSHIFT)).2.1 &&& MODKEY_LEFT_SHIFT
          = MODKEY_LEFT_SHIFT
      ∧ (adaptKey 0x10 0x012A0001 (keyboardWorld VK_LSHIFT)).2.1 &&& MODKEY_RIGHT_SHIFT = 0 := by
  decide

/-- C24 (amended): left / right Shift by the virtual key.  For every Shift key message whose
scan code `MapVirtualKeyEx` maps to `VK_LSHIFT` or `VK_RSHIFT`, with the keyboard state
readable, and whatever the extended-key bit of the message is: when the virtual key is
`VK_RSHIFT`, `adaptKey` yields `KEY_Shift_R` and a modifier mask which contains the
right-shift bit and, of the six left / right Shift, Control and Alt bits, no other; when it
is `VK_LSHIFT`, it yields `KEY_Shift_L` and a mask which contains the left-shift bit and no
other of the six. -/
theorem adaptKey_shift_by_virtual_key (wParam lParam : Nat) (w : World)
    (hvk : (w.oracle w.trace.length).ret = VK_LSHIFT
      ∨ (w.oracle w.trace.length).ret = VK_RSHIFT)
    (hks : (w.oracle (w.trace.length + 1)).ok = true) :
    ((w.oracle w.trace.length).ret = VK_RSHIFT →
        (adaptKey wParam lParam w).1 = KEY_Shift_R
          ∧ (adaptKey wParam lParam w).2.1 &&& MODKEY_RIGHT_SHIFT = MODKEY_RIGHT_SHIFT
          ∧ (adaptKey wParam lParam w).2.1
                &&& (MODKEY_LEFT_SHIFT ||| MODKEY_RIGHT_SHIFT ||| MODKEY_LEFT_CTRL
                  ||| MODKEY_RIGHT_CTRL ||| MODKEY_LEFT_ALT ||| MODKEY_RIGHT_ALT)
              = MODKEY_RIGHT_SHIFT)
      ∧ ((w.oracle w.trace.length).ret = VK_LSHIFT →
        (adaptKey wParam lParam w).1 = KEY_Shift_L
          ∧ (adaptKey wParam lParam w).2.1 &&& MODKEY_LEFT_SHIFT = MODKEY_LEFT_SHIFT
          ∧ (adaptKey wParam lParam w).2.1
                &&& (MODKEY_LEFT_SHIFT ||| MODKEY_RIGHT_SHIFT ||| MODKEY_LEFT_CTRL
                  ||| MODKEY_RIGHT_CTRL ||| MODKEY_LEFT_ALT ||| MODKEY_RIGHT_ALT)
              = MODKEY_LEFT_SHIFT) := by
  obtain ⟨hsym, locks, hl, hmask⟩ := adaptKey_of_shift wParam lParam w hvk hks
  rw [hsym, hmask]
  constructor
  · intro hr
    have hn : ¬ (w.oracle w.trace.length).ret = VK_LSHIFT := by rw [hr]; decide
    rw [if_neg hn, if_neg hn]
    rcases hl with h | h | h | h <;> rw [h] <;> decide
  · intro hlft
    rw [if_pos hlft, if_pos hlft]
    rcases hl with h | h | h | h <;> rw [h] <;> decide

/-- Witness of `adaptKey_shift_by_virtual_key` : the key message of the right Shift key
(scan code `0x36`, extended-key bit clear) handled in a world whose first native call,
`MapVirtualKeyEx`, answers `VK_RSHIFT`. -/
theorem adaptKey_shift_by_virtual_key_witness :
    (((keyboardWorld VK_RSHIFT).oracle (keyboardWorld VK_RSHIFT).trace.length).ret = VK_LSHIFT
        ∨ ((keyboardWorld VK_RSHIFT).oracle (keyboardWorld VK_RSHIFT).trace.length).ret
          = VK_RSHIFT)
      ∧ ((keyboardWorld VK_RSHIFT).oracle
          ((keyboardWorld VK_RSHIFT).trace.length + 1)).ok = true
      ∧ ((((keyboardWorld VK_RSHIFT).oracle (keyboardWorld VK_RSHIFT).trace.length).ret
            = VK_RSHIFT →
          (adaptKey 0x10 0x00360001 (keyboardWorld VK_RSHIFT)).1 = KEY_Shift_R
            ∧ (adaptKey 0x10 0x00360001 (keyboardWorld VK_RSHIFT)).2.1 &&& MODKEY_RIGHT_SHIFT
                = MODKEY_RIGHT_SHIFT
            ∧ (adaptKey 0x10 0x00360001 (keyboardWorld VK_RSHIFT)).2.1
                  &&& (MODKEY_LEFT_SHIFT ||| MODKEY_RIGHT_SHIFT ||| MODKEY_LEFT_CTRL
                    ||| MODKEY_RIGHT_CTRL ||| MODKEY_LEFT_ALT ||| MODKEY_RIGHT_ALT)
                = MODKEY_RIGHT_SHIFT)
        ∧ (((keyboardWorld VK_RSHIFT).oracle (keyboardWorld VK_RSHIFT).trace.length).ret
            = VK_LSHIFT →
          (adaptKey 0x10 0x00360001 (keyboardWorld VK_RSHIFT)).1 = KEY_Shift_L
            ∧ (adaptKey 0x10 0x00360001 (keyboardWorld VK_RSHIFT)).2.1 &&& MODKEY_LEFT_SHIFT
                = MODKEY_LEFT_SHIFT
            ∧ (adaptKey 0x10 0x00360001 (keyboardWorld VK_RSHIFT)).2.1
                  &&& (MODKEY_LEFT_SHIFT ||| MODKEY_RIGHT_SHIFT ||| MODKEY_LEFT_CTRL
                    ||| MODKEY_RIGHT_CTRL ||| MODKEY_LEFT_ALT ||| MODKEY_RIGHT_ALT)
                = MODKEY_LEFT_SHIFT)) :=
  ⟨Or.inr (by decide), by decide,
    adaptKey_shift_by_virtual_key 0x10 0x00360001 (keyboardWorld VK_RSHIFT)
      (Or.inr (by decide)) (by decide)⟩

/-- C27: the 1-by-1 clamp applies only when both client dimensions are zero.  When a move or
size message finds a client rectangle with exactly one of right and bottom equal to 0, the
width and height compared with the Traits and reported are the ones of the client
rectangle: with `(x, y)` the client origin relative to the screen origin, the handler sends
the window-resize event carrying `x, y, right, bottom` when these differ from the geometry
of the Traits, which then hold width `right` and height `bottom`, and sends nothing when
they are equal. -/
theorem handleNativeWindowingEvent_no_clamp_on_one_zero (hwnd : HWND)
    (uMsg wParam lParam : Nat) (now : Time) (s : State)
    (hmsg : uMsg = WM_MOVE ∨ uMsg = WM_SIZE)
    (hone : ((s.world.oracle (s.world.trace.length + 1)).out3 = 0
          ∧ (s.world.oracle (s.world.trace.length + 1)).out4 ≠ 0)
        ∨ ((s.world.oracle (s.world.trace.length + 1)).out3 ≠ 0
          ∧ (s.world.oracle (s.world.trace.length + 1)).out4 = 0)) :
    ((handleNativeWindowingEvent hwnd uMsg wParam lParam now s).2.window.eventQueue.events
        = if ((s.world.oracle s.world.trace.length).out1 - s.window._screenOriginX,
              (s.world.oracle s.world.trace.length).out2 - s.window._screenOriginY,
              (s.world.oracle (s.world.trace.length + 1)).out3,
              (s.world.oracle (s.world.trace.length + 1)).out4)
            ≠ (s.window._traits.x, s.window._traits.y, s.window._traits.width,
                s.window._traits.height) then
            s.window.eventQueue.events
              ++ [GUIEvent.windowResize
                    ((s.world.oracle s.world.trace.length).out1 - s.window._screenOriginX)
                    ((s.world.oracle s.world.trace.length).out2 - s.window._screenOriginY)
                    (s.world.oracle (s.world.trace.length + 1)).out3
                    (s.world.oracle (s.world.trace.length + 1)).out4
                    s.window._timeOfLastCheckEvents]
          else s.window.eventQueue.events)
      ∧ ((handleNativeWindowingEvent hwnd uMsg wParam lParam now s).2.window.eventQueue.events
            ≠ s.window.eventQueue.events →
          (handleNativeWindowingEvent hwnd uMsg wParam lParam now s).2.window._traits.width
              = (s.world.oracle (s.world.trace.length + 1)).out3
            ∧ (handleNativeWindowingEvent hwnd uMsg wParam lParam now s).2.window._traits.height
                = (s.world.oracle (s.world.trace.length + 1)).out4) := by
  have hnb : ¬ ((s.world.oracle (s.world.trace.length + 1)).out4 = 0
      ∧ (s.world.oracle (s.world.trace.length + 1)).out3 = 0) := by
    rintro ⟨h4, h3⟩
    rcases hone with ⟨-, h⟩ | ⟨h, -⟩
    · exact h h4
    · exact h h3
  rw [handleNativeWindowingEvent_move_or_size_window hwnd uMsg wParam lParam now s hmsg
    ((s.world.oracle s.world.trace.length).out1 - s.window._screenOriginX)
    ((s.world.oracle s.world.trace.length).out2 - s.window._screenOriginY)
    (s.world.oracle (s.world.trace.length + 1)).out3
    (s.world.oracle (s.world.trace.length + 1)).out4 rfl rfl
    (by rw [if_neg hnb]) (by rw [if_neg hnb])]
  by_cases hc : (s.world.oracle s.world.trace.length).out1 - s.window._screenOriginX
        ≠ s.window._traits.x
      ∨ (s.world.oracle s.world.trace.length).out2 - s.window._screenOriginY
        ≠ s.window._traits.y
      ∨ (s.world.oracle (s.world.trace.length + 1)).out3 ≠ s.window._traits.width
      ∨ (s.world.oracle (s.world.trace.length + 1)).out4 ≠ s.window._traits.height
  · have hne : ((s.world.oracle s.world.trace.length).out1 - s.window._screenOriginX,
          (s.world.oracle s.world.trace.length).out2 - s.window._screenOriginY,
          (s.world.oracle (s.world.trace.length + 1)).out3,
          (s.world.oracle (s.world.trace.length + 1)).out4)
        ≠ (s.window._traits.x, s.window._traits.y, s.window._traits.width,
            s.window._traits.height) := by
      intro heq
      simp only [Prod.mk.injEq] at heq
      rcases hc with h1 | h1 | h1 | h1
      · exact h1 heq.1
      · exact h1 heq.2.1
      · exact h1 heq.2.2.1
      · exact h1 heq.2.2.2
    rw [if_pos hc, if_pos hne]
    exact ⟨rfl, fun _ => ⟨rfl, rfl⟩⟩
  · have heq : ¬ ((s.world.oracle s.world.trace.length).out1 - s.window._screenOriginX,
          (s.world.oracle s.world.trace.length).out2 - s.window._screenOriginY,
          (s.world.oracle (s.world.trace.length + 1)).out3,
          (s.world.oracle (s.world.trace.length + 1)).out4)
        ≠ (s.window._traits.x, s.window._traits.y, s.window._traits.width,
            s.window._traits.height) := by
      push_neg at hc ⊢
      rw [hc.1, hc.2.1, hc.2.2.1, hc.2.2.2]
    rw [if_neg hc, if_neg heq]
    exact ⟨rfl, fun h => absurd rfl h⟩

/-- Witness of `handleNativeWindowingEvent_no_clamp_on_one_zero` : the size message on the
window `flattenedWindow`, whose client rectangle is reported 640 wide and 0 high. -/
theorem handleNativeWindowingEvent_no_clamp_on_one_zero_witness :
    (WM_SIZE = WM_MOVE ∨ WM_SIZE = WM_SIZE)
      ∧ (((flattenedWindow.world.oracle (flattenedWindow.world.trace.length + 1)).out3 = 0
            ∧ (flattenedWindow.world.oracle (flattenedWindow.world.trace.length + 1)).out4 ≠ 0)
          ∨ ((flattenedWindow.world.oracle (flattenedWindow.world.trace.length + 1)).out3 ≠ 0
            ∧ (flattenedWindow.world.oracle (flattenedWindow.world.trace.length + 1)).out4
                = 0))
      ∧ (((handleNativeWindowingEvent 100 WM_SIZE 0 0 5
              flattenedWindow).2.window.eventQueue.events
          = if ((flattenedWindow.world.oracle flattenedWindow.world.trace.length).out1
                  - flattenedWindow.window._screenOriginX,
                (flattenedWindow.world.oracle flattenedWindow.world.trace.length).out2
                  - flattenedWindow.window._screenOriginY,
                (flattenedWindow.world.oracle (flattenedWindow.world.trace.length + 1)).out3,
                (flattenedWindow.world.oracle (flattenedWindow.world.trace.length + 1)).out4)
              ≠ (flattenedWindow.window._traits.x, flattenedWindow.window._traits.y,
                  flattenedWindow.window._traits.width,
                  flattenedWindow.window._traits.height) then
              flattenedWindow.window.eventQueue.events
                ++ [GUIEvent.windowResize
                      ((flattenedWindow.world.oracle flattenedWindow.world.trace.length).out1
                        - flattenedWindow.window._screenOriginX)
                      ((flattenedWindow.world.oracle flattenedWindow.world.trace.length).out2
                        - flattenedWindow.window._screenOriginY)
                      (flattenedWindow.world.oracle
                        (flattenedWindow.world.trace.length + 1)).out3
                      (flattenedWindow.world.oracle
                        (flattenedWindow.world.trace.length + 1)).out4
                      flattenedWindow.window._timeOfLastCheckEvents]
            else flattenedWindow.window.eventQueue.events)
        ∧ ((handleNativeWindowingEvent 100 WM_SIZE 0 0 5
                flattenedWindow).2.window.eventQueue.events
              ≠ flattenedWindow.window.eventQueue.events →
            (handleNativeWindowingEvent 100 WM_SIZE 0 0 5
                flattenedWindow).2.window._traits.width
                = (flattenedWindow.world.oracle
                    (flattenedWindow.world.trace.length + 1)).out3
              ∧ (handleNativeWindowingEvent 100 WM_SIZE 0 0 5
                  flattenedWindow).2.window._traits.height
                = (flattenedWindow.world.oracle
                    (flattenedWindow.world.trace.length + 1)).out4)) :=
  ⟨Or.inr rfl, Or.inr (by decide),
    handleNativeWindowingEvent_no_clamp_on_one_zero 100 WM_SIZE 0 0 5 flattenedWindow
      (Or.inr rfl) (Or.inr (by decide))⟩

/-! ## Theorems : unhandled messages -/

theorem handleNativeWindowingEvent.switch_of_unhandled (hwnd : HWND)
    (uMsg wParam lParam : Nat) (eventTime : Time) (s : State)
    (hun : uMsg ∉ handleNativeWindowingEvent.caseLabels) :
    handleNativeWindowingEvent.switch hwnd uMsg wParam lParam eventTime s
      = handleNativeWindowingEvent.onDefault hwnd uMsg wParam lParam s := by
  simp only [handleNativeWindowingEvent.caseLabels, List.mem_cons, List.mem_singleton,
    List.not_mem_nil, or_false, not_or] at hun
  obtain ⟨h1, h2, h3, h4, h5, h6, h7, h8, h9, h10, h11, h12, h13, h14, h15, h16, h17, h18,
    h19⟩ := hun
  unfold handleNativeWindowingEvent.switch
  rw [if_neg h1, if_neg h2, if_neg (by rintro (h | h | h); exact h3 h; exact h4 h; exact h5 h),
    if_neg (by rintro (h | h | h); exact h6 h; exact h7 h; exact h8 h), if_neg h9,
    if_neg (by rintro (h | h); exact h10 h; exact h11 h),
    if_neg (by rintro (h | h); exact h12 h; exact h13 h),
    if_neg (by rintro (h | h); exact h14 h; exact h15 h),
    if_neg h16, if_neg h17, if_neg h18, if_neg h19]

theorem handleNativeWindowingEvent_of_unhandled (hwnd : HWND) (uMsg wParam lParam : Nat)
    (now : Time) (s : State) (hun : uMsg ∉ handleNativeWindowingEvent.caseLabels) :
    handleNativeWindowingEvent hwnd uMsg wParam lParam now s
      = ((s.world.oracle s.world.trace.length).ret,
          State.mk { s.window with _timeOfLastCheckEvents := now }
            (s.world.native
              (if s.window._ownsWindow = true then
                NativeCall.DefWindowProc hwnd uMsg wParam lParam
              else if s.window._windowProcedure = 0 then
                NativeCall.DefWindowProc hwnd uMsg wParam lParam
              else NativeCall.CallWindowProc s.window._windowProcedure hwnd uMsg wParam
                lParam)).2) := by
  unfold handleNativeWindowingEvent
  dsimp only
  rw [handleNativeWindowingEvent.switch_of_unhandled _ _ _ _ _ _ hun]
  unfold handleNativeWindowingEvent.onDefault
  dsimp only
  by_cases ho : s.window._ownsWindow = true
  · simp only [if_pos ho]
    rfl
  · simp only [if_neg ho]
    by_cases hp : s.window._windowProcedure = 0
    · simp only [if_pos hp]
      rfl
    · simp only [if_neg hp]
      rfl

/-- C25: fall-through of unhandled messages.  For every message type which has no case in
the `switch`, `handleNativeWindowingEvent` issues exactly one native call and returns its
result: `DefWindowProc` when the window owns its native window; for an adopted window,
`CallWindowProc` on the saved window procedure when one was saved at registration, and
`DefWindowProc` otherwise.  No notification is sent to the event queue, the pending close
and destroy flags keep their values, and nothing in the window changes but the time of the
last `checkEvents`. -/
theorem handleNativeWindowingEvent_fall_through (hwnd : HWND) (uMsg wParam lParam : Nat)
    (now : Time) (s : State) (hun : uMsg ∉ handleNativeWindowingEvent.caseLabels) :
    (handleNativeWindowingEvent hwnd uMsg wParam lParam now s).2.world.eventsSince s.world
        = [⟨if s.window._ownsWindow = true then
              NativeCall.DefWindowProc hwnd uMsg wParam lParam
            else if s.window._windowProcedure = 0 then
              NativeCall.DefWindowProc hwnd uMsg wParam lParam
            else NativeCall.CallWindowProc s.window._windowProcedure hwnd uMsg wParam lParam,
            s.world.oracle s.world.trace.length⟩]
      ∧ (handleNativeWindowingEvent hwnd uMsg wParam lParam now s).1
          = (s.world.oracle s.world.trace.length).ret
      ∧ (handleNativeWindowingEvent hwnd uMsg wParam lParam now s).2.window.eventQueue
          = s.window.eventQueue
      ∧ (handleNativeWindowingEvent hwnd uMsg wParam lParam now s).2.window._closeWindow
          = s.window._closeWindow
      ∧ (handleNativeWindowingEvent hwnd uMsg wParam lParam now s).2.window._destroyWindow
          = s.window._destroyWindow
      ∧ (handleNativeWindowingEvent hwnd uMsg wParam lParam now s).2.window
          = { s.window with _timeOfLastCheckEvents := now } := by
  rw [handleNativeWindowingEvent_of_unhandled hwnd uMsg wParam lParam now s hun]
  refine ⟨?_, rfl, rfl, rfl, rfl, rfl⟩
  simp [World.eventsSince, World.native]

/-- Witness of `handleNativeWindowingEvent_fall_through` : the message `WM_TIMER` (`0x0113`)
sent to the adopted window `adoptedWindow`, which saved the window procedure `102`. -/
theorem handleNativeWindowingEvent_fall_through_witness :
    (0x0113 : Nat) ∉ handleNativeWindowingEvent.caseLabels
      ∧ (adoptedWindow true).window._ownsWindow = false
      ∧ (adoptedWindow true).window._windowProcedure = 102
      ∧ ((handleNativeWindowingEvent 77 0x0113 0 0 5
              (adoptedWindow true)).2.world.eventsSince (adoptedWindow true).world
            = [⟨if (adoptedWindow true).window._ownsWindow = true then
                  NativeCall.DefWindowProc 77 0x0113 0 0
                else if (adoptedWindow true).window._windowProcedure = 0 then
                  NativeCall.DefWindowProc 77 0x0113 0 0
                else NativeCall.CallWindowProc (adoptedWindow true).window._windowProcedure
                  77 0x0113 0 0,
                (adoptedWindow true).world.oracle (adoptedWindow true).world.trace.length⟩]
        ∧ (handleNativeWindowingEvent 77 0x0113 0 0 5 (adoptedWindow true)).1
            = ((adoptedWindow true).world.oracle (adoptedWindow true).world.trace.length).ret
        ∧ (handleNativeWindowingEvent 77 0x0113 0 0 5 (adoptedWindow true)).2.window.eventQueue
            = (adoptedWindow true).window.eventQueue
        ∧ (handleNativeWindowingEvent 77 0x0113 0 0 5
              (adoptedWindow true)).2.window._closeWindow
            = (adoptedWindow true).window._closeWindow
        ∧ (handleNativeWindowingEvent 77 0x0113 0 0 5
              (adoptedWindow true)).2.window._destroyWindow
            = (adoptedWindow true).window._destroyWindow
        ∧ (handleNativeWindowingEvent 77 0x0113 0 0 5 (adoptedWindow true)).2.window
            = { (adoptedWindow true).window with _timeOfLastCheckEvents := 5 }) :=
  ⟨by decide, by decide, by decide,
    handleNativeWindowingEvent_fall_through 77 0x0113 0 0 5 (adoptedWindow true)
      (by decide)⟩

/-! ## Theorems : adoption of a native window -/

/-- C28 fails on the code.  The window `adoptingWindow` adopts the native window `77` with
the pixel format of the inherited window to be set.  `setWindow` obtains the device context
`100`, then `setPixelFormat` fails (its sample window cannot be created) and `setWindow`
returns false with the three handles null and nothing registered: but the native calls
issued are `GetDC`, `RegisterClassEx` and `CreateWindowEx` only, the release-DC call for the
device context `100` of the window `77` is not among them. -/
theorem setWindow_leaks_device_context :
    adoptingWindow.window._traits.setInheritedWindowPixelFormat = true
      ∧ (setWindow 77 adoptingWindow).1 = false
      ∧ calls (setWindow 77 adoptingWindow).2.world.trace
          = [NativeCall.GetDC 77, NativeCall.RegisterClassEx true,
             NativeCall.CreateWindowEx WS_EX_OVERLAPPEDWINDOW false none
               (WS_CLIPSIBLINGS ||| WS_CLIPCHILDREN ||| WS_DISABLED) 0 0 1 1]
      ∧ ((setWindow 77 adoptingWindow).2.world.trace.head?).map (fun e => e.result.handle)
          = some 100
      ∧ NativeCall.ReleaseDC 77 100 ∉ calls (setWindow 77 adoptingWindow).2.world.trace
      ∧ (setWindow 77 adoptingWindow).2.window._hwnd = 0
      ∧ (setWindow 77 adoptingWindow).2.window._hdc = 0
      ∧ (setWindow 77 adoptingWindow).2.window._hglrc = 0
      ∧ (setWindow 77 adoptingWindow).2.world.windowingSystem._activeWindows = [] := by
  decide

/-! ## Theorems : the sample context -/

theorem registerWindowClasses_currentContext (w : World) :
    (registerWindowClasses w).currentContext = w.currentContext := by
  unfold registerWindowClasses
  simp only []
  split_ifs <;> rfl

theorem registerWindowClasses_oracle (w : World) :
    (registerWindowClasses w).oracle = w.oracle :=
  (registerWindowClasses_ext (World.Extends.refl w)).1

theorem toInt32_toUInt32 (v : Int) (h1 : -2147483648 ≤ v) (h2 : v < 2147483648) :
    toInt32 (toUInt32 v) = v := by
  unfold toInt32 toUInt32
  have hnn : 0 ≤ v % 4294967296 := Int.emod_nonneg _ (by decide)
  have hlt : v % 4294967296 < 4294967296 := Int.emod_lt_of_pos _ (by decide)
  have hm : (v % 4294967296).toNat % 4294967296 = (v % 4294967296).toNat := by
    apply Nat.mod_eq_of_lt
    omega
  rw [hm]
  have hc : Int.ofNat (v % 4294967296).toNat = v % 4294967296 := Int.toNat_of_nonneg hnn
  split_ifs with hlo
  · rw [hc]; omega
  · rw [hc]; omega

theorem toUInt32_of_nonneg (v : Int) (h1 : 0 ≤ v) (h2 : v < 4294967296) :
    Int.ofNat (toUInt32 v) = v := by
  unfold toUInt32
  rw [Int.emod_eq_of_lt h1 h2]
  exact Int.toNat_of_nonneg h1

theorem determineWindowPositionAndStyle_of_no_screen (decorated : Bool)
    (p : WindowPositionAndStyle) (s : State) (ox oy : Int) (sw sh : Nat)
    (hsp : getScreenPosition s.world
      { displayNum := 0, screenNum := s.window._traits.screenNum } = (ox, oy, sw, sh))
    (hz : sw = 0 ∨ sh = 0) :
    (determineWindowPositionAndStyle decorated p s).1 = false := by
  unfold determineWindowPositionAndStyle
  dsimp only
  rw [hsp]
  dsimp only
  rw [if_pos hz]

theorem determineWindowPositionAndStyle_undecorated (p : WindowPositionAndStyle) (s : State)
    (ox oy : Int) (sw sh : Nat)
    (hsp : getScreenPosition s.world
      { displayNum := 0, screenNum := s.window._traits.screenNum } = (ox, oy, sw, sh))
    (hw : sw ≠ 0) (hh : sh ≠ 0) :
    (determineWindowPositionAndStyle false p s).1 = true
      ∧ (determineWindowPositionAndStyle false p s).2.1
          = { x := s.window._traits.x + ox, y := s.window._traits.y + oy,
              w := toUInt32 s.window._traits.width, h := toUInt32 s.window._traits.height,
              style := WS_POPUP ||| WS_CLIPSIBLINGS ||| WS_CLIPCHILDREN,
              extendedStyle := 0 } := by
  unfold determineWindowPositionAndStyle
  dsimp only
  rw [hsp]
  dsimp only
  rw [if_neg (by rintro (h | h); exact hw h; exact hh h)]
  simp

theorem determineWindowPositionAndStyle_decorated (p : WindowPositionAndStyle) (s : State)
    (ox oy : Int) (sw sh : Nat)
    (hsp : getScreenPosition s.world
      { displayNum := 0, screenNum := s.window._traits.screenNum } = (ox, oy, sw, sh))
    (hw : sw ≠ 0) (hh : sh ≠ 0)
    (hok : (s.world.oracle s.world.trace.length).ok = true) :
    (determineWindowPositionAndStyle true p s).1 = true
      ∧ (determineWindowPositionAndStyle true p s).2.1.x
          = (s.world.oracle s.world.trace.length).out1
      ∧ (determineWindowPositionAndStyle true p s).2.1.y
          = (s.world.oracle s.world.trace.length).out2
      ∧ (determineWindowPositionAndStyle true p s).2.1.w
          = toUInt32 ((s.world.oracle s.world.trace.length).out3
              - (s.world.oracle s.world.trace.length).out1 + 1)
      ∧ (determineWindowPositionAndStyle true p s).2.1.h
          = toUInt32 ((s.world.oracle s.world.trace.length).out4
              - (s.world.oracle s.world.trace.length).out2 + 1)
      ∧ (determineWindowPositionAndStyle true p s).2.2.world.callsSince s.world
          = [NativeCall.AdjustWindowRectEx (s.window._traits.x + ox) (s.window._traits.y + oy)
              (toInt32 (toUInt32 (s.window._traits.x + ox
                + Int.ofNat (toUInt32 s.window._traits.width) - 1)))
              (toInt32 (toUInt32 (s.window._traits.y + oy
                + Int.ofNat (toUInt32 s.window._traits.height) - 1)))
              (WS_POPUP ||| WS_CLIPSIBLINGS ||| WS_CLIPCHILDREN
                ||| (WS_CAPTION ||| WS_SYSMENU ||| WS_MINIMIZEBOX ||| WS_MAXIMIZEBOX)
                ||| (if s.window._traits.supportsResize = true then WS_SIZEBOX else 0))
              (WS_EX_APPWINDOW ||| WS_EX_OVERLAPPEDWINDOW ||| WS_EX_ACCEPTFILES
                ||| WS_EX_LTRREADING)] := by
  unfold determineWindowPositionAndStyle
  dsimp only
  rw [hsp]
  dsimp only
  rw [if_neg (by rintro (h | h); exact hw h; exact hh h)]
  by_cases hr : s.window._traits.supportsResize = true
  · simp [World.native, World.callsSince, calls, hok, hr]
  · simp [World.native, World.callsSince, calls, hok, hr]

/-- C30: decorated window geometry preserves the requested client size.  `(ox, oy)` and
`(sw, sh)` are the origin and the size which `getScreenPosition` reports for the screen of
the Traits.  (1) Whenever the width or the height of the screen is reported as 0, the
function fails, decorated or not.  (2) Without decoration, for a requested size within
`unsigned int`, it returns the rectangle `(Traits.x + ox, Traits.y + oy, Traits.width,
Traits.height)` with extended style 0.  (3) With decoration, when the corners
`(x, y) - (x + w - 1, y + h - 1)` of the requested client area are representable and
`AdjustWindowRectEx` succeeds and moves left and top outward by `(bl, bt)` and right and
bottom outward by `(br, bb)`, the corners passed to it are exactly those, and the returned
outer rectangle is `x = Traits.x + ox - bl`, `y = Traits.y + oy - bt`,
`w = Traits.width + bl + br`, `h = Traits.height + bt + bb`. -/
theorem determineWindowPositionAndStyle_geometry (p : WindowPositionAndStyle) (s : State)
    (ox oy : Int) (sw sh : Nat)
    (hsp : getScreenPosition s.world
      { displayNum := 0, screenNum := s.window._traits.screenNum } = (ox, oy, sw, sh)) :
    ((sw = 0 ∨ sh = 0) →
        ∀ decorated : Bool, (determineWindowPositionAndStyle decorated p s).1 = false)
      ∧ (sw ≠ 0 → sh ≠ 0 →
          0 ≤ s.window._traits.width → s.window._traits.width < 4294967296 →
          0 ≤ s.window._traits.height → s.window._traits.height < 4294967296 →
          (determineWindowPositionAndStyle false p s).1 = true
            ∧ (determineWindowPositionAndStyle false p s).2.1.x = s.window._traits.x + ox
            ∧ (determineWindowPositionAndStyle false p s).2.1.y = s.window._traits.y + oy
            ∧ Int.ofNat (determineWindowPositionAndStyle false p s).2.1.w
                = s.window._traits.width
            ∧ Int.ofNat (determineWindowPositionAndStyle false p s).2.1.h
                = s.window._traits.height
            ∧ (determineWindowPositionAndStyle false p s).2.1.extendedStyle = 0)
      ∧ (∀ bl bt br bb : Int, sw ≠ 0 → sh ≠ 0 →
          0 ≤ s.window._traits.width → s.window._traits.width < 4294967296 →
          0 ≤ s.window._traits.height → s.window._traits.height < 4294967296 →
          -2147483648 ≤ s.window._traits.x + ox + s.window._traits.width - 1 →
          s.window._traits.x + ox + s.window._traits.width - 1 < 2147483648 →
          -2147483648 ≤ s.window._traits.y + oy + s.window._traits.height - 1 →
          s.window._traits.y + oy + s.window._traits.height - 1 < 2147483648 →
          0 ≤ s.window._traits.width + bl + br →
          s.window._traits.width + bl + br < 4294967296 →
          0 ≤ s.window._traits.height + bt + bb →
          s.window._traits.height + bt + bb < 4294967296 →
          (s.world.oracle s.world.trace.length).ok = true →
          (s.world.oracle s.world.trace.length).out1 = s.window._traits.x + ox - bl →
          (s.world.oracle s.world.trace.length).out2 = s.window._traits.y + oy - bt →
          (s.world.oracle s.world.trace.length).out3
            = s.window._traits.x + ox + s.window._traits.width - 1 + br →
          (s.world.oracle s.world.trace.length).out4
            = s.window._traits.y + oy + s.window._traits.height - 1 + bb →
          (determineWindowPositionAndStyle true p s).1 = true
            ∧ (∃ style extendedStyle : Nat,
                (determineWindowPositionAndStyle true p s).2.2.world.callsSince s.world
                  = [NativeCall.AdjustWindowRectEx (s.window._traits.x + ox)
                      (s.window._traits.y + oy)
                      (s.window._traits.x + ox + s.window._traits.width - 1)
                      (s.window._traits.y + oy + s.window._traits.height - 1)
                      style extendedStyle])
            ∧ (determineWindowPositionAndStyle true p s).2.1.x = s.window._traits.x + ox - bl
            ∧ (determineWindowPositionAndStyle true p s).2.1.y = s.window._traits.y + oy - bt
            ∧ Int.ofNat (determineWindowPositionAndStyle true p s).2.1.w
                = s.window._traits.width + bl + br
            ∧ Int.ofNat (determineWindowPositionAndStyle true p s).2.1.h
                = s.window._traits.height + bt + bb) := by
  refine ⟨fun hz decorated =>
      determineWindowPositionAndStyle_of_no_screen decorated p s ox oy sw sh hsp hz, ?_, ?_⟩
  · intro hw hh w1 w2 h1 h2
    obtain ⟨e1, e2⟩ := determineWindowPositionAndStyle_undecorated p s ox oy sw sh hsp hw hh
    rw [e2]
    exact ⟨e1, rfl, rfl, toUInt32_of_nonneg _ w1 w2, toUInt32_of_nonneg _ h1 h2, rfl⟩
  · intro bl bt br bb hw hh w1 w2 h1 h2 cx1 cx2 cy1 cy2 ow1 ow2 oh1 oh2 hok a1 a2 a3 a4
    obtain ⟨e1, e2, e3, e4, e5, e6⟩ :=
      determineWindowPositionAndStyle_decorated p s ox oy sw sh hsp hw hh hok
    have ewd := toUInt32_of_nonneg _ w1 w2
    have eht := toUInt32_of_nonneg _ h1 h2
    have er : toInt32 (toUInt32 (s.window._traits.x + ox
        + Int.ofNat (toUInt32 s.window._traits.width) - 1))
        = s.window._traits.x + ox + s.window._traits.width - 1 := by
      rw [ewd]; exact toInt32_toUInt32 _ cx1 cx2
    have eb : toInt32 (toUInt32 (s.window._traits.y + oy
        + Int.ofNat (toUInt32 s.window._traits.height) - 1))
        = s.window._traits.y + oy + s.window._traits.height - 1 := by
      rw [eht]; exact toInt32_toUInt32 _ cy1 cy2
    refine ⟨e1, ⟨_, _, by rw [e6, er, eb]⟩, by rw [e2, a1], by rw [e3, a2], ?_, ?_⟩
    · rw [e4, a3, a1]
      have : s.window._traits.x + ox + s.window._traits.width - 1 + br
          - (s.window._traits.x + ox - bl) + 1 = s.window._traits.width + bl + br := by ring
      rw [this]
      exact toUInt32_of_nonneg _ ow1 ow2
    · rw [e5, a4, a2]
      have : s.window._traits.y + oy + s.window._traits.height - 1 + bb
          - (s.window._traits.y + oy - bt) + 1 = s.window._traits.height + bt + bb := by ring
      rw [this]
      exact toUInt32_of_nonneg _ oh1 oh2

/-- Witness of `determineWindowPositionAndStyle_geometry` : the window `decoratedRequest`,
with borders `bl = 8`, `bt = 31`, `br = 8`, `bb = 8` : the outer rectangle is `(2, -11)`,
816 by 639. -/
theorem determineWindowPositionAndStyle_geometry_witness :
    getScreenPosition decoratedRequest.world
        { displayNum := 0, screenNum := decoratedRequest.window._traits.screenNum }
        = (0, 0, 1024, 768)
      ∧ (determineWindowPositionAndStyle true {} decoratedRequest).1 = true
      ∧ (determineWindowPositionAndStyle true {} decoratedRequest).2.1.x = 10 + 0 - 8
      ∧ (determineWindowPositionAndStyle true {} decoratedRequest).2.1.y = 20 + 0 - 31
      ∧ Int.ofNat (determineWindowPositionAndStyle true {} decoratedRequest).2.1.w
          = 800 + 8 + 8
      ∧ Int.ofNat (determineWindowPositionAndStyle true {} decoratedRequest).2.1.h
          = 600 + 31 + 8 :=
  have h := (determineWindowPositionAndStyle_geometry {} decoratedRequest 0 0 1024 768
    (by decide)).2.2 8 31 8 8 (by decide) (by decide) (by decide) (by decide) (by decide)
    (by decide) (by decide) (by decide) (by decide) (by decide) (by decide) (by decide)
    (by decide) (by decide) (by decide) (by decide) (by decide) (by decide) (by decide)
  ⟨by decide, h.1, h.2.2.1, h.2.2.2.1, h.2.2.2.2.1, h.2.2.2.2.2⟩

/-! ## Theorems : the bit-depth correction -/

theorem setPixelFormat_traits_cases (s : State) :
    (setPixelFormat s).2.window._traits = s.window._traits
      ∨ (getScreenColorDepth s.world s.window._traits.toScreenIdentifier < 32
          ∧ (setPixelFormat s).2.window._traits
              = correctedTraits s.window._traits
                  (getScreenColorDepth s.world s.window._traits.toScreenIdentifier)) := by
  have hb : getScreenColorDepth (sampleContextOf s).2.2 s.window._traits.toScreenIdentifier
      = getScreenColorDepth s.world s.window._traits.toScreenIdentifier :=
    getScreenColorDepth_congr _ _ _ (getSampleOpenGLContext_displayDevices _ _ _ _ _)
  rw [setPixelFormat_traits_eq, negotiatePixelFormat_eq_spec, negotiationSpec_traits, hb]
  by_cases hg : (sampleContextOf s).1 = true
  · rw [if_pos hg]
    split_ifs with h
    · exact Or.inr ⟨h.2, rfl⟩
    · exact Or.inl rfl
  · rw [if_neg hg]
    exact Or.inl rfl

/-- C22 fails on the code.  The window `modestRequest` asks for 2 bits of red, green and blue
on a 16-bit screen.  The first query of the chooser finds no format, so `setPixelFormat`
writes a quarter of the screen depth, 4, into the three values and succeeds with them: each
value was changed and is greater than the one requested before the call. -/
theorem setPixelFormat_raises_small_request :
    modestRequest.window._traits.red = 2
      ∧ modestRequest.window._traits.green = 2
      ∧ modestRequest.window._traits.blue = 2
      ∧ getScreenColorDepth modestRequest.world
          modestRequest.window._traits.toScreenIdentifier = 16
      ∧ (setPixelFormat modestRequest).1 = true
      ∧ (setPixelFormat modestRequest).2.window._traits.red = 4
      ∧ (setPixelFormat modestRequest).2.window._traits.green = 4
      ∧ (setPixelFormat modestRequest).2.window._traits.blue = 4
      ∧ ¬ ((setPixelFormat modestRequest).2.window._traits.red
            ≤ modestRequest.window._traits.red) := by
  decide

/-- C22, amended.  Whenever `setPixelFormat` changes the red, green or blue value of the
Traits, the screen depth `bpp` is below 32 and the three new values are `bpp / 4` (integer
division), hence at most 7, whatever was requested: a request of at least 8 bits (the
default) is lowered, a request below `bpp / 4` is raised.  The new value is at most the
requested one exactly when `bpp / 4` is. -/
theorem setPixelFormat_sets_quarter_depth (s : State)
    (hc : (setPixelFormat s).2.window._traits.red ≠ s.window._traits.red
      ∨ (setPixelFormat s).2.window._traits.green ≠ s.window._traits.green
      ∨ (setPixelFormat s).2.window._traits.blue ≠ s.window._traits.blue) :
    getScreenColorDepth s.world s.window._traits.toScreenIdentifier < 32
      ∧ (setPixelFormat s).2.window._traits.red
          = getScreenColorDepth s.world s.window._traits.toScreenIdentifier / 4
      ∧ (setPixelFormat s).2.window._traits.green
          = getScreenColorDepth s.world s.window._traits.toScreenIdentifier / 4
      ∧ (setPixelFormat s).2.window._traits.blue
          = getScreenColorDepth s.world s.window._traits.toScreenIdentifier / 4
      ∧ (setPixelFormat s).2.window._traits.red ≤ 7
      ∧ (8 ≤ s.window._traits.red →
          (setPixelFormat s).2.window._traits.red < s.window._traits.red)
      ∧ (8 ≤ s.window._traits.green →
          (setPixelFormat s).2.window._traits.green < s.window._traits.green)
      ∧ (8 ≤ s.window._traits.blue →
          (setPixelFormat s).2.window._traits.blue < s.window._traits.blue)
      ∧ (s.window._traits.red
            < getScreenColorDepth s.world s.window._traits.toScreenIdentifier / 4 →
          s.window._traits.red < (setPixelFormat s).2.window._traits.red) := by
  rcases setPixelFormat_traits_cases s with h | ⟨hb, h⟩
  · rw [h] at hc
    simp at hc
  · rw [h]
    simp only [correctedTraits]
    refine ⟨hb, trivial, trivial, trivial, ?_, ?_, ?_, ?_, fun h => h⟩ <;> omega

theorem setPixelFormat_sets_quarter_depth_witness :
    ((setPixelFormat modestRequest).2.window._traits.red ≠ modestRequest.window._traits.red
      ∨ (setPixelFormat modestRequest).2.window._traits.green
          ≠ modestRequest.window._traits.green
      ∨ (setPixelFormat modestRequest).2.window._traits.blue
          ≠ modestRequest.window._traits.blue)
      ∧ getScreenColorDepth modestRequest.world
          modestRequest.window._traits.toScreenIdentifier < 32
      ∧ (setPixelFormat modestRequest).2.window._traits.red
          = getScreenColorDepth modestRequest.world
              modestRequest.window._traits.toScreenIdentifier / 4 :=
  ⟨Or.inl (by decide),
    (setPixelFormat_sets_quarter_depth modestRequest (Or.inl (by decide))).1,
    (setPixelFormat_sets_quarter_depth modestRequest (Or.inl (by decide))).2.1⟩

/-! ## Theorems : the graphics-context factory -/

theorem GraphicsWindowWin32.construct_valid (d : Bool) (this : WindowPtr) (traits : Traits)
    (w : World) :
    (GraphicsWindowWin32.construct d this traits w).window.valid
      = (GraphicsWindowWin32.construct d this traits w).window._initialized := by
  unfold GraphicsWindowWin32.construct init GraphicsWindowWin32.valid
  dsimp only
  rw [if_neg (by simp)]

theorem createGraphicsContext_of_pbuffer (d : Bool) (this : WindowPtr) (traits : Traits)
    (w : World) (h : traits.pbuffer = true) :
    createGraphicsContext d this traits w = (GraphicsContext.null, w) := by
  unfold createGraphicsContext
  rw [if_pos h]
  rfl

/-- C21 fails on the code.  No Traits which request a pbuffer obtain a context from the
factory: the constructor of the offscreen class sets its validity member to false, nothing
sets it afterwards, and the factory returns the null pointer for a context which is not
valid. -/
theorem createGraphicsContext_pbuffer_never_created :
    ¬ ∃ (d : Bool) (this : WindowPtr) (traits : Traits) (w : World),
        traits.pbuffer = true
          ∧ (createGraphicsContext d this traits w).1 ≠ GraphicsContext.null := by
  rintro ⟨d, this, traits, w, h, hne⟩
  rw [createGraphicsContext_of_pbuffer d this traits w h] at hne
  exact hne rfl

/-- C21, amended.  For Traits which request a pbuffer the factory returns the null pointer
and leaves the world as it was: no native call is issued.  For Traits which do not, the
factory registers the window classes and constructs a window; it returns that window, in
the world its constructor left, when the `init` of the constructor succeeded, and otherwise
the null pointer, in the world which the destructor of the window leaves. -/
theorem createGraphicsContext_result (d : Bool) (this : WindowPtr) (traits : Traits)
    (w : World) :
    (traits.pbuffer = true → createGraphicsContext d this traits w = (GraphicsContext.null, w))
      ∧ (traits.pbuffer = false →
          ((GraphicsWindowWin32.construct d this traits
                (registerWindowClasses w)).window._initialized = true →
            createGraphicsContext d this traits w
              = (GraphicsContext.window
                  (GraphicsWindowWin32.construct d this traits
                    (registerWindowClasses w)).window,
                 (GraphicsWindowWin32.construct d this traits (registerWindowClasses w)).world))
          ∧ ((GraphicsWindowWin32.construct d this traits
                (registerWindowClasses w)).window._initialized = false →
            createGraphicsContext d this traits w
              = (GraphicsContext.null,
                 GraphicsWindowWin32.destructor d
                  (GraphicsWindowWin32.construct d this traits (registerWindowClasses w))))
          ∧ ((createGraphicsContext d this traits w).1 ≠ GraphicsContext.null ↔
              (GraphicsWindowWin32.construct d this traits
                (registerWindowClasses w)).window._initialized = true)) := by
  refine ⟨createGraphicsContext_of_pbuffer d this traits w, fun h => ?_⟩
  have hv := GraphicsWindowWin32.construct_valid d this traits (registerWindowClasses w)
  have h1 : (GraphicsWindowWin32.construct d this traits
        (registerWindowClasses w)).window._initialized = true →
      createGraphicsContext d this traits w
        = (GraphicsContext.window
            (GraphicsWindowWin32.construct d this traits (registerWindowClasses w)).window,
           (GraphicsWindowWin32.construct d this traits (registerWindowClasses w)).world) := by
    intro hi
    unfold createGraphicsContext
    rw [if_neg (by simp [h])]
    dsimp only
    rw [hv, if_pos hi]
  have h2 : (GraphicsWindowWin32.construct d this traits
        (registerWindowClasses w)).window._initialized = false →
      createGraphicsContext d this traits w
        = (GraphicsContext.null,
           GraphicsWindowWin32.destructor d
            (GraphicsWindowWin32.construct d this traits (registerWindowClasses w))) := by
    intro hi
    unfold createGraphicsContext
    rw [if_neg (by simp [h])]
    dsimp only
    rw [hv, if_neg (by simp [hi])]
  refine ⟨h1, h2, ?_⟩
  by_cases hi : (GraphicsWindowWin32.construct d this traits
      (registerWindowClasses w)).window._initialized = true
  · rw [h1 hi]
    simp [hi]
  · rw [h2 (by simpa using hi)]
    simp [hi]

theorem createGraphicsContext_result_witness :
    (createGraphicsContext true 1 { width := 800, height := 600, pbuffer := true }
        { oracle := successOracle, displayDevices := oneScreen 32 }).1 = GraphicsContext.null
      ∧ (GraphicsWindowWin32.construct true 1 { width := 800, height := 600 }
          (registerWindowClasses
            { oracle := successOracle, displayDevices := oneScreen 32 })).window._initialized
          = true
      ∧ (createGraphicsContext true 1 { width := 800, height := 600 }
          { oracle := successOracle, displayDevices := oneScreen 32 }).1 ≠ GraphicsContext.null
      ∧ (createGraphicsContext true 1 { width := 800, height := 600 }
          (failingWorld 0)).1 = GraphicsContext.null :=
  ⟨by rw [(createGraphicsContext_result true 1
        { width := 800, height := 600, pbuffer := true }
        { oracle := successOracle, displayDevices := oneScreen 32 }).1 rfl],
    by decide,
    ((createGraphicsContext_result true 1 { width := 800, height := 600 }
        { oracle := successOracle, displayDevices := oneScreen 32 }).2 rfl).2.2.2 (by decide),
    by decide⟩

/-! ## Theorems : realizing an uninitialized sharing window -/

theorem destroyWindow_realized (b : Bool) (s : State) (h : s.window._realized = false) :
    (destroyWindow b s).window._realized = false := by
  by_cases hd : s.window._destroying = true
  · rw [destroyWindow_of_destroying b s hd]; exact h
  · obtain ⟨wp, hw, -⟩ := destroyWindow_fields b s (by simpa using hd)
    rw [hw]

theorem setPixelFormat_realized (s : State) :
    (setPixelFormat s).2.window._realized = s.window._realized := by
  obtain ⟨ok, t, g, w2, heq, -⟩ := setPixelFormat_spec s
  rw [heq]

theorem createWindow_realized (d : Bool) (s : State) (h : s.window._realized = false) :
    (createWindow d s).2.window._realized = false := by
  obtain ⟨win, world⟩ := s
  dsimp only at h
  unfold createWindow
  dsimp only
  obtain ⟨ok1, p2, ox, oy, sw, sh, w1, hd, -⟩ :=
    determineWindowPositionAndStyle_spec win._traits.windowDecoration
      { x := win._windowOriginXToRealize, y := win._windowOriginYToRealize,
        w := win._windowWidthToRealize, h := win._windowHeightToRealize }
      { window := win, world := world }
  rw [hd]
  dsimp only
  cases ok1
  · simp only [if_true]
    exact h
  · simp only [Bool.true_eq_false, if_false]
    generalize w1.native (NativeCall.CreateWindowEx p2.extendedStyle win._traits.useCursor
      (some win._traits.windowName) p2.style p2.x p2.y p2.w p2.h) = r1
    by_cases h1 : r1.1.handle = 0
    · simp only [h1, if_true]
      exact h
    · simp only [h1, if_false]
      generalize r1.2.native (NativeCall.GetDC r1.1.handle) = r2
      by_cases h2 : r2.1.handle = 0
      · simp only [h2, if_true]
        exact destroyWindow_realized d _ h
      · simp only [h2, if_false]
        generalize hs3 : State.mk { win with
            _screenOriginX := ox, _screenOriginY := oy, _screenWidth := sw,
            _screenHeight := sh, _windowOriginXToRealize := p2.x,
            _windowOriginYToRealize := p2.y, _windowWidthToRealize := p2.w,
            _windowHeightToRealize := p2.h, _hwnd := r1.1.handle, _hdc := r2.1.handle } r2.2
          = s3
        have hs3r : s3.window._realized = false := by rw [← hs3]; exact h
        have hp := setPixelFormat_realized s3
        generalize setPixelFormat s3 = p at hp ⊢
        obtain ⟨ok, pw, pwd⟩ := p
        dsimp only at hp ⊢
        cases ok
        · simp only [if_true]
          exact destroyWindow_realized d _ (by dsimp only; rw [hp, hs3r])
        · simp only [Bool.true_eq_false, if_false]
          rw [hp, hs3r]

theorem setWindow_realized (handle : HWND) (s : State) (h : s.window._realized = false) :
    (setWindow handle s).2.window._realized = false := by
  obtain ⟨win, world⟩ := s
  dsimp only at h
  unfold setWindow
  dsimp only
  by_cases h0 : win._initialized = true
  · rw [if_pos h0]; exact h
  · rw [if_neg h0]
    by_cases h1 : handle = 0
    · rw [if_pos h1]; exact h
    · rw [if_neg h1, if_neg h1]
      generalize world.native (NativeCall.GetDC handle) = rd
      by_cases h2 : rd.1.handle = 0
      · rw [if_pos h2]; exact h
      · rw [if_neg h2]
        obtain ⟨ok, t, g, hw, hd, w2, heq, -⟩ := setWindow.context_spec
          (State.mk { win with _hwnd := handle, _hdc := rd.1.handle } rd.2)
        rw [heq]
        dsimp only
        cases ok
        · simp only [if_true]; exact h
        · simp only [Bool.true_eq_false, if_false]
          unfold setWindow.register
          obtain ⟨ok2, wp, w3, heq2, -⟩ := registerWindowProcedure_spec
            (State.mk { win with _hwnd := hw, _hdc := hd, _traits := t, _hglrc := g } w2)
          rw [heq2]
          dsimp only
          cases ok2
          · simp only [if_true]; exact h
          · simp only [Bool.true_eq_false, if_false]; exact h

theorem init_realized (d : Bool) (s : State) (h : s.window._realized = false) :
    (init d s).window._realized = false := by
  unfold init
  dsimp only
  by_cases hi : s.window._initialized = true
  · rw [if_pos hi]; exact h
  · rw [if_neg hi]
    dsimp only
    split_ifs
    · exact createWindow_realized d _ h
    · exact setWindow_realized _ _ h

theorem init_sharedContext (d : Bool) (s : State) :
    (init d s).window._traits.sharedContext = s.window._traits.sharedContext := by
  unfold init
  dsimp only
  by_cases hi : s.window._initialized = true
  · rw [if_pos hi]
  · rw [if_neg hi]
    dsimp only
    split_ifs
    · obtain ⟨ok, win2, w2, heq, -, -, ht, -⟩ := createWindow_spec d
        (State.mk { s.window with
          _ownsWindow := decide (s.window._traits.inheritedWindowData = 0),
          _closeWindow := false, _destroyWindow := false, _destroying := false } s.world) rfl
      rw [heq]
      exact sharedContext_of_corrected ht
    · obtain ⟨ok, win2, w2, heq, -, -, ht, -⟩ := setWindow_spec
        s.window._traits.inheritedWindowData
        (State.mk { s.window with
          _ownsWindow := decide (s.window._traits.inheritedWindowData = 0),
          _closeWindow := false, _destroyWindow := false, _destroying := false } s.world)
      rw [heq]
      exact sharedContext_of_corrected ht

theorem World.native_noShareLists {w : World} {k : Nat} {c : NativeCall}
    (h : w.noShareListsFrom k) (hc : c.isShareLists = false) :
    (w.native c).2.noShareListsFrom k := by
  intro e he
  rw [World.native_trace, List.drop_append_eq_append_drop] at he
  rcases List.mem_append.mp he with h1 | h1
  · exact h e h1
  · have h2 := List.mem_of_mem_drop h1
    rw [List.mem_singleton] at h2
    rw [h2]
    exact hc

theorem World.wglMakeCurrent_noShareLists {w : World} {k : Nat} (hdc : HDC) (hglrc : HGLRC)
    (h : w.noShareListsFrom k) : (w.wglMakeCurrent hdc hglrc).2.noShareListsFrom k := by
  intro e he
  rw [World.wglMakeCurrent_trace, List.drop_append_eq_append_drop] at he
  rcases List.mem_append.mp he with h1 | h1
  · exact h e h1
  · have h2 := List.mem_of_mem_drop h1
    rw [List.mem_singleton] at h2
    rw [h2]
    rfl

theorem registerWindowClasses_noShareLists {w : World} {k : Nat} (h : w.noShareListsFrom k) :
    (registerWindowClasses w).noShareListsFrom k := by
  unfold registerWindowClasses
  simp only []
  split_ifs <;>
    repeat (first | exact h | rfl | apply World.native_noShareLists)

theorem OpenGLContext.makeCurrent_noShareLists {w : World} {k : Nat} (c : OpenGLContext)
    (hdc : HDC) (b : Bool) (h : w.noShareListsFrom k) :
    (c.makeCurrent hdc b w).2.2.noShareListsFrom k := by
  unfold OpenGLContext.makeCurrent
  simp only []
  split_ifs <;> dsimp only <;>
    repeat (first | exact h | apply World.wglMakeCurrent_noShareLists)

theorem OpenGLContext.destructor_noShareLists {w : World} {k : Nat} (c : OpenGLContext)
    (h : w.noShareListsFrom k) : (c.destructor w).noShareListsFrom k := by
  unfold OpenGLContext.destructor
  simp only []
  split_ifs <;>
    repeat (first | exact h | rfl | apply World.native_noShareLists
                  | apply World.wglMakeCurrent_noShareLists)

theorem getSampleOpenGLContext_noShareLists {w : World} {k : Nat} (c : OpenGLContext)
    (hdc : HDC) (x y : Int) (h : w.noShareListsFrom k) :
    (getSampleOpenGLContext c hdc x y w).2.2.noShareListsFrom k := by
  unfold getSampleOpenGLContext
  simp only []
  split_ifs <;> dsimp only <;>
    repeat (first | exact h | rfl | apply World.native_noShareLists
                  | apply OpenGLContext.makeCurrent_noShareLists
                  | apply registerWindowClasses_noShareLists)

theorem ChooseMatchingPixelFormat_noShareLists {w : World} {k : Nat} (hdc : HDC)
    (a : WGLIntegerAttributes) (t : Traits) (h : w.noShareListsFrom k) :
    (ChooseMatchingPixelFormat hdc a t w).2.noShareListsFrom k := by
  unfold ChooseMatchingPixelFormat
  simp only []
  split_ifs <;> dsimp only <;>
    repeat (first | exact h | rfl | apply World.native_noShareLists)

theorem negotiationSpec_noShareLists {w : World} {k : Nat}
    (choose : Bool → Traits → World → Int × World)
    (hc : ∀ b t w1, w1.noShareListsFrom k → (choose b t w1).2.noShareListsFrom k)
    (bpp : Nat) (t : Traits) (h : w.noShareListsFrom k) :
    (negotiationSpec choose bpp t w).2.2.noShareListsFrom k := by
  unfold negotiationSpec
  simp only []
  split_ifs <;> dsimp only <;> repeat (first | exact h | apply hc)

theorem negotiatePixelFormat_noShareLists {w : World} {k : Nat} (hdc : HDC) (t : Traits)
    (h : w.noShareListsFrom k) : (negotiatePixelFormat hdc t w).2.2.noShareListsFrom k := by
  rw [negotiatePixelFormat_eq_spec]
  exact negotiationSpec_noShareLists _
    (fun b t w1 h1 => ChooseMatchingPixelFormat_noShareLists _ _ _ h1) _ _ h

theorem setPixelFormat_noShareLists {k : Nat} (s : State) (h : s.world.noShareListsFrom k) :
    (setPixelFormat s).2.world.noShareListsFrom k := by
  have hg := getSampleOpenGLContext_noShareLists {} s.window._hdc s.window._screenOriginX
    s.window._screenOriginY h
  unfold setPixelFormat
  dsimp only
  generalize getSampleOpenGLContext {} s.window._hdc s.window._screenOriginX
    s.window._screenOriginY s.world = g at hg ⊢
  obtain ⟨gb, gc, gw⟩ := g
  dsimp only at hg ⊢
  cases gb
  · simp only [if_true]
    exact OpenGLContext.destructor_noShareLists gc hg
  · simp only [Bool.true_eq_false, if_false]
    have hn := negotiatePixelFormat_noShareLists gc.deviceContext s.window._traits hg
    generalize negotiatePixelFormat gc.deviceContext s.window._traits gw = n at hn ⊢
    obtain ⟨r, t, w2⟩ := n
    dsimp only at hn ⊢
    cases r with
    | none => exact OpenGLContext.destructor_noShareLists gc hn
    | some idx =>
      dsimp only
      split_ifs <;> dsimp only <;>
        repeat (first | exact hn | rfl | apply OpenGLContext.destructor_noShareLists
                      | apply World.native_noShareLists)

theorem determineWindowPositionAndStyle_noShareLists {k : Nat} (decorated : Bool)
    (p : WindowPositionAndStyle) (s : State) (h : s.world.noShareListsFrom k) :
    (determineWindowPositionAndStyle decorated p s).2.2.world.noShareListsFrom k := by
  unfold determineWindowPositionAndStyle
  dsimp only
  split_ifs <;> dsimp only <;>
    repeat (first | exact h | rfl | apply World.native_noShareLists)

theorem unregisterWindowProcedure_noShareLists {k : Nat} (s : State)
    (h : s.world.noShareListsFrom k) :
    (unregisterWindowProcedure s).2.world.noShareListsFrom k := by
  rw [unregisterWindowProcedure_world]
  split_ifs
  · exact h
  · exact World.native_noShareLists h rfl

theorem registerWindowProcedure_noShareLists {k : Nat} (s : State)
    (h : s.world.noShareListsFrom k) :
    (registerWindowProcedure s).2.world.noShareListsFrom k := by
  unfold registerWindowProcedure
  dsimp only
  split_ifs <;> exact World.native_noShareLists h rfl

theorem destroyWindow_noShareLists {k : Nat} (b : Bool) (s : State)
    (h : s.world.noShareListsFrom k) : (destroyWindow b s).world.noShareListsFrom k := by
  unfold destroyWindow releaseContext releaseContextImplementation
  dsimp only
  split_ifs <;> (try dsimp only) <;>
    repeat (first | exact h | rfl | apply World.native_noShareLists
                  | apply unregisterWindowProcedure_noShareLists
                  | apply World.wglMakeCurrent_noShareLists)

theorem createWindow_noShareLists {k : Nat} (d : Bool) (s : State)
    (h : s.world.noShareListsFrom k) : (createWindow d s).2.world.noShareListsFrom k := by
  obtain ⟨win, world⟩ := s
  dsimp only at h
  have hn := determineWindowPositionAndStyle_noShareLists win._traits.windowDecoration
      { x := win._windowOriginXToRealize, y := win._windowOriginYToRealize,
        w := win._windowWidthToRealize, h := win._windowHeightToRealize }
      (State.mk win world) h
  unfold createWindow
  dsimp only
  obtain ⟨ok1, p2, ox, oy, sw, sh, w1, hd, -⟩ :=
    determineWindowPositionAndStyle_spec win._traits.windowDecoration
      { x := win._windowOriginXToRealize, y := win._windowOriginYToRealize,
        w := win._windowWidthToRealize, h := win._windowHeightToRealize }
      { window := win, world := world }
  rw [hd] at hn ⊢
  dsimp only at hn ⊢
  cases ok1
  · simp only [if_true]
    exact hn
  · simp only [Bool.true_eq_false, if_false]
    have h1n : (w1.native (NativeCall.CreateWindowEx p2.extendedStyle win._traits.useCursor
      (some win._traits.windowName) p2.style p2.x p2.y p2.w p2.h)).2.noShareListsFrom k :=
      World.native_noShareLists hn rfl
    generalize w1.native (NativeCall.CreateWindowEx p2.extendedStyle win._traits.useCursor
      (some win._traits.windowName) p2.style p2.x p2.y p2.w p2.h) = r1 at h1n ⊢
    by_cases h1 : r1.1.handle = 0
    · simp only [h1, if_true]
      exact h1n
    · simp only [h1, if_false]
      have h2n : (r1.2.native (NativeCall.GetDC r1.1.handle)).2.noShareListsFrom k :=
        World.native_noShareLists h1n rfl
      generalize r1.2.native (NativeCall.GetDC r1.1.handle) = r2 at h2n ⊢
      by_cases h2 : r2.1.handle = 0
      · simp only [h2, if_true]
        exact destroyWindow_noShareLists d _ h2n
      · simp only [h2, if_false]
        generalize hs3 : State.mk { win with
            _screenOriginX := ox, _screenOriginY := oy, _screenWidth := sw,
            _screenHeight := sh, _windowOriginXToRealize := p2.x,
            _windowOriginYToRealize := p2.y, _windowWidthToRealize := p2.w,
            _windowHeightToRealize := p2.h, _hwnd := r1.1.handle, _hdc := r2.1.handle } r2.2
          = s3
        have hs3n : s3.world.noShareListsFrom k := by rw [← hs3]; exact h2n
        have hp := setPixelFormat_noShareLists s3 hs3n
        generalize setPixelFormat s3 = p at hp ⊢
        obtain ⟨ok, pw, pwd⟩ := p
        dsimp only at hp ⊢
        cases ok
        · simp only [if_true]
          exact destroyWindow_noShareLists d _ (World.native_noShareLists hp rfl)
        · simp only [Bool.true_eq_false, if_false]
          exact hp

theorem setWindow.context_noShareLists {k : Nat} (s : State)
    (h : s.world.noShareListsFrom k) : (setWindow.context s).2.world.noShareListsFrom k := by
  have hp := setPixelFormat_noShareLists s h
  unfold setWindow.context
  dsimp only
  split_ifs <;> (try dsimp only) <;>
    repeat (first | exact hp | exact h | rfl | apply World.native_noShareLists)

theorem setWindow.register_noShareLists {k : Nat} (s : State)
    (h : s.world.noShareListsFrom k) : (setWindow.register s).2.world.noShareListsFrom k := by
  have hp := registerWindowProcedure_noShareLists s h
  unfold setWindow.register
  dsimp only
  split_ifs <;> (try dsimp only) <;>
    repeat (first | exact hp | rfl | apply World.native_noShareLists)

theorem setWindow_noShareLists {k : Nat} (handle : HWND) (s : State)
    (h : s.world.noShareListsFrom k) : (setWindow handle s).2.world.noShareListsFrom k := by
  unfold setWindow
  dsimp only
  split_ifs <;> (try dsimp only) <;>
    repeat (first | exact h | rfl | apply World.native_noShareLists
                  | apply setWindow.register_noShareLists
                  | apply setWindow.context_noShareLists)

theorem init_noShareLists {k : Nat} (d : Bool) (s : State) (h : s.world.noShareListsFrom k) :
    (init d s).world.noShareListsFrom k := by
  unfold init
  dsimp only
  split_ifs
  · exact h
  · exact createWindow_noShareLists d _ h
  · exact setWindow_noShareLists _ _ h

theorem init_callsSince_noShareLists (d : Bool) (s : State) :
    ∀ c ∈ (init d s).world.callsSince s.world, c.isShareLists = false := by
  intro c hc
  have h0 : s.world.noShareListsFrom s.world.trace.length := by
    intro e he
    simp at he
  have h1 := init_noShareLists d s h0
  unfold World.callsSince calls at hc
  obtain ⟨e, he, hec⟩ := List.mem_map.mp hc
  rw [← hec]
  exact h1 e he

/-- C26.  A window which is neither initialized nor realized and whose Traits configure as
shared context a Win32 window cannot be realized: whatever the native calls answer,
`realizeImplementation` returns false, what it leaves behind is exactly what `init` alone
leaves behind, the realized flag is still false, and none of the native calls issued since
the call started is the share-lists call.  When `init` succeeds the failure comes from
`makeCurrent`, which refuses the window that is not yet marked as realized. -/
theorem realizeImplementation_unrealized_sharing_fails (d : Bool) (s : State) (g : HGLRC)
    (hi : s.window._initialized = false) (hr : s.window._realized = false)
    (hs : s.window._traits.sharedContext = SharedContext.win32 g) :
    realizeImplementation d s = (false, init d s)
      ∧ (realizeImplementation d s).2.window._realized = false
      ∧ ((init d s).window._initialized = true → makeCurrent (init d s) = (false, init d s))
      ∧ ∀ c ∈ (realizeImplementation d s).2.world.callsSince s.world,
          c.isShareLists = false := by
  have h1 := init_realized d s hr
  have h2 : (init d s).window._traits.sharedContext = SharedContext.win32 g := by
    rw [init_sharedContext, hs]
  have hm : makeCurrent (init d s) = (false, init d s) := by
    unfold makeCurrent makeCurrentImplementation
    rw [if_pos h1]
  have he : realizeImplementation d s = (false, init d s) := by
    unfold realizeImplementation
    rw [if_neg (by simp [hr])]
    unfold realizeImplementation.initAndShare
    rw [if_pos hi]
    dsimp only
    by_cases h3 : (init d s).window._initialized = false
    · rw [if_pos h3]
      simp
    · rw [if_neg h3, h2]
      dsimp only
      rw [hm]
      simp
  refine ⟨he, ?_, fun _ => hm, ?_⟩
  · rw [he]; exact h1
  · rw [he]
    exact init_callsSince_noShareLists d s

theorem realizeImplementation_unrealized_sharing_fails_witness :
    (closeImplementation true (sharingWindow true)).window._initialized = false
      ∧ (closeImplementation true (sharingWindow true)).window._realized = false
      ∧ (closeImplementation true (sharingWindow true)).window._traits.sharedContext
          = SharedContext.win32 9
      ∧ realizeImplementation true (closeImplementation true (sharingWindow true))
          = (false, init true (closeImplementation true (sharingWindow true)))
      ∧ (init true (closeImplementation true (sharingWindow true))).window._initialized = true
      ∧ (realizeImplementation true
            (closeImplementation true (sharingWindow true))).2.window._realized = false
      ∧ (calls (realizeImplementation true
            (closeImplementation true (sharingWindow true))).2.world.trace).all
          (fun c => !c.isShareLists) = true :=
  ⟨by decide, by decide, by decide,
    (realizeImplementation_unrealized_sharing_fails true
      (closeImplementation true (sharingWindow true)) 9 (by decide) (by decide) (by decide)).1,
    by decide, by decide, by decide⟩

end OsgWin32
